import Mathlib

/-! Space shooter: the simulation core of `Game.h`

A shallow embedding of the entity simulation in `src/Game.h` and theorems about it.

Conventions of the embedding.

* C++ `int` is `Int` (signed overflow is undefined behaviour in C++, so there is no wrap to
  model); `int / int` is truncating division, `Int.tdiv`.
* C++ `float` is `ℚ`: arithmetic is exact, rounding is not modelled.
* `std::vector` is `List`; `v.erase(v.begin() + i)` is `List.eraseIdx`, `emplace_back` appends.
  A `size_t` index that is decremented after an erase and incremented by the loop header keeps
  its value (also at `i = 0`, where it wraps to the maximum and back), so such a loop
  continues at the same index; an iterator loop is the same loop on the index of the iterator.
* Every loop over a vector is a function `...Loop` by recursion on a fuel argument, with the
  loop index as a further argument and the body in source order; the function without `Loop` in
  its name starts it at index 0 with the length of the vector as fuel. The theorems
  `..._fuel_succ` show that this is enough fuel: the loop ends because its index has reached
  the end of the vector.
* SFML is outside the repository. A sprite keeps the transform data the source sets on it;
  what SFML computes from it (`getGlobalBounds`) and the C library (`sin`, `cos`, `sqrt`,
  `atan2`, the sequence returned by `rand()`), the keyboard and the asset sizes are the
  fields of `Env`. Audio calls, text strings and shapes that are only drawn are left out.
* `Game` carries four history variables (`randCalls`, `saveCalls`, `saveHearts`, `bulletHits`)
  that record calls of `rand()`, of `saveHighScore` (argument and heart count at the call)
  and of `takeDamage` for a player bullet.
-/

namespace SpaceShooter

/-! ## Data model -/

/-- The enum class `GameState`. -/
inductive GameState where
  | MENU | PLAYING | GAME_OVER | HIGHSCORE | LOADING | OPTIONS
  deriving DecidableEq, Repr

/-- The SFML type `sf::Vector2f`. -/
structure Vector2f where
  x : ℚ := 0
  y : ℚ := 0
  deriving DecidableEq, Repr

/-- The SFML type `sf::FloatRect`. -/
structure FloatRect where
  position : Vector2f := {}
  size : Vector2f := {}
  deriving DecidableEq, Repr

/-- The two frame vectors an `Explosion` can point to. -/
inductive Frames where
  | explosionFrames | playerExplosionFrames
  deriving DecidableEq, Repr

/-- Texture handles: the texture members of `Game`. -/
inductive Texture where
  | bulletTex | playerBulletTex | bossTex | asteroidTex | coinTex | healTex | boltTex
  | playerTextures (i : Nat)
  | enemyTextures (i : Nat)
  | frame (f : Frames) (i : Nat)
  deriving DecidableEq, Repr

/-- The transform state of an `sf::Sprite`. -/
structure Sprite where
  texture : Texture
  position : Vector2f := {}
  rotation : ℚ := 0
  scale : Vector2f := ⟨1, 1⟩
  origin : Vector2f := {}
  deriving DecidableEq, Repr

/-- Keys read through `sf::Keyboard::isKeyPressed`. -/
inductive Key where
  | W | Up | S | Down | A | D | Left | Right
  deriving DecidableEq, Repr

/-- What the simulation takes from SFML, the C library and the assets. -/
structure Env where
  /-- The function `std::sin`. -/
  sin : ℚ → ℚ
  /-- The function `std::cos`. -/
  cos : ℚ → ℚ
  /-- The function `std::sqrt`. -/
  sqrt : ℚ → ℚ
  /-- The function `std::atan2`. -/
  atan2 : ℚ → ℚ → ℚ
  /-- Conversion `sf::Angle::asRadians` of a rotation kept in degrees. -/
  asRadians : ℚ → ℚ
  /-- The `n`-th value returned by `rand()` since the program started. -/
  rand : Nat → Nat
  /-- Size of a texture (the local bounds of a sprite made from it). -/
  textureSize : Texture → Vector2f
  /-- The SFML method `sf::Sprite::getGlobalBounds`. -/
  globalBounds : Sprite → FloatRect
  /-- Keyboard state during the tick. -/
  isKeyPressed : Key → Bool
  /-- Number of textures in `explosionFrames` (and in its copy `playerExplosionFrames`). -/
  frameCount : Nat

/-- Width of the window created by the constructor of `Game`. -/
def windowWidth : Nat := 1200

/-- Height of the window created by the constructor of `Game`. -/
def windowHeight : Nat := 900

/-- SFML `Rect::findIntersection`, used as a boolean: the two rectangles overlap in a region of
positive area (sizes may be negative). -/
def FloatRect.findIntersection (a b : FloatRect) : Bool :=
  let r1MinX := min a.position.x (a.position.x + a.size.x)
  let r1MaxX := max a.position.x (a.position.x + a.size.x)
  let r1MinY := min a.position.y (a.position.y + a.size.y)
  let r1MaxY := max a.position.y (a.position.y + a.size.y)
  let r2MinX := min b.position.x (b.position.x + b.size.x)
  let r2MaxX := max b.position.x (b.position.x + b.size.x)
  let r2MinY := min b.position.y (b.position.y + b.size.y)
  let r2MaxY := max b.position.y (b.position.y + b.size.y)
  let interLeft := max r1MinX r2MinX
  let interTop := max r1MinY r2MinY
  let interRight := min r1MaxX r2MaxX
  let interBottom := min r1MaxY r2MaxY
  decide (interLeft < interRight) && decide (interTop < interBottom)

/-- The test `a.getGlobalBounds().findIntersection(b.getGlobalBounds())`. -/
def Env.hit (env : Env) (a b : Sprite) : Bool :=
  (env.globalBounds a).findIntersection (env.globalBounds b)

/-! ### Bullet -/

/-- The struct `Bullet`. -/
structure Bullet where
  sprite : Sprite
  direction : Vector2f
  speed : ℚ := 500
  deriving DecidableEq, Repr

/-- Constructor `Bullet(texture, x, y, dirX, dirY)`. -/
def Bullet.new (env : Env) (texture : Texture) (x y dirX dirY : ℚ) : Bullet :=
  let angleDeg := env.atan2 dirY dirX * 180 / (314159 / 100000)
  { sprite := { texture := texture, position := ⟨x, y⟩, scale := ⟨3 / 2, 3 / 2⟩,
                rotation := angleDeg + 90 },
    direction := ⟨dirX, dirY⟩ }

/-- Method `Bullet::update`. -/
def Bullet.update (b : Bullet) (dt : ℚ) : Bullet :=
  { b with sprite := { b.sprite with
      position := ⟨b.sprite.position.x + b.direction.x * b.speed * dt,
                   b.sprite.position.y + b.direction.y * b.speed * dt⟩ } }

/-! ### Explosion -/

/-- The struct `Explosion`. -/
structure Explosion where
  frames : Frames
  sprite : Sprite
  currentFrame : Int := 0
  frameTimer : ℚ := 0
  frameDuration : ℚ := 1 / 20
  finished : Bool := false
  deriving DecidableEq, Repr

/-- Constructor `Explosion(explosionFrames, x, y)`. -/
def Explosion.new (env : Env) (frames : Frames) (x y : ℚ) : Explosion :=
  let tex := Texture.frame frames 0
  if env.frameCount ≠ 0 then
    let bounds := env.textureSize tex
    { frames := frames,
      sprite := { texture := tex, origin := ⟨bounds.x / 2, bounds.y / (3 / 2)⟩,
                  position := ⟨x, y⟩, scale := ⟨2, 2⟩ } }
  else
    { frames := frames, sprite := { texture := tex } }

/-- Method `Explosion::update`. -/
def Explosion.update (env : Env) (e : Explosion) (dt : ℚ) : Explosion :=
  if e.finished || env.frameCount == 0 then e
  else
    let e1 := { e with frameTimer := e.frameTimer + dt }
    if e1.frameTimer ≥ e1.frameDuration then
      let e2 := { e1 with frameTimer := 0, currentFrame := e1.currentFrame + 1 }
      if e2.currentFrame ≥ (env.frameCount : Int) then { e2 with finished := true }
      else { e2 with sprite := { e2.sprite with
               texture := Texture.frame e2.frames e2.currentFrame.toNat } }
    else e1

/-- Method `Explosion::isFinished`. -/
def Explosion.isFinished (e : Explosion) : Bool := e.finished

/-! ### Powerup -/

/-- The enum `Powerup::Type`. -/
inductive PowerupType where
  | SCORE_BONUS | HEAL | TRIPLE_SHOT
  deriving DecidableEq, Repr

/-- The cast `static_cast<Powerup::Type>(typeId)` for `typeId = rand() % 3`. -/
def PowerupType.ofTypeId (n : Nat) : PowerupType :=
  if n = 0 then .SCORE_BONUS else if n = 1 then .HEAL else .TRIPLE_SHOT

/-- The struct `Powerup`; the field `type` is named `type_`. -/
structure Powerup where
  sprite : Sprite
  type_ : PowerupType
  speed : ℚ := 100
  deriving DecidableEq, Repr

/-- Constructor `Powerup(texture, t, x, y)`. -/
def Powerup.new (env : Env) (texture : Texture) (t : PowerupType) (x y : ℚ) : Powerup :=
  let bounds := env.textureSize texture
  { sprite := { texture := texture, position := ⟨x, y⟩, scale := ⟨1 / 25, 1 / 25⟩,
                origin := ⟨bounds.x / 2, bounds.y / 2⟩ },
    type_ := t }

/-- Method `Powerup::update`. -/
def Powerup.update (p : Powerup) (dt : ℚ) : Powerup :=
  { p with sprite := { p.sprite with
      position := ⟨p.sprite.position.x + 0, p.sprite.position.y + p.speed * dt⟩ } }

/-- Method `Powerup::getType`. -/
def Powerup.getType (p : Powerup) : PowerupType := p.type_

/-! ### Asteroid -/

/-- The struct `Asteroid`. -/
structure Asteroid where
  sprite : Sprite
  speed : ℚ := 20
  rotationSpeed : ℚ := 45
  health : Int := 15
  isAlive : Bool := true
  deriving DecidableEq, Repr

/-- Constructor `Asteroid(texture, startX, startY)`. -/
def Asteroid.new (env : Env) (texture : Texture) (startX startY : ℚ) : Asteroid :=
  let bounds := env.textureSize texture
  { sprite := { texture := texture, position := ⟨startX, startY⟩, scale := ⟨4 / 5, 4 / 5⟩,
                origin := ⟨bounds.x / 2, bounds.y / 2⟩ } }

/-- Method `Asteroid::takeDamage`. -/
def Asteroid.takeDamage (a : Asteroid) (damage : Int) : Asteroid :=
  let a1 := { a with health := a.health - damage }
  if a1.health ≤ 0 then { a1 with isAlive := false } else a1

/-- Method `Asteroid::update`. -/
def Asteroid.update (a : Asteroid) (dt : ℚ) : Asteroid :=
  if !a.isAlive then a
  else
    let newY := a.sprite.position.y + a.speed * dt
    { a with sprite := { a.sprite with
        position := ⟨a.sprite.position.x, newY⟩,
        rotation := a.sprite.rotation + a.rotationSpeed * dt } }

/-! ### Enemy -/

/-- The struct `Enemy`. -/
structure Enemy where
  sprite : Sprite
  speed : ℚ := 50
  hp : Int := 70
  startX : ℚ
  sineTimer : ℚ := 0
  shootCooldown : ℚ
  shootTimer : ℚ := 0
  deriving DecidableEq, Repr

/-- Constructor `Enemy(texture, x, y)`; `r` is the value its call of `rand()` returns. -/
def Enemy.new (env : Env) (r : Nat) (texture : Texture) (x y : ℚ) : Enemy :=
  let bounds := env.textureSize texture
  { sprite := { texture := texture, position := ⟨x, y⟩, scale := ⟨11 / 100, 11 / 100⟩,
                origin := ⟨bounds.x / 2, bounds.y / 2⟩ },
    startX := x,
    shootCooldown := ((r % 40 + 20 : Nat) : ℚ) / 10 }

/-- Method `Enemy::getHp`. -/
def Enemy.getHp (e : Enemy) : Int := e.hp

/-- Method `Enemy::takeDamage`. -/
def Enemy.takeDamage (e : Enemy) (damage : Int) : Enemy :=
  let e1 := { e with hp := e.hp - damage }
  if e1.hp < 0 then { e1 with hp := 0 } else e1

/-- Method `Enemy::update`: the enemy after the update and the bullet vector it appends to. -/
def Enemy.update (env : Env) (e : Enemy) (dt : ℚ) (bullets : List Bullet) :
    Enemy × List Bullet :=
  let sineTimer := e.sineTimer + dt
  let newY := e.sprite.position.y + e.speed * dt
  let newX0 := e.startX + env.sin (sineTimer * (1 / 2)) * 100
  let spriteWidth := (env.globalBounds e.sprite).size.x
  let newX := max (spriteWidth / 2) (min newX0 (1200 - spriteWidth / 2))
  let e1 := { e with sineTimer := sineTimer,
                     sprite := { e.sprite with position := ⟨newX, newY⟩ },
                     shootTimer := e.shootTimer + dt }
  if e1.shootTimer ≥ e1.shootCooldown then
    ({ e1 with shootTimer := 0 },
     bullets ++ [Bullet.new env .bulletTex e1.sprite.position.x e1.sprite.position.y 0 1])
  else (e1, bullets)

/-! ### Boss -/

/-- The struct `Boss` (the two rectangles of the hp bar are only drawn). -/
structure Boss where
  sprite : Sprite
  hp : Int
  maxHp : Int
  speed : ℚ := 75
  movingRight : Bool := true
  attackTimer : ℚ := 0
  attackMax : ℚ := 5 / 4
  bulletSpeed : ℚ
  deriving DecidableEq, Repr

/-- Constructor `Boss(texture, health, bSpeed)`. -/
def Boss.new (env : Env) (texture : Texture) (health : Int) (bSpeed : ℚ) : Boss :=
  let bounds := env.textureSize texture
  { sprite := { texture := texture, scale := ⟨1 / 5, 1 / 5⟩,
                origin := ⟨bounds.x / 2, bounds.y / 2⟩ },
    hp := health, maxHp := health, bulletSpeed := bSpeed }

/-- Method `Boss::takeDamage`. -/
def Boss.takeDamage (b : Boss) (damage : Int) : Boss := { b with hp := b.hp - damage }

/-- Method `Boss::isAlive`. -/
def Boss.isAlive (b : Boss) : Bool := decide (b.hp > 0)

/-- Method `Boss::update`: the boss after the update and the bullet vector it appends to. -/
def Boss.update (env : Env) (b : Boss) (dt : ℚ) (enemyBullets : List Bullet) :
    Boss × List Bullet :=
  let pos := b.sprite.position
  let windowW : ℚ := windowWidth
  let halfW := (env.globalBounds b.sprite).size.x / 2
  let b1 : Boss × Vector2f :=
    if b.movingRight then
      let pos1 : Vector2f := { pos with x := pos.x + b.speed * dt }
      (if pos1.x + halfW > windowW then { b with movingRight := false } else b, pos1)
    else
      let pos1 : Vector2f := { pos with x := pos.x - b.speed * dt }
      (if pos1.x - halfW < 0 then { b with movingRight := true } else b, pos1)
  let pos2 : Vector2f := if b1.2.y < 150 then { b1.2 with y := b1.2.y + 50 * dt } else b1.2
  let b2 : Boss := { b1.1 with sprite := { b1.1.sprite with position := pos2 },
                               attackTimer := b1.1.attackTimer + dt }
  if b2.attackTimer ≥ b2.attackMax then
    let spawnX := pos2.x
    let spawnY := pos2.y + (env.globalBounds b2.sprite).size.y / 2
    let bullet1 := { Bullet.new env .bulletTex spawnX spawnY 0 1 with speed := b2.bulletSpeed }
    let angleLeft : ℚ := -25 * (314159 / 100000) / 180
    let bullet2 := { Bullet.new env .bulletTex spawnX spawnY (env.sin angleLeft)
                       (env.cos angleLeft) with speed := b2.bulletSpeed }
    let angleRight : ℚ := 25 * (314159 / 100000) / 180
    let bullet3 := { Bullet.new env .bulletTex spawnX spawnY (env.sin angleRight)
                       (env.cos angleRight) with speed := b2.bulletSpeed }
    ({ b2 with attackTimer := 0 }, enemyBullets ++ [bullet1] ++ [bullet2] ++ [bullet3])
  else (b2, enemyBullets)

/-! ### Player -/

/-- The struct `Player`; `textures` always points to `playerTextures` (five textures). -/
structure Player where
  sprite : Sprite
  velocity : Vector2f := {}
  movementSpeed : ℚ := 400
  attackCooldown : ℚ := 1 / 5
  attackTimer : ℚ
  tripleShotTimer : ℚ := 0
  rotationSpeed : ℚ := 150
  currentFrame : Int := 2
  animTimer : ℚ := 0
  animSpeed : ℚ := 1 / 20
  deriving DecidableEq, Repr

/-- Constructor `Player(tex)`. -/
def Player.new (env : Env) : Player :=
  let bounds := env.textureSize (.playerTextures 2)
  { sprite := { texture := .playerTextures 2, scale := ⟨33 / 20, 33 / 20⟩,
                origin := ⟨bounds.x / 2, bounds.y / 2⟩ },
    attackTimer := 1 / 5 }

/-- Method `Player::setPosition`. -/
def Player.setPosition (p : Player) (x y : ℚ) : Player :=
  { p with sprite := { p.sprite with position := ⟨x, y⟩ } }

/-- Method `Player::canAttack`. -/
def Player.canAttack (p : Player) : Bool := decide (p.attackTimer ≥ p.attackCooldown)

/-- Method `Player::resetAttackTimer`. -/
def Player.resetAttackTimer (p : Player) : Player := { p with attackTimer := 0 }

/-- Method `Player::activateTripleShot`. -/
def Player.activateTripleShot (p : Player) (duration : ℚ) : Player :=
  { p with tripleShotTimer := duration }

/-- Method `Player::isTripleShotActive`. -/
def Player.isTripleShotActive (p : Player) : Bool := decide (p.tripleShotTimer > 0)

/-- First part of `Player::update`: the attack and triple-shot timers. -/
def Player.updateTimers (p : Player) (dt : ℚ) : Player :=
  let p1 : Player :=
    if p.attackTimer < p.attackCooldown then { p with attackTimer := p.attackTimer + dt } else p
  if p1.tripleShotTimer > 0 then { p1 with tripleShotTimer := p1.tripleShotTimer - dt } else p1

/-- Second part of `Player::update`: velocity and rotation read from the keyboard. -/
def Player.handleInput (env : Env) (p : Player) (dt : ℚ) : Player :=
  let vy0 : ℚ := if env.isKeyPressed .W || env.isKeyPressed .Up then -1 else 0
  let vy : ℚ := if env.isKeyPressed .S || env.isKeyPressed .Down then 1 else vy0
  let vx0 : ℚ := if env.isKeyPressed .A then -1 else 0
  let vx : ℚ := if env.isKeyPressed .D then 1 else vx0
  let rot1 : ℚ := if env.isKeyPressed .Left then p.sprite.rotation + -p.rotationSpeed * dt
                  else p.sprite.rotation
  let rot2 : ℚ := if env.isKeyPressed .Right then rot1 + p.rotationSpeed * dt else rot1
  { p with velocity := ⟨vx, vy⟩, sprite := { p.sprite with rotation := rot2 } }

/-- Third part of `Player::update`: the animation frame. -/
def Player.animate (env : Env) (p : Player) (dt : ℚ) : Player :=
  let animTimer : ℚ := p.animTimer + dt
  if animTimer ≥ p.animSpeed then
    let targetFrame : Int :=
      if env.isKeyPressed .A then 0 else if env.isKeyPressed .D then 4 else 2
    let frame : Int :=
      if p.currentFrame < targetFrame then p.currentFrame + 1
      else if p.currentFrame > targetFrame then p.currentFrame - 1
      else p.currentFrame
    let spr : Sprite :=
      if 0 ≤ frame ∧ frame < 5 then { p.sprite with texture := .playerTextures frame.toNat }
      else p.sprite
    { p with animTimer := 0, currentFrame := frame, sprite := spr }
  else { p with animTimer := animTimer }

/-- Fourth part of `Player::update`: normalise the velocity and move. -/
def Player.moveSprite (env : Env) (p : Player) (dt : ℚ) : Player :=
  if p.velocity.x ≠ 0 ∨ p.velocity.y ≠ 0 then
    let length : ℚ := env.sqrt (p.velocity.x * p.velocity.x + p.velocity.y * p.velocity.y)
    let v : Vector2f := ⟨p.velocity.x / length, p.velocity.y / length⟩
    { p with velocity := v,
             sprite := { p.sprite with
               position := ⟨p.sprite.position.x + v.x * p.movementSpeed * dt,
                            p.sprite.position.y + v.y * p.movementSpeed * dt⟩ } }
  else p

/-- Last part of `Player::update`: keep the player within the window. -/
def Player.keepInWindow (env : Env) (p : Player) : Player :=
  let pos : Vector2f := p.sprite.position
  let bounds : FloatRect := env.globalBounds p.sprite
  let halfW : ℚ := bounds.size.x / 2
  let halfH : ℚ := bounds.size.y / 2
  let x1 : ℚ := if pos.x - halfW < 0 then halfW else pos.x
  let x2 : ℚ := if x1 + halfW > (windowWidth : ℚ) then (windowWidth : ℚ) - halfW else x1
  let y1 : ℚ := if pos.y - halfH < 0 then halfH else pos.y
  let y2 : ℚ := if y1 + halfH > (windowHeight : ℚ) then (windowHeight : ℚ) - halfH else y1
  { p with sprite := { p.sprite with position := ⟨x2, y2⟩ } }

/-- Method `Player::update`, its five parts in the order of the source. -/
def Player.update (env : Env) (p : Player) (dt : ℚ) : Player :=
  Player.keepInWindow env
    (Player.moveSprite env
      (Player.animate env (Player.handleInput env (Player.updateTimers p dt) dt) dt) dt)

/-! ### Star field -/

/-- The struct `Star`: the position of its shape and its speed. -/
structure Star where
  position : Vector2f
  speed : ℚ
  deriving DecidableEq, Repr

/-- Method `StarField::update`: the stars after the update and the number of `rand()` calls made
so far; `n` is that number before the call. -/
def StarField.update (env : Env) (dt : ℚ) : List Star → Nat → List Star × Nat
  | [], n => ([], n)
  | star :: rest, n =>
    let moved : Star := { star with position := ⟨star.position.x + 0,
                                                  star.position.y + star.speed * dt⟩ }
    if moved.position.y > (windowHeight : ℚ) then
      let x : ℚ := ((env.rand n % windowWidth : Nat) : ℚ)
      let r := StarField.update env dt rest (n + 1)
      ({ moved with position := ⟨x, -5⟩ } :: r.1, r.2)
    else
      let r := StarField.update env dt rest n
      (moved :: r.1, r.2)

/-! ### Screen shake -/

/-- The struct `ScreenShake`. -/
structure ScreenShake where
  shakeAmount : ℚ := 0
  shakeDuration : ℚ := 0
  shakeTimer : ℚ := 0
  maxShakeDuration : ℚ := 0
  deriving DecidableEq, Repr

/-- Method `ScreenShake::shake`. -/
def ScreenShake.shake (_s : ScreenShake) (amount duration : ℚ) : ScreenShake :=
  { shakeAmount := amount, shakeDuration := duration, maxShakeDuration := duration,
    shakeTimer := 0 }

/-- Method `ScreenShake::update`. -/
def ScreenShake.update (s : ScreenShake) (dt : ℚ) : ScreenShake :=
  if s.shakeTimer < s.shakeDuration then { s with shakeTimer := s.shakeTimer + dt } else s

/-- Method `ScreenShake::getOffset`. The division by `maxShakeDuration` has no rational value
when the divisor is 0 (the float result is infinite or not a number): `none` stands for that
case. -/
def ScreenShake.getOffset (env : Env) (s : ScreenShake) : Option Vector2f :=
  if s.shakeTimer ≥ s.shakeDuration then some ⟨0, 0⟩
  else if s.maxShakeDuration = 0 then none
  else
    let intensity : ℚ := (s.shakeDuration - s.shakeTimer) / s.maxShakeDuration
    let offsetX : ℚ := env.sin (s.shakeTimer * 50) * s.shakeAmount * intensity
    let offsetY : ℚ := env.sin (s.shakeTimer * 70) * s.shakeAmount * intensity
    some ⟨offsetX, offsetY⟩

/-! ### HUD -/

/-- The struct `HUD` (font, texts and heart sprites are only drawn). -/
structure HUD where
  score : Int := 0
  currentHearts : Int := 10
  maxHearts : Int := 10
  enemiesDefeated : Int := 0
  powerupMessageTimer : ℚ := 0
  powerupMessageDuration : ℚ := 2
  showPowerupMessage : Bool := false
  deriving DecidableEq, Repr

/-- Method `HUD::showPowerup`. -/
def HUD.showPowerup (h : HUD) : HUD :=
  { h with showPowerupMessage := true, powerupMessageTimer := 0 }

/-- Method `HUD::addScore`. -/
def HUD.addScore (h : HUD) (points : Int) : HUD := { h with score := h.score + points }

/-- Method `HUD::getScore`. -/
def HUD.getScore (h : HUD) : Int := h.score

/-- Method `HUD::loseHeart`. -/
def HUD.loseHeart (h : HUD) : HUD :=
  if h.currentHearts > 0 then { h with currentHearts := h.currentHearts - 1 } else h

/-- Method `HUD::isAlive`. -/
def HUD.isAlive (h : HUD) : Bool := decide (h.currentHearts > 0)

/-- Method `HUD::heal`. -/
def HUD.heal (h : HUD) (amount : Int) : HUD :=
  { h with currentHearts := min (h.currentHearts + amount) h.maxHearts }

/-- Method `HUD::addEnemyDefeated`. -/
def HUD.addEnemyDefeated (h : HUD) : HUD := { h with enemiesDefeated := h.enemiesDefeated + 1 }

/-- Method `HUD::getSpawnRateMultiplier`. -/
def HUD.getSpawnRateMultiplier (h : HUD) : ℚ :=
  let multiplier : ℚ := 1 + ((Int.tdiv h.score 100 : Int) : ℚ) * (1 / 5)
  min multiplier (11 / 5)

/-- Method `HUD::update`. -/
def HUD.update (h : HUD) (dt : ℚ) : HUD :=
  if h.showPowerupMessage then
    let h1 := { h with powerupMessageTimer := h.powerupMessageTimer + dt }
    if h1.powerupMessageTimer ≥ h1.powerupMessageDuration then
      { h1 with showPowerupMessage := false }
    else h1
  else h

/-- Method `HUD::reset`. -/
def HUD.reset (h : HUD) : HUD :=
  { h with score := 0, currentHearts := h.maxHearts, enemiesDefeated := 0,
           showPowerupMessage := false, powerupMessageTimer := 0 }

/-- The loop `for (int k = 0; k < 5 && hud.isAlive(); k++) hud.loseHeart();`, with the number
of iterations still allowed by the bound on `k` as first argument. -/
def loseHearts : Nat → HUD → HUD
  | 0, h => h
  | n + 1, h => if h.isAlive then loseHearts n h.loseHeart else h

/-! ### Input events -/

/-- Key codes of `sf::Event::KeyPressed` that the menus tell apart. -/
inductive KeyCode where
  | Up | Down | Enter | Escape | P | other
  deriving DecidableEq, Repr

/-- The events returned by `window.pollEvent()`; mouse positions are in pixels. -/
inductive Event where
  | Closed
  | KeyPressed (code : KeyCode)
  | MouseMoved (x y : Int)
  | MouseButtonPressed (left : Bool) (x y : Int)
  | other
  deriving DecidableEq, Repr

/-- What the menus take from the window, the SFML shapes and the assets. -/
structure Ui where
  /-- The SFML method `window.mapPixelToCoords`. -/
  mapPixelToCoords : Int → Int → Vector2f
  /-- The test `iconButtons[i].rectangle->getGlobalBounds().contains(mousePos)` of `Menu`. -/
  menuButtonContains : Nat → Vector2f → Bool
  /-- The test `pauseIconBounds.contains(mousePos)` of `PauseMenu`. -/
  pauseIconContains : Vector2f → Bool
  /-- The test `buttons[i].shape.getGlobalBounds().contains(mousePos)` of `PauseMenu`. -/
  pauseButtonContains : Nat → Vector2f → Bool
  /-- The test `buttons[i].getGlobalBounds().contains(mousePos)` of `OptionsMenu`. -/
  optionsButtonContains : Nat → Vector2f → Bool
  /-- Number of textures in `gameOverExplosionFrames`. -/
  gameOverFrameCount : Nat

/-! ### Menus -/

/-- The flags of the struct `Menu`. -/
structure Menu where
  selectedIconIndex : Int := 0
  startPressed : Bool := false
  exitPressed : Bool := false
  highScorePressed : Bool := false
  optionsPressed : Bool := false
  deriving DecidableEq, Repr

/-- Method `Menu::reset`. -/
def Menu.reset (_m : Menu) : Menu :=
  { startPressed := false, exitPressed := false, highScorePressed := false,
    optionsPressed := false, selectedIconIndex := 0 }

/-- The chain `if (i == 0) startPressed = true; else if (i == 1) optionsPressed = true; ...` of
`Menu::handleInput`. -/
def Menu.press (m : Menu) (i : Int) : Menu :=
  if i = 0 then { m with startPressed := true }
  else if i = 1 then { m with optionsPressed := true }
  else if i = 2 then { m with highScorePressed := true }
  else if i = 3 then { m with exitPressed := true }
  else m

/-- Method `Menu::handleInput` (the four buttons exist after `loadAssets`). -/
def Menu.handleInput (ui : Ui) (m : Menu) (e : Event) : Menu :=
  match e with
  | .KeyPressed .Up => { m with selectedIconIndex := (m.selectedIconIndex - 1 + 4).tmod 4 }
  | .KeyPressed .Down => { m with selectedIconIndex := (m.selectedIconIndex + 1).tmod 4 }
  | .KeyPressed .Enter => m.press m.selectedIconIndex
  | .MouseMoved x y =>
    let mousePos : Vector2f := ui.mapPixelToCoords x y
    (List.range 4).foldl
      (fun (m1 : Menu) (i : Nat) =>
        if ui.menuButtonContains i mousePos then { m1 with selectedIconIndex := (i : Int) }
        else m1) m
  | .MouseButtonPressed true x y =>
    let mousePos : Vector2f := ui.mapPixelToCoords x y
    (List.range 4).foldl
      (fun (m1 : Menu) (i : Nat) =>
        if ui.menuButtonContains i mousePos then m1.press (i : Int) else m1) m
  | _ => m

/-- Method `Menu::isStartPressed`. -/
def Menu.isStartPressed (m : Menu) : Bool := m.startPressed

/-- Method `Menu::isHighScorePressed`. -/
def Menu.isHighScorePressed (m : Menu) : Bool := m.highScorePressed

/-- Method `Menu::isOptionsPressed`. -/
def Menu.isOptionsPressed (m : Menu) : Bool := m.optionsPressed

/-- Method `Menu::isExitPressed`. -/
def Menu.isExitPressed (m : Menu) : Bool := m.exitPressed

/-- The enum `PauseMenu::Action`. -/
inductive PauseAction where
  | NONE | CONTINUE | TOGGLE_MUSIC | EXIT_GAME
  deriving DecidableEq, Repr

/-- The struct `PauseMenu` (buttons, bars and the icon pulse are only drawn). -/
structure PauseMenu where
  selectedIndex : Int := 0
  isPaused_ : Bool := false
  musicOn : Bool := true
  lastAction : PauseAction := .NONE
  deriving DecidableEq, Repr

/-- Method `PauseMenu::isPaused`. -/
def PauseMenu.isPaused (p : PauseMenu) : Bool := p.isPaused_

/-- Method `PauseMenu::setPaused`. -/
def PauseMenu.setPaused (p : PauseMenu) (v : Bool) : PauseMenu := { p with isPaused_ := v }

/-- Method `PauseMenu::getLastAction`. -/
def PauseMenu.getLastAction (p : PauseMenu) : PauseAction := p.lastAction

/-- Method `PauseMenu::resetAction`. -/
def PauseMenu.resetAction (p : PauseMenu) : PauseMenu := { p with lastAction := .NONE }

/-- The member `action` of the button `buttons[i]` as `loadAssets` sets it: the three buttons
are CONTINUE, TOGGLE_MUSIC, EXIT_GAME. There is no button at another index (the source would
read outside the vector); `NONE` stands for that case. -/
def PauseMenu.buttonAction (i : Int) : PauseAction :=
  if i = 0 then .CONTINUE else if i = 1 then .TOGGLE_MUSIC else if i = 2 then .EXIT_GAME
  else .NONE

/-- The statements of `PauseMenu::handleInput` that run when button `i` is chosen:
`lastAction = buttons[i].action`, then the music toggle or the unpause. -/
def PauseMenu.activate (p : PauseMenu) (i : Int) : PauseMenu :=
  let p1 : PauseMenu := { p with lastAction := PauseMenu.buttonAction i }
  if p1.lastAction = .TOGGLE_MUSIC then { p1 with musicOn := !p1.musicOn }
  else if p1.lastAction = .CONTINUE then { p1 with isPaused_ := false }
  else p1

/-- Method `PauseMenu::handleInput`. -/
def PauseMenu.handleInput (ui : Ui) (p : PauseMenu) (e : Event) : PauseMenu :=
  if !p.isPaused_ then
    match e with
    | .MouseButtonPressed true x y =>
      if ui.pauseIconContains (ui.mapPixelToCoords x y) then { p with isPaused_ := true } else p
    | .KeyPressed .Escape => { p with isPaused_ := true }
    | .KeyPressed .P => { p with isPaused_ := true }
    | _ => p
  else
    match e with
    | .KeyPressed .Up => { p with selectedIndex := (p.selectedIndex - 1 + 3).tmod 3 }
    | .KeyPressed .Down => { p with selectedIndex := (p.selectedIndex + 1).tmod 3 }
    | .KeyPressed .Enter => p.activate p.selectedIndex
    | .KeyPressed .Escape => { p with isPaused_ := false, lastAction := .CONTINUE }
    | .MouseButtonPressed true x y =>
      let mousePos : Vector2f := ui.mapPixelToCoords x y
      (List.range 3).foldl
        (fun (p1 : PauseMenu) (i : Nat) =>
          if ui.pauseButtonContains i mousePos then p1.activate (i : Int) else p1) p
    | _ => p

/-- The struct `GameOver` (the animation sprite is only drawn). -/
structure GameOver where
  currentFrame : Int := 0
  duration : ℚ := 1 / 10
  elapsedTime : ℚ := 0
  menu : Menu := {}
  showMenu : Bool := false
  deriving DecidableEq, Repr

/-- Method `GameOver::reset`. -/
def GameOver.reset (s : GameOver) : GameOver :=
  { s with showMenu := false, currentFrame := 0, elapsedTime := 0, menu := s.menu.reset }

/-- Method `GameOver::handleInput`. -/
def GameOver.handleInput (ui : Ui) (s : GameOver) (e : Event) : GameOver :=
  if s.showMenu then { s with menu := s.menu.handleInput ui e } else s

/-- Method `GameOver::update`; `init` creates the animation sprite iff there are frames, and
`Menu::update` is empty. -/
def GameOver.update (ui : Ui) (s : GameOver) (dt : ℚ) : GameOver :=
  if !s.showMenu then
    if ui.gameOverFrameCount ≠ 0 then
      let elapsedTime : ℚ := s.elapsedTime + dt
      if elapsedTime ≥ s.duration then
        let currentFrame : Int := s.currentFrame + 1
        if currentFrame ≥ (ui.gameOverFrameCount : Int) then
          { s with elapsedTime := 0, currentFrame := currentFrame, showMenu := true }
        else { s with elapsedTime := 0, currentFrame := currentFrame }
      else { s with elapsedTime := elapsedTime }
    else { s with showMenu := true }
  else s

/-- Method `GameOver::isRetryPressed`. -/
def GameOver.isRetryPressed (s : GameOver) : Bool := s.menu.isStartPressed

/-- Method `GameOver::isOptionsPressed`. -/
def GameOver.isOptionsPressed (s : GameOver) : Bool := s.menu.isOptionsPressed

/-- Method `GameOver::isHighScorePressed`. -/
def GameOver.isHighScorePressed (s : GameOver) : Bool := s.menu.isHighScorePressed

/-- Method `GameOver::isExitPressed`. -/
def GameOver.isExitPressed (s : GameOver) : Bool := s.menu.isExitPressed

/-- The struct `OptionsMenu` (background, buttons and the image sprite are only drawn). -/
structure OptionsMenu where
  selectedIndex : Int := 0
  musicOn : Bool := true
  showingImage : Bool := false
  currentImageIndex : Int := -1
  backPressed : Bool := false
  deriving DecidableEq, Repr

/-- Method `OptionsMenu::showImage`. -/
def OptionsMenu.showImage (o : OptionsMenu) (imageIndex : Int) : OptionsMenu :=
  { o with currentImageIndex := imageIndex, showingImage := true }

/-- Method `OptionsMenu::executeAction`. -/
def OptionsMenu.executeAction (o : OptionsMenu) (index : Int) : OptionsMenu :=
  if index = 0 then { o with musicOn := !o.musicOn }
  else if index = 1 then o.showImage 0
  else if index = 2 then o.showImage 1
  else o

/-- Method `OptionsMenu::handleInput` (the three buttons exist after `loadAssets`). -/
def OptionsMenu.handleInput (ui : Ui) (o : OptionsMenu) (e : Event) : OptionsMenu :=
  if o.showingImage then
    match e with
    | .KeyPressed .Escape => { o with showingImage := false, currentImageIndex := -1 }
    | _ => o
  else
    match e with
    | .KeyPressed .Up => { o with selectedIndex := (o.selectedIndex - 1 + 3).tmod 3 }
    | .KeyPressed .Down => { o with selectedIndex := (o.selectedIndex + 1).tmod 3 }
    | .KeyPressed .Enter => o.executeAction o.selectedIndex
    | .KeyPressed .Escape => { o with backPressed := true }
    | .MouseMoved x y =>
      let mousePos : Vector2f := ui.mapPixelToCoords x y
      (List.range 3).foldl
        (fun (o1 : OptionsMenu) (i : Nat) =>
          if ui.optionsButtonContains i mousePos then { o1 with selectedIndex := (i : Int) }
          else o1) o
    | .MouseButtonPressed true x y =>
      let mousePos : Vector2f := ui.mapPixelToCoords x y
      (List.range 3).foldl
        (fun (o1 : OptionsMenu) (i : Nat) =>
          if ui.optionsButtonContains i mousePos then o1.executeAction (i : Int) else o1) o
    | _ => o

/-- Method `OptionsMenu::isBackPressed`. -/
def OptionsMenu.isBackPressed (o : OptionsMenu) : Bool := o.backPressed

/-- Method `OptionsMenu::isMusicOn`. -/
def OptionsMenu.isMusicOn (o : OptionsMenu) : Bool := o.musicOn

/-- Method `OptionsMenu::reset`. -/
def OptionsMenu.reset (o : OptionsMenu) : OptionsMenu :=
  { o with backPressed := false, selectedIndex := 0, showingImage := false,
           currentImageIndex := -1 }

/-! ### Game -/

/-- The state of the class `Game`: its simulation members, `windowOpen` for what
`window.isOpen()` returns, and four history variables that no operation reads: the number of
`rand()` calls made so far, the values `saveHighScore` has been called with and the heart
count of the HUD at each of these calls (oldest first), and the player bullets that have
damaged a target, each recorded where the source calls `takeDamage` for it (oldest first). -/
structure Game where
  currentState : GameState := .MENU
  player : Player
  stars : List Star := []
  activeBoss : Option Boss := none
  enemies : List Enemy := []
  enemyBullets : List Bullet := []
  playerBullets : List Bullet := []
  explosions : List Explosion := []
  asteroids : List Asteroid := []
  powerups : List Powerup := []
  menu : Menu := {}
  hud : HUD := {}
  gameOverScreen : GameOver := {}
  pauseMenu : PauseMenu := {}
  screenShake : ScreenShake := {}
  optionsMenu : OptionsMenu := {}
  currentHighScore : Int := 0
  bossSpawned : Bool := false
  bossCount : Int := 0
  nextBossScore : Int := 500
  spawnTimer : ℚ := 0
  spawnTimerMax : ℚ := 17 / 4
  asteroidSpawnTimer : ℚ := 0
  asteroidSpawnTimerMax : ℚ := 20
  previousState : GameState := .MENU
  windowOpen : Bool := true
  randCalls : Nat := 0
  saveCalls : List Int := []
  saveHearts : List Int := []
  bulletHits : List Bullet := []
  deriving DecidableEq, Repr

/-- Method `Game::saveHighScore`: the file write is recorded in the history variables. -/
def Game.saveHighScore (g : Game) (score : Int) : Game :=
  { g with saveCalls := g.saveCalls ++ [score],
           saveHearts := g.saveHearts ++ [g.hud.currentHearts] }

/-- Method `Game::resetGame`. -/
def Game.resetGame (g : Game) : Game :=
  { g with enemies := [], activeBoss := none, bossSpawned := false, bossCount := 0,
           nextBossScore := 500, enemyBullets := [], playerBullets := [], explosions := [],
           asteroids := [], powerups := [], hud := g.hud.reset,
           player := g.player.setPosition 600 750 }

/-! ## The tick: `Game::updatePlaying` -/

/-- The call `explosions.emplace_back(&frames, x, y)`. -/
def Game.addExplosion (env : Env) (g : Game) (f : Frames) (pos : Vector2f) : Game :=
  { g with explosions := g.explosions ++ [Explosion.new env f pos.x pos.y] }

/-- The call `screenShake.shake(amount, duration)`. -/
def Game.shake (g : Game) (amount duration : ℚ) : Game :=
  { g with screenShake := g.screenShake.shake amount duration }

/-- The statements `gameOverScreen.reset(); currentState = GameState::GAME_OVER;`. -/
def Game.enterGameOver (g : Game) : Game :=
  { g with gameOverScreen := g.gameOverScreen.reset, currentState := .GAME_OVER }

/-- The statement
`if (hud.getScore() > currentHighScore) { currentHighScore = hud.getScore(); saveHighScore(currentHighScore); }`. -/
def Game.storeHighScore (g : Game) : Game :=
  if g.hud.getScore > g.currentHighScore then
    ({ g with currentHighScore := g.hud.getScore }).saveHighScore g.hud.getScore
  else g

/-- The statement `if (!hud.isAlive()) { gameOverScreen.reset(); currentState = GAME_OVER; }`. -/
def Game.gameOverIfDead (g : Game) : Game :=
  if !g.hud.isAlive then g.enterGameOver else g

/-- Pause menu actions at the start of `updatePlaying` (lines 1529-1537). -/
def Game.pauseActions (g : Game) : Game :=
  match g.pauseMenu.getLastAction with
  | .TOGGLE_MUSIC => { g with pauseMenu := g.pauseMenu.resetAction }
  | .EXIT_GAME =>
    let g1 : Game := { g.resetGame with currentState := .MENU }
    { g1 with pauseMenu := (g1.pauseMenu.resetAction).setPaused false }
  | _ => g

/-- Updates of the game objects (lines 1541-1545); the scrolling background is only drawn. -/
def Game.updateObjects (env : Env) (dt : ℚ) (g : Game) : Game :=
  let st : List Star × Nat := StarField.update env dt g.stars g.randCalls
  { g with stars := st.1, randCalls := st.2,
           player := g.player.update env dt,
           hud := g.hud.update dt,
           screenShake := g.screenShake.update dt }

/-- Player shooting (lines 1548-1561). -/
def Game.playerShooting (env : Env) (g : Game) : Game :=
  if g.player.canAttack then
    let player : Player := g.player.resetAttackTimer
    let angleRad : ℚ := env.asRadians player.sprite.rotation
    let px : ℚ := player.sprite.position.x
    let py : ℚ := player.sprite.position.y
    let b1 : Bullet :=
      Bullet.new env .playerBulletTex (px - 25 / 2) py (env.sin angleRad) (-env.cos angleRad)
    if player.isTripleShotActive then
      let offsetRad : ℚ := 15 * ((314159 / 100000) / 180)
      let b2 : Bullet := Bullet.new env .playerBulletTex (px - 15) py
        (env.sin (angleRad - offsetRad)) (-env.cos (angleRad - offsetRad))
      let b3 : Bullet := Bullet.new env .playerBulletTex (px - 15) py
        (env.sin (angleRad + offsetRad)) (-env.cos (angleRad + offsetRad))
      { g with player := player, playerBullets := g.playerBullets ++ [b1] ++ [b2] ++ [b3] }
    else
      { g with player := player, playerBullets := g.playerBullets ++ [b1] }
  else g

/-- Enemy spawning (lines 1564-1572); `enemyTextures` always holds six textures. The three
values of `rand()` are drawn in the order position, texture index, constructor. -/
def Game.enemySpawning (env : Env) (dt : ℚ) (g : Game) : Game :=
  if g.activeBoss.isNone then
    let spawnTimer : ℚ := g.spawnTimer + dt
    if spawnTimer ≥ g.spawnTimerMax / g.hud.getSpawnRateMultiplier then
      let randX : ℚ := ((env.rand g.randCalls % (windowWidth - 50) : Nat) : ℚ)
      let texIndex : Nat := env.rand (g.randCalls + 1) % 6
      let e : Enemy :=
        Enemy.new env (env.rand (g.randCalls + 2)) (.enemyTextures texIndex) randX (-50)
      { g with spawnTimer := 0, randCalls := g.randCalls + 3, enemies := g.enemies ++ [e] }
    else { g with spawnTimer := spawnTimer }
  else g

/-- The loop over `enemies` (lines 1575-1588), from index `i` on; `fuel` bounds the number of
iterations. After an erase the source runs `i--` and then the `i++` of the loop header, which
leaves `i` in place: for `i = 0` the unsigned index wraps to the largest `size_t` and back. -/
def Game.updateEnemiesLoop (env : Env) (dt : ℚ) : Nat → Nat → Game → Game
  | 0, _, g => g
  | fuel + 1, i, g =>
  if h : i < g.enemies.length then
    let r : Enemy × List Bullet := (g.enemies[i]).update env dt g.enemyBullets
    let g1 : Game := { g with enemies := g.enemies.set i r.1, enemyBullets := r.2 }
    if env.hit g1.player.sprite r.1.sprite then
      let g2 : Game := { g1 with hud := loseHearts 5 g1.hud }
      let g3 : Game := ((g2.addExplosion env .explosionFrames r.1.sprite.position).shake 4
        (3 / 10)).gameOverIfDead
      Game.updateEnemiesLoop env dt fuel i { g3 with enemies := g3.enemies.eraseIdx i }
    else if r.1.sprite.position.y > (windowHeight : ℚ) then
      Game.updateEnemiesLoop env dt fuel i { g1 with enemies := g1.enemies.eraseIdx i }
    else Game.updateEnemiesLoop env dt fuel (i + 1) g1
  else g

/-- The loop over `enemies` (lines 1575-1588): every iteration leaves one enemy less to visit,
so the number of enemies is enough fuel. -/
def Game.updateEnemies (env : Env) (dt : ℚ) (g : Game) : Game :=
  Game.updateEnemiesLoop env dt g.enemies.length 0 g

/-- The death check after the enemy loop (lines 1590-1593). -/
def Game.deathCheck (g : Game) : Game :=
  if !g.hud.isAlive then g.storeHighScore.enterGameOver else g

/-- Asteroid spawning (lines 1596-1600). -/
def Game.asteroidSpawning (env : Env) (dt : ℚ) (g : Game) : Game :=
  let timer : ℚ := g.asteroidSpawnTimer + dt
  if timer ≥ g.asteroidSpawnTimerMax then
    let x : ℚ := ((env.rand g.randCalls % windowWidth : Nat) : ℚ)
    { g with asteroidSpawnTimer := 0, randCalls := g.randCalls + 1,
             asteroids := g.asteroids ++ [Asteroid.new env .asteroidTex x (-50)] }
  else { g with asteroidSpawnTimer := timer }

/-- The loop over `playerBullets` for the asteroid at index `ai` (lines 1613-1623), from
bullet index `bi` on; `fuel` bounds the number of iterations. -/
def Game.asteroidVsBulletsLoop (env : Env) (ai : Nat) : Nat → Nat → Game → Game
  | 0, _, g => g
  | fuel + 1, bi, g =>
  if h : bi < g.playerBullets.length then
    match g.asteroids[ai]? with
    | none => g
    | some a =>
      if env.hit a.sprite (g.playerBullets[bi]).sprite then
        let a1 : Asteroid := a.takeDamage 1
        let g1 : Game := { g with asteroids := g.asteroids.set ai a1,
                                  bulletHits := g.bulletHits ++ [g.playerBullets[bi]] }
        let g2 : Game := g1.addExplosion env .explosionFrames a1.sprite.position
        let g3 : Game := { g2 with playerBullets := g2.playerBullets.eraseIdx bi }
        Game.asteroidVsBulletsLoop env ai fuel bi (g3.shake 4 (3 / 20))
      else Game.asteroidVsBulletsLoop env ai fuel (bi + 1) g
  else g

/-- The loop over `playerBullets` for the asteroid at index `ai` (lines 1613-1623). -/
def Game.asteroidVsBullets (env : Env) (ai : Nat) (g : Game) : Game :=
  Game.asteroidVsBulletsLoop env ai g.playerBullets.length 0 g

/-- The end of the body of the asteroid loop (lines 1625-1634) for the asteroid `a` at index
`ai`: the game after it and whether the asteroid was erased. -/
def Game.removeAsteroidIfGone (env : Env) (ai : Nat) (a : Asteroid) (g : Game) : Game × Bool :=
  if !a.isAlive then
    let g1 : Game := { g with hud := g.hud.addScore 30 }
    let g2 : Game := g1.addExplosion env .explosionFrames a.sprite.position
    ({ g2 with asteroids := g2.asteroids.eraseIdx ai }, true)
  else if a.sprite.position.y > (windowHeight : ℚ) then
    ({ g with asteroids := g.asteroids.eraseIdx ai }, true)
  else (g, false)

/-- The loop over `asteroids` (lines 1603-1635), from index `ai` on; `fuel` bounds the number
of iterations. -/
def Game.updateAsteroidsLoop (env : Env) (dt : ℚ) : Nat → Nat → Game → Game
  | 0, _, g => g
  | fuel + 1, ai, g =>
  if h : ai < g.asteroids.length then
    let a0 : Asteroid := (g.asteroids[ai]).update dt
    let g1 : Game := { g with asteroids := g.asteroids.set ai a0 }
    if env.hit g1.player.sprite a0.sprite then
      let g2 : Game := { g1 with hud := loseHearts 5 g1.hud }
      let g3 : Game := (g2.shake 4 (1 / 5)).gameOverIfDead
      Game.updateAsteroidsLoop env dt fuel ai { g3 with asteroids := g3.asteroids.eraseIdx ai }
    else
      let g4 : Game := Game.asteroidVsBullets env ai g1
      match g4.asteroids[ai]? with
      | none => g4
      | some a =>
        let r : Game × Bool := Game.removeAsteroidIfGone env ai a g4
        if r.2 then Game.updateAsteroidsLoop env dt fuel ai r.1
        else Game.updateAsteroidsLoop env dt fuel (ai + 1) r.1
  else g

/-- The loop over `asteroids` (lines 1603-1635). -/
def Game.updateAsteroids (env : Env) (dt : ℚ) (g : Game) : Game :=
  Game.updateAsteroidsLoop env dt g.asteroids.length 0 g

/-- Boss spawning (lines 1639-1643). -/
def Game.bossSpawning (env : Env) (g : Game) : Game :=
  if g.hud.getScore ≥ g.nextBossScore ∧ g.activeBoss.isNone then
    let bossHealth : Int := 250 + g.bossCount * 100
    let bossBulletSpeed : ℚ := 300 + ((min g.bossCount 5 : Int) : ℚ) * 30
    { g with activeBoss := some (Boss.new env .bossTex bossHealth bossBulletSpeed) }
  else g

/-- The rewards and bookkeeping of a defeated boss (lines 1657-1663); `boss` is the boss that
has just been hit. -/
def Game.bossDefeated (env : Env) (boss : Boss) (g : Game) : Game :=
  let g1 : Game := { g with hud := (g.hud.addScore 100).addEnemyDefeated }
  let g2 : Game := (g1.addExplosion env .explosionFrames boss.sprite.position).shake (25 / 2)
    (1 / 2)
  { g2 with powerups := g2.powerups ++
              [Powerup.new env .healTex .HEAL boss.sprite.position.x boss.sprite.position.y],
            activeBoss := none,
            bossCount := g2.bossCount + 1,
            nextBossScore := g2.nextBossScore + 600 }

/-- The loop over `playerBullets` against the boss (lines 1647-1667), from bullet index `bi`
on; it is left by `break` when the boss is defeated; `fuel` bounds the number of iterations. -/
def Game.bossVsBulletsLoop (env : Env) : Nat → Nat → Game → Game
  | 0, _, g => g
  | fuel + 1, bi, g =>
  match g.activeBoss with
  | none => g
  | some boss =>
    if h : bi < g.playerBullets.length then
      if env.hit boss.sprite (g.playerBullets[bi]).sprite then
        let boss1 : Boss := boss.takeDamage 10
        let g1 : Game := ({ g with activeBoss := some boss1,
                                   bulletHits := g.bulletHits ++ [g.playerBullets[bi]] }).addExplosion
          env .explosionFrames (g.playerBullets[bi]).sprite.position
        let g2 : Game := g1.shake 4 (1 / 10)
        let g3 : Game := { g2 with playerBullets := g2.playerBullets.eraseIdx bi }
        if !boss1.isAlive then Game.bossDefeated env boss1 g3
        else Game.bossVsBulletsLoop env fuel bi g3
      else Game.bossVsBulletsLoop env fuel (bi + 1) g
    else g

/-- The loop over `playerBullets` against the boss (lines 1647-1667). -/
def Game.bossVsBullets (env : Env) (g : Game) : Game :=
  Game.bossVsBulletsLoop env g.playerBullets.length 0 g

/-- The boss update (lines 1645-1672): movement and attack, player bullets, contact with the
player. -/
def Game.updateBoss (env : Env) (dt : ℚ) (g : Game) : Game :=
  match g.activeBoss with
  | none => g
  | some boss =>
    let r : Boss × List Bullet := boss.update env dt g.enemyBullets
    let g1 : Game := { g with activeBoss := some r.1, enemyBullets := r.2 }
    let g2 : Game := Game.bossVsBullets env g1
    match g2.activeBoss with
    | none => g2
    | some b2 =>
      if env.hit b2.sprite g2.player.sprite then
        ({ g2 with hud := g2.hud.loseHeart }).shake 10 (1 / 5)
      else g2

/-- The inner loop over `enemies` for one player bullet (lines 1679-1708) up to its `break`:
the first index `k ≥ k0` of an enemy the bullet overlaps, if there is one; `fuel` bounds the
number of iterations. -/
def scanEnemiesLoop (env : Env) (bullet : Bullet) (enemies : List Enemy) :
    Nat → Nat → Option (Fin enemies.length)
  | 0, _ => none
  | fuel + 1, k0 =>
  if h : k0 < enemies.length then
    if env.hit bullet.sprite (enemies[k0]).sprite then some ⟨k0, h⟩
    else scanEnemiesLoop env bullet enemies fuel (k0 + 1)
  else none

/-- The inner loop over `enemies` for one player bullet, from `k = 0`. -/
def scanEnemies (env : Env) (bullet : Bullet) (enemies : List Enemy) :
    Option (Fin enemies.length) :=
  scanEnemiesLoop env bullet enemies enemies.length 0

/-- The powerup drop of a destroyed enemy (lines 1691-1697). -/
def Game.dropPowerup (env : Env) (enemyPos : Vector2f) (g : Game) : Game :=
  if env.rand g.randCalls % 2 = 0 then
    let type_ : PowerupType := PowerupType.ofTypeId (env.rand (g.randCalls + 1) % 3)
    let tex : Texture :=
      if type_ = .SCORE_BONUS then .coinTex else if type_ = .HEAL then .healTex else .boltTex
    { g with randCalls := g.randCalls + 2,
             powerups := g.powerups ++ [Powerup.new env tex type_ enemyPos.x enemyPos.y] }
  else { g with randCalls := g.randCalls + 1 }

/-- The body run when bullet `i` hits enemy `k` (lines 1682-1706). -/
def Game.hitEnemy (env : Env) (i : Nat) (g : Game) (k : Fin g.enemies.length) : Game :=
  let enemyPos : Vector2f := (g.enemies[k]).sprite.position
  let enemy1 : Enemy := (g.enemies[k]).takeDamage 10
  let g1 : Game := ({ g with enemies := g.enemies.set k enemy1,
                             bulletHits := g.bulletHits ++ (g.playerBullets[i]?).toList }).addExplosion
    env .explosionFrames enemyPos
  let g2 : Game := { g1 with playerBullets := g1.playerBullets.eraseIdx i }
  if enemy1.getHp ≤ 0 then
    let g3 : Game := { g2 with hud := (g2.hud.addScore 10).addEnemyDefeated }
    let g4 : Game := Game.dropPowerup env enemyPos g3
    ({ g4 with enemies := g4.enemies.eraseIdx k }).shake 4 (1 / 5)
  else g2.shake 4 (1 / 10)

/-- The loop over `playerBullets` against the enemies (lines 1676-1713), from index `i` on;
`fuel` bounds the number of iterations. -/
def Game.playerBulletsVsEnemiesLoop (env : Env) (dt : ℚ) : Nat → Nat → Game → Game
  | 0, _, g => g
  | fuel + 1, i, g =>
  if h : i < g.playerBullets.length then
    let bullet : Bullet := (g.playerBullets[i]).update dt
    let g1 : Game := { g with playerBullets := g.playerBullets.set i bullet }
    match scanEnemies env bullet g1.enemies with
    | some k => Game.playerBulletsVsEnemiesLoop env dt fuel i (Game.hitEnemy env i g1 k)
    | none =>
      if (env.globalBounds bullet.sprite).position.y < 0 then
        Game.playerBulletsVsEnemiesLoop env dt fuel i
          { g1 with playerBullets := g1.playerBullets.eraseIdx i }
      else Game.playerBulletsVsEnemiesLoop env dt fuel (i + 1) g1
  else g

/-- The loop over `playerBullets` against the enemies (lines 1676-1713). -/
def Game.playerBulletsVsEnemies (env : Env) (dt : ℚ) (g : Game) : Game :=
  Game.playerBulletsVsEnemiesLoop env dt g.playerBullets.length 0 g

/-- The loop over `enemyBullets` against the player (lines 1716-1738), from index `i` on;
`fuel` bounds the number of iterations. -/
def Game.enemyBulletsVsPlayerLoop (env : Env) (dt : ℚ) : Nat → Nat → Game → Game
  | 0, _, g => g
  | fuel + 1, i, g =>
  if h : i < g.enemyBullets.length then
    let bullet : Bullet := (g.enemyBullets[i]).update dt
    let g0 : Game := { g with enemyBullets := g.enemyBullets.set i bullet }
    if env.hit bullet.sprite g0.player.sprite then
      let playerPos : Vector2f := g0.player.sprite.position
      let g1 : Game := { g0 with enemyBullets := g0.enemyBullets.eraseIdx i,
                                 hud := g0.hud.loseHeart }
      let g2 : Game := g1.addExplosion env .playerExplosionFrames playerPos
      let g3 : Game := if !g2.hud.isAlive then g2.storeHighScore.enterGameOver else g2
      Game.enemyBulletsVsPlayerLoop env dt fuel i (g3.shake 4 (1 / 10))
    else if (env.globalBounds bullet.sprite).position.y > (windowHeight : ℚ) then
      Game.enemyBulletsVsPlayerLoop env dt fuel i
        { g0 with enemyBullets := g0.enemyBullets.eraseIdx i }
    else Game.enemyBulletsVsPlayerLoop env dt fuel (i + 1) g0
  else g

/-- The loop over `enemyBullets` against the player (lines 1716-1738). -/
def Game.enemyBulletsVsPlayer (env : Env) (dt : ℚ) (g : Game) : Game :=
  Game.enemyBulletsVsPlayerLoop env dt g.enemyBullets.length 0 g

/-- The loop over `explosions` (lines 1741-1746), from index `i` on; `fuel` bounds the number
of iterations. -/
def Game.updateExplosionsLoop (env : Env) (dt : ℚ) : Nat → Nat → Game → Game
  | 0, _, g => g
  | fuel + 1, i, g =>
  if h : i < g.explosions.length then
    let e : Explosion := (g.explosions[i]).update env dt
    let stored : List Explosion := g.explosions.set i e
    if e.isFinished then
      Game.updateExplosionsLoop env dt fuel i { g with explosions := stored.eraseIdx i }
    else Game.updateExplosionsLoop env dt fuel (i + 1) { g with explosions := stored }
  else g

/-- The loop over `explosions` (lines 1741-1746). -/
def Game.updateExplosions (env : Env) (dt : ℚ) (g : Game) : Game :=
  Game.updateExplosionsLoop env dt g.explosions.length 0 g

/-- The `switch` on the type of a collected powerup (lines 1753-1757). -/
def Game.applyPowerup (t : PowerupType) (g : Game) : Game :=
  match t with
  | .SCORE_BONUS => { g with hud := (g.hud.addScore 50).showPowerup }
  | .HEAL => { g with hud := (g.hud.heal 3).showPowerup }
  | .TRIPLE_SHOT => { g with player := g.player.activateTripleShot 10, hud := g.hud.showPowerup }

/-- The loop over `powerups` (lines 1749-1764), from index `i` on; `fuel` bounds the number of
iterations. -/
def Game.updatePowerupsLoop (env : Env) (dt : ℚ) : Nat → Nat → Game → Game
  | 0, _, g => g
  | fuel + 1, i, g =>
  if h : i < g.powerups.length then
    let p : Powerup := (g.powerups[i]).update dt
    let stored : List Powerup := g.powerups.set i p
    if env.hit p.sprite g.player.sprite then
      let g1 : Game := Game.applyPowerup p.getType g
      Game.updatePowerupsLoop env dt fuel i { g1 with powerups := stored.eraseIdx i }
    else if (env.globalBounds p.sprite).position.y > (windowHeight : ℚ) then
      Game.updatePowerupsLoop env dt fuel i { g with powerups := stored.eraseIdx i }
    else Game.updatePowerupsLoop env dt fuel (i + 1) { g with powerups := stored }
  else g

/-- The loop over `powerups` (lines 1749-1764). -/
def Game.updatePowerups (env : Env) (dt : ℚ) (g : Game) : Game :=
  Game.updatePowerupsLoop env dt g.powerups.length 0 g

/-- The part of `updatePlaying` after the pause gate (lines 1541-1764), in source order. -/
def Game.simulate (env : Env) (dt : ℚ) (g : Game) : Game :=
  let g1 : Game := Game.playerShooting env (Game.updateObjects env dt g)
  let g2 : Game := Game.updateEnemies env dt (Game.enemySpawning env dt g1)
  let g3 : Game := Game.asteroidSpawning env dt g2.deathCheck
  let g4 : Game := Game.updateAsteroids env dt g3
  let g5 : Game := Game.updateBoss env dt (Game.bossSpawning env g4)
  let g6 : Game := Game.playerBulletsVsEnemies env dt g5
  let g7 : Game := Game.enemyBulletsVsPlayer env dt g6
  Game.updatePowerups env dt (Game.updateExplosions env dt g7)

/-- Method `Game::updatePlaying`. -/
def Game.updatePlaying (env : Env) (dt : ℚ) (g : Game) : Game :=
  let g1 : Game := g.pauseActions
  if g1.pauseMenu.isPaused then g1 else Game.simulate env dt g1

/-! ## The state machine: `Game::update` and `Game::processEvents` -/

/-- The `MENU` branch of `Game::update` (lines 1467-1483): four independent `if`s. -/
def Game.updateMenu (g : Game) : Game :=
  let g1 : Game :=
    if g.menu.isStartPressed then { g with currentState := .PLAYING, menu := g.menu.reset }
    else g
  let g2 : Game :=
    if g1.menu.isHighScorePressed then
      { g1 with previousState := .MENU, currentState := .HIGHSCORE, menu := g1.menu.reset }
    else g1
  let g3 : Game :=
    if g2.menu.isOptionsPressed then
      { g2 with previousState := .MENU, currentState := .OPTIONS, menu := g2.menu.reset }
    else g2
  if g3.menu.isExitPressed then { g3 with windowOpen := false } else g3

/-- The `OPTIONS` branch of `Game::update` (lines 1485-1493); `OptionsMenu::update` only
recolours the buttons. -/
def Game.updateOptions (g : Game) : Game :=
  if g.optionsMenu.isBackPressed then
    { g with currentState := g.previousState, optionsMenu := g.optionsMenu.reset }
  else g

/-- The `GAME_OVER` branch of `Game::update` (lines 1500-1521). -/
def Game.updateGameOver (ui : Ui) (dt : ℚ) (g : Game) : Game :=
  let g1 : Game := { g with gameOverScreen := g.gameOverScreen.update ui dt }
  if g1.gameOverScreen.isRetryPressed then { g1.resetGame with currentState := .PLAYING }
  else if g1.gameOverScreen.isOptionsPressed then
    { g1 with previousState := .GAME_OVER, currentState := .OPTIONS,
              gameOverScreen := { g1.gameOverScreen with menu := g1.gameOverScreen.menu.reset } }
  else if g1.gameOverScreen.isHighScorePressed then
    { g1 with previousState := .GAME_OVER, currentState := .HIGHSCORE,
              gameOverScreen := { g1.gameOverScreen with menu := g1.gameOverScreen.menu.reset } }
  else if g1.gameOverScreen.isExitPressed then { g1 with windowOpen := false }
  else g1

/-- Method `Game::update`: there is no branch for `HIGHSCORE` and `LOADING`. -/
def Game.update (env : Env) (ui : Ui) (dt : ℚ) (g : Game) : Game :=
  match g.currentState with
  | .MENU => g.updateMenu
  | .OPTIONS => g.updateOptions
  | .PLAYING => Game.updatePlaying env dt g
  | .GAME_OVER => Game.updateGameOver ui dt g
  | _ => g

/-- The body of the loop of `Game::processEvents` (lines 1442-1460) for the event `e`. -/
def Game.handleEvent (ui : Ui) (g : Game) (e : Event) : Game :=
  let g1 : Game := if e = .Closed then { g with windowOpen := false } else g
  match g1.currentState with
  | .MENU => { g1 with menu := g1.menu.handleInput ui e }
  | .PLAYING => { g1 with pauseMenu := g1.pauseMenu.handleInput ui e }
  | .GAME_OVER => { g1 with gameOverScreen := g1.gameOverScreen.handleInput ui e }
  | .OPTIONS => { g1 with optionsMenu := g1.optionsMenu.handleInput ui e }
  | .HIGHSCORE =>
    if e = .KeyPressed .Escape then
      let g2 : Game := { g1 with currentState := g1.previousState }
      if g2.previousState = .MENU then { g2 with menu := g2.menu.reset }
      else if g2.previousState = .GAME_OVER then
        { g2 with gameOverScreen := { g2.gameOverScreen with menu := g2.gameOverScreen.menu.reset } }
      else g2
    else g1
  | .LOADING => g1

/-- Method `Game::processEvents` on the events `window.pollEvent()` returns, in order. -/
def Game.processEvents (ui : Ui) (events : List Event) (g : Game) : Game :=
  events.foldl (Game.handleEvent ui) g

/-- One iteration of the loop of `Game::run`: the events of the frame, then `update`. -/
def Game.frame (env : Env) (ui : Ui) (events : List Event) (dt : ℚ) (g : Game) : Game :=
  Game.update env ui dt (Game.processEvents ui events g)

/-- Constructor `StarField(count, winSize)`: `count` stars, each drawing four values of `rand()`
(x, y, size, brightness); `n` is the number of `rand()` calls made before. -/
def StarField.new (env : Env) : Nat → Nat → List Star
  | 0, _ => []
  | count + 1, n =>
    let x : ℚ := ((env.rand n % windowWidth : Nat) : ℚ)
    let y : ℚ := ((env.rand (n + 1) % windowHeight : Nat) : ℚ)
    let size : ℚ := ((env.rand (n + 2) % 3 + 1 : Nat) : ℚ)
    { position := ⟨x, y⟩, speed := size * 40 } :: StarField.new env count (n + 4)

/-- The state the constructor of `Game` leaves: default member values, the player and the star
field of `initObjects`, state `MENU`; `highScore` is what `loadHighScore()` read. -/
def Game.new (env : Env) (highScore : Int) : Game :=
  { currentState := .MENU,
    currentHighScore := highScore,
    player := (Player.new env).setPosition 600 750,
    stars := StarField.new env 25 0,
    randCalls := 100 }

/-! ## Properties used to state the theorems -/

/-- The heart count is within `[0, maxHearts]`. -/
def HUD.heartsInRange (h : HUD) : Prop := 0 ≤ h.currentHearts ∧ h.currentHearts ≤ h.maxHearts

/-- The changes the simulation part of a tick makes to the HUD: `h2` is reached from `h1`
through calls of `loseHeart`, `heal(3)`, `addScore` with one of the constants 30, 100, 10, 50,
`addEnemyDefeated`, `showPowerup` and `update`. -/
inductive HudSteps : HUD → HUD → Prop where
  | refl (h : HUD) : HudSteps h h
  | loseHeart {h1 h2 : HUD} : HudSteps h1 h2 → HudSteps h1 h2.loseHeart
  | heal {h1 h2 : HUD} : HudSteps h1 h2 → HudSteps h1 (h2.heal 3)
  | addScore {h1 h2 : HUD} (points : Int) :
      HudSteps h1 h2 → points = 30 ∨ points = 100 ∨ points = 10 ∨ points = 50 →
      HudSteps h1 (h2.addScore points)
  | addEnemyDefeated {h1 h2 : HUD} : HudSteps h1 h2 → HudSteps h1 h2.addEnemyDefeated
  | showPowerup {h1 h2 : HUD} : HudSteps h1 h2 → HudSteps h1 h2.showPowerup
  | update {h1 h2 : HUD} (dt : ℚ) : HudSteps h1 h2 → HudSteps h1 (h2.update dt)

/-- The books of a session: the members of `Game` next to the HUD that game over, the high
score and the boss progress are kept in, and the state remembered for the back action. -/
structure Books where
  currentState : GameState
  previousState : GameState
  currentHighScore : Int
  saveCalls : List Int
  saveHearts : List Int
  bossCount : Int
  nextBossScore : Int
  deriving DecidableEq, Repr

/-- The books of the game `g`. -/
def Game.books (g : Game) : Books :=
  { currentState := g.currentState, previousState := g.previousState,
    currentHighScore := g.currentHighScore, saveCalls := g.saveCalls,
    saveHearts := g.saveHearts, bossCount := g.bossCount, nextBossScore := g.nextBossScore }

/-- The changes the simulation part of a tick makes to the HUD and the books: `g2` is reached
from `g1` through steps that change the HUD by `HudSteps` and leave the books alone (`other`),
the statements `gameOverScreen.reset(); currentState = GAME_OVER;` run when `isAlive()` is
false (`gameOver`), the same statements preceded by the high-score check and save (`store`),
and the bookkeeping of a defeated boss (`bossDefeated`). -/
inductive TickSteps : Game → Game → Prop where
  | refl (g : Game) : TickSteps g g
  | other {g1 g2 : Game} (g3 : Game) :
      TickSteps g1 g2 → HudSteps g2.hud g3.hud → g3.books = g2.books → TickSteps g1 g3
  | gameOver {g1 g2 : Game} :
      TickSteps g1 g2 → g2.hud.isAlive = false → TickSteps g1 g2.enterGameOver
  | store {g1 g2 : Game} :
      TickSteps g1 g2 → g2.hud.isAlive = false → TickSteps g1 g2.storeHighScore.enterGameOver
  | bossDefeated {g1 g2 : Game} (g3 : Game) :
      TickSteps g1 g2 → g3.hud = (g2.hud.addScore 100).addEnemyDefeated →
      g3.books = { g2.books with bossCount := g2.bossCount + 1,
                                 nextBossScore := g2.nextBossScore + 600 } →
      TickSteps g1 g3

/-- The states of `Game` reachable from the state the constructor leaves through
`processEvents()` and `update()`, the two state-changing calls of the loop of `run`. -/
inductive Reachable : Game → Prop where
  | init (env : Env) (highScore : Int) : Reachable (Game.new env highScore)
  | events (ui : Ui) (events : List Event) (g : Game) :
      Reachable g → Reachable (Game.processEvents ui events g)
  | update (env : Env) (ui : Ui) (dt : ℚ) (g : Game) :
      Reachable g → Reachable (Game.update env ui dt g)

/-- The relation `nextBossScore = 500 + 600 * bossCount`. -/
def Game.bossScoreInv (g : Game) : Prop := g.nextBossScore = 500 + 600 * g.bossCount

/-- The remembered state is `MENU` or `GAME_OVER`. -/
def Game.previousStateInv (g : Game) : Prop :=
  g.previousState = .MENU ∨ g.previousState = .GAME_OVER

/-- The states of a `ScreenShake` reachable from the default state through `shake(amount,
duration)` and `update(dt)` with `dt ≥ 0`. -/
inductive ShakeReachable : ScreenShake → Prop where
  | default : ShakeReachable {}
  | shake (s : ScreenShake) (amount duration : ℚ) :
      ShakeReachable s → ShakeReachable (s.shake amount duration)
  | update (s : ScreenShake) (dt : ℚ) :
      ShakeReachable s → 0 ≤ dt → ShakeReachable (s.update dt)

/-- Number of hits of 10 damage that bring `hp` health points to 0 or below: `ceil(hp / 10)`. -/
def hitsToKill (hp : Int) : Nat := ((hp + 9) / 10).toNat

/-- The enemy `e` after `Enemy::update`, without the bullet it may fire. -/
def Enemy.updated (env : Env) (dt : ℚ) (e : Enemy) : Enemy := (e.update env dt []).1

/-- The test of the enemy pass read as a filter: the updated enemy `e` stays in `enemies` when
it neither overlaps the player nor lies below the bottom edge of the field. -/
def Game.keepsEnemy (env : Env) (g : Game) (e : Enemy) : Bool :=
  !env.hit g.player.sprite e.sprite && !decide (e.sprite.position.y > (windowHeight : ℚ))

/-- The enemy pass as the specification words it: a single filter over the updated enemies. -/
def Game.updateEnemiesByFilter (env : Env) (dt : ℚ) (g : Game) : List Enemy :=
  (g.enemies.map (Enemy.updated env dt)).filter (Game.keepsEnemy env g)

/-- The part of the simulation before the boss update (lines 1541-1643), in source order. -/
def Game.beforeBoss (env : Env) (dt : ℚ) (g : Game) : Game :=
  let g1 : Game := Game.playerShooting env (Game.updateObjects env dt g)
  let g2 : Game := Game.updateEnemies env dt (Game.enemySpawning env dt g1)
  let g3 : Game := Game.asteroidSpawning env dt g2.deathCheck
  Game.bossSpawning env (Game.updateAsteroids env dt g3)

/-- The part of the simulation after the boss update (lines 1676-1764), in source order. -/
def Game.afterBoss (env : Env) (dt : ℚ) (g : Game) : Game :=
  let g6 : Game := Game.playerBulletsVsEnemies env dt g
  let g7 : Game := Game.enemyBulletsVsPlayer env dt g6
  Game.updatePowerups env dt (Game.updateExplosions env dt g7)

/-- The state in which a tick of `updatePlaying` from `g` reaches the boss update (line 1645),
when it is not stopped at the pause gate. -/
def Game.atBossUpdate (env : Env) (dt : ℚ) (g : Game) : Game :=
  Game.beforeBoss env dt g.pauseActions

/-- The boss slot and the two boss counters: `activeBoss`, `bossCount`, `nextBossScore`. -/
def Game.bossLedger (g : Game) : Option Boss × Int × Int :=
  (g.activeBoss, g.bossCount, g.nextBossScore)

/-- The bullet vector `l` with the bullets from index `i` on moved by `Bullet::update`. -/
def movedFrom (dt : ℚ) (i : Nat) (l : List Bullet) : List Bullet :=
  l.take i ++ (l.drop i).map (fun b => b.update dt)

/-- The three passes of a tick that test player bullets against targets, in source order:
the asteroid loop, boss spawning and boss update, the loop against the enemies
(lines 1603-1713). -/
def Game.bulletPasses (env : Env) (dt : ℚ) (g : Game) : Game :=
  Game.playerBulletsVsEnemies env dt
    (Game.updateBoss env dt (Game.bossSpawning env (Game.updateAsteroids env dt g)))

/-- From `g1` to `g2` player bullets were only consumed by hits: the bullets recorded as hits
since `g1` together with the bullets left are the bullets of `g1`, each exactly once. -/
def BulletsConsumed (g1 g2 : Game) : Prop :=
  ∃ hits : List Bullet, g2.bulletHits = g1.bulletHits ++ hits
    ∧ (hits ++ g2.playerBullets).Perm g1.playerBullets

/-! ## Sample inputs -/

/-- A small environment: every sprite has a 10 x 10 bounding box centred at its position, no key
is pressed, `rand()` returns 0, 1, 2, ... -/
def sampleEnv : Env :=
  { sin := fun _ => 0, cos := fun _ => 1, sqrt := fun x => x, atan2 := fun _ _ => 0,
    asRadians := fun x => x, rand := fun n => n, textureSize := fun _ => ⟨10, 10⟩,
    globalBounds := fun s => ⟨⟨s.position.x - 5, s.position.y - 5⟩, ⟨10, 10⟩⟩,
    isKeyPressed := fun _ => false, frameCount := 5 }

/-- A player at the start position whose attack timer is half way to the next shot. -/
def samplePlayer : Player :=
  { sprite := { texture := .playerTextures 2, position := ⟨600, 750⟩ }, attackTimer := 1 / 10 }

/-- A game in state `PLAYING` with score 520, no boss and no other entity. -/
def sampleGame : Game :=
  { currentState := .PLAYING, player := samplePlayer, hud := { score := 520 } }

/-- A boss at the position `pos` with full health 250. -/
def sampleBoss (pos : Vector2f) : Boss :=
  { sprite := { texture := .bossTex, position := pos }, hp := 250, maxHp := 250,
    bulletSpeed := 300 }

/-- A game in state `PLAYING` with an active boss far from the player. -/
def sampleBossGame : Game :=
  { sampleGame with activeBoss := some (sampleBoss ⟨600, 150⟩) }

/-- A player bullet at the position `pos`, flying straight up. -/
def sampleBullet (pos : Vector2f) : Bullet :=
  { sprite := { texture := .playerBulletTex, position := pos }, direction := ⟨0, -1⟩ }

/-- A game in state `PLAYING` whose boss has 10 hp left and is overlapped by a player bullet. -/
def sampleLastHitGame : Game :=
  { sampleGame with
    activeBoss := some { sampleBoss ⟨600, 150⟩ with hp := 10 },
    playerBullets := [sampleBullet ⟨600, 152⟩] }

/-- A game in state `PLAYING`, not paused, with one heart left and a boss in contact with the
player; there is no other entity. -/
def bossContactGame : Game :=
  { currentState := .PLAYING,
    player := { samplePlayer with sprite := { samplePlayer.sprite with position := ⟨600, 152⟩ } },
    activeBoss := some (sampleBoss ⟨600, 150⟩),
    hud := { score := 520, currentHearts := 1 } }

/-- An asteroid at the position `pos`. -/
def sampleAsteroid (pos : Vector2f) : Asteroid :=
  { sprite := { texture := .asteroidTex, position := pos } }

/-- A game in state `PLAYING`, not paused, with five hearts left, score 120 above the stored
high score 100, and an asteroid overlapping the player; there is no other entity. -/
def asteroidCrashGame : Game :=
  { currentState := .PLAYING,
    player := samplePlayer,
    asteroids := [sampleAsteroid ⟨600, 748⟩],
    hud := { score := 120, currentHearts := 5 },
    currentHighScore := 100 }

/-- An enemy at the position `pos`. -/
def sampleEnemy (pos : Vector2f) : Enemy :=
  { sprite := { texture := .enemyTextures 0, position := pos }, startX := pos.x,
    shootCooldown := 3 }

/-- The game `asteroidCrashGame` with an enemy in place of the asteroid. -/
def enemyCrashGame : Game :=
  { asteroidCrashGame with asteroids := [], enemies := [sampleEnemy ⟨600, 748⟩] }

/-- A game in state `PLAYING` with one enemy (70 hp) and seven player bullets that all overlap
it after their move. -/
def sampleSevenHitsGame : Game :=
  { sampleGame with
    enemies := [sampleEnemy ⟨100, 100⟩],
    playerBullets := List.replicate 7 (sampleBullet ⟨100, 104⟩) }

/-- A game in state `PLAYING` with one player bullet that overlaps both the boss and an
enemy. -/
def bossAndEnemyGame : Game :=
  { sampleGame with
    activeBoss := some (sampleBoss ⟨600, 150⟩),
    enemies := [sampleEnemy ⟨602, 151⟩],
    playerBullets := [sampleBullet ⟨600, 152⟩] }

/-- A game in state `PLAYING` with one player bullet that, after its move, overlaps two
enemies at once. -/
def twoEnemiesGame : Game :=
  { sampleGame with
    enemies := [sampleEnemy ⟨100, 100⟩, sampleEnemy ⟨102, 101⟩],
    playerBullets := [sampleBullet ⟨100, 104⟩] }

/-- A window in which the mouse is over no button; the game-over animation has six frames. -/
def sampleUi : Ui :=
  { mapPixelToCoords := fun x y => ⟨x, y⟩, menuButtonContains := fun _ _ => false,
    pauseIconContains := fun _ => false, pauseButtonContains := fun _ _ => false,
    optionsButtonContains := fun _ _ => false, gameOverFrameCount := 6 }

/-- A game in state `PLAYING` in the middle of a session: enemy spawn timer at 2 s, asteroid
spawn timer at 3 s. -/
def midSessionGame : Game :=
  { sampleGame with spawnTimer := 2, asteroidSpawnTimer := 3 }

/-- A paused game in the middle of a session with no pending pause-menu action. -/
def pausedGame : Game :=
  { midSessionGame with
    enemies := [sampleEnemy ⟨100, 100⟩],
    pauseMenu := { isPaused_ := true } }

/-- A paused game in the middle of a session in which EXIT GAME was chosen in the pause menu;
the attack timer of the player has reached the cooldown. -/
def exitPendingGame : Game :=
  { midSessionGame with
    player := { samplePlayer with attackTimer := 1 / 5 },
    pauseMenu := { isPaused_ := true, lastAction := .EXIT_GAME } }

/-- The game one frame after `exitPendingGame`: the tick that handles the exit has run, and in
the menu now shown Enter is pressed on the selected button START GAME. -/
def menuStartGame : Game :=
  Game.handleEvent sampleUi (Game.updatePlaying sampleEnv (1 / 100) exitPendingGame)
    (.KeyPressed .Enter)

/-- A game in state `PLAYING` whose only asteroid has 1 health point left and is overlapped by
two player bullets. -/
def weakAsteroidGame : Game :=
  { sampleGame with
    asteroids := [{ sampleAsteroid ⟨100, 100⟩ with health := 1 }],
    playerBullets := [sampleBullet ⟨100, 104⟩, sampleBullet ⟨102, 101⟩] }

/-- A game in state `PLAYING` whose only asteroid (15 health points) is overlapped by two of
three player bullets. -/
def asteroidUnderFireGame : Game :=
  { sampleGame with
    asteroids := [sampleAsteroid ⟨100, 100⟩],
    playerBullets := [sampleBullet ⟨100, 104⟩, sampleBullet ⟨300, 300⟩, sampleBullet ⟨102, 101⟩] }

/-- A game in state `GAME_OVER` whose game-over menu is shown and has HIGH SCORE pressed. -/
def gameOverHighScoreGame : Game :=
  { sampleGame with
    currentState := .GAME_OVER,
    hud := { score := 520, currentHearts := 0 },
    gameOverScreen := { showMenu := true, menu := { highScorePressed := true } } }

/-- A game in state `PLAYING` at the start of a session: 10 hearts, score 0, no entity. -/
def freshGame : Game :=
  { currentState := .PLAYING, player := samplePlayer }

/-- The game `g` with one more enemy bullet, placed on the player and flying down. -/
def Game.placeEnemyBullet (g : Game) : Game :=
  { g with enemyBullets := g.enemyBullets ++
      [{ sprite := { texture := .bulletTex, position := g.player.sprite.position },
         direction := ⟨0, 1⟩ }] }

/-- The run of `n` calls of `update`, before each of which one enemy bullet is placed on the
player. -/
def hitTicks (env : Env) (ui : Ui) (dt : ℚ) : Nat → Game → Game
  | 0, g => g
  | n + 1, g => Game.update env ui dt (hitTicks env ui dt n g).placeEnemyBullet

/-- The game `freshGame` after `n` ticks of 10 ms with one enemy bullet on the player each. -/
def tenHitsRun (n : Nat) : Game :=
  hitTicks sampleEnv sampleUi (1 / 100) n freshGame

/-- A powerup of type `t` at the position `pos`. -/
def samplePowerup (t : PowerupType) (pos : Vector2f) : Powerup :=
  { sprite := { texture := .healTex, position := pos }, type_ := t }

/-- A game in state `PLAYING` with 4 hearts whose only powerup, of type `t`, overlaps the
player. -/
def powerupGame (t : PowerupType) : Game :=
  { currentState := .PLAYING, player := samplePlayer,
    hud := { score := 120, currentHearts := 4 },
    powerups := [samplePowerup t ⟨600, 748⟩] }

/-- The game after the first frames of a run: in the main menu the selection is moved down
twice to HIGH SCORE and Enter is pressed, and `update` shows the high-score screen. -/
def highScoreScreenGame : Game :=
  Game.update sampleEnv sampleUi (1 / 100)
    (Game.processEvents sampleUi [.KeyPressed .Down, .KeyPressed .Down, .KeyPressed .Enter]
      (Game.new sampleEnv 0))

/-- The game `enemyCrashGame` (five hearts, score 120, stored high score 100, an enemy
overlapping the player) with a SCORE_BONUS powerup that also overlaps the player. -/
def crashAndBonusGame : Game :=
  { enemyCrashGame with powerups := [samplePowerup .SCORE_BONUS ⟨600, 748⟩] }

/-- A game in state `PLAYING` whose only asteroid (15 health points) lies below the bottom edge
of the field, far from the player; there is no player bullet. -/
def sunkAsteroidGame : Game :=
  { sampleGame with asteroids := [sampleAsteroid ⟨100, 950⟩], playerBullets := [] }

/-- A game in state `PLAYING` whose boss has 20 hp left; the first, third and fourth of its four
player bullets overlap the boss. -/
def bossBarrageGame : Game :=
  { sampleGame with
    activeBoss := some { sampleBoss ⟨600, 150⟩ with hp := 20 },
    playerBullets := [sampleBullet ⟨600, 152⟩, sampleBullet ⟨300, 300⟩, sampleBullet ⟨600, 151⟩,
      sampleBullet ⟨600, 153⟩] }

/-- The main menu from which OPTIONS was chosen: the state of the constructor after the keys
Down and Enter. -/
def menuOptionsGame : Game :=
  Game.processEvents sampleUi [.KeyPressed .Down, .KeyPressed .Enter] (Game.new sampleEnv 0)

/-- The main menu from which HIGH SCORE was chosen: the state of the constructor after the keys
Down, Down and Enter. -/
def menuHighScoreGame : Game :=
  Game.processEvents sampleUi [.KeyPressed .Down, .KeyPressed .Down, .KeyPressed .Enter]
    (Game.new sampleEnv 0)

/-- A game in state `GAME_OVER` whose game-over menu is shown and has OPTIONS pressed. -/
def gameOverOptionsGame : Game :=
  { sampleGame with
    currentState := .GAME_OVER,
    hud := { score := 520, currentHearts := 0 },
    gameOverScreen := { showMenu := true, menu := { optionsPressed := true } } }

/-- A game in state `GAME_OVER` after a session with two bosses defeated that ended with the
spawn timers at 2 s and 3 s; the game-over menu is shown and has RETRY pressed. -/
def retryPendingGame : Game :=
  { midSessionGame with
    currentState := .GAME_OVER,
    hud := { score := 1520, currentHearts := 0 },
    bossCount := 2,
    nextBossScore := 1700,
    gameOverScreen := { showMenu := true, menu := { startPressed := true } } }

/-- A game in state `PLAYING` whose boss has 10 hp left and is overlapped by the first player
bullet; the second player bullet is below an enemy with 10 hp left. -/
def bossAndEnemyKillGame : Game :=
  { sampleGame with
    activeBoss := some { sampleBoss ⟨600, 150⟩ with hp := 10 },
    enemies := [{ sampleEnemy ⟨100, 100⟩ with hp := 10 }],
    playerBullets := [sampleBullet ⟨600, 152⟩, sampleBullet ⟨100, 104⟩] }

end SpaceShooter

namespace SpaceShooter

/-! ## Projection lemmas -/

@[simp] theorem hud_addExplosion (env : Env) (g : Game) (f : Frames) (pos : Vector2f) :
    (g.addExplosion env f pos).hud = g.hud := rfl

@[simp] theorem hud_shake (g : Game) (a d : ℚ) : (g.shake a d).hud = g.hud := rfl

@[simp] theorem hud_enterGameOver (g : Game) : g.enterGameOver.hud = g.hud := rfl

@[simp] theorem hud_saveHighScore (g : Game) (n : Int) : (g.saveHighScore n).hud = g.hud := rfl

@[simp] theorem hud_storeHighScore (g : Game) : g.storeHighScore.hud = g.hud := by
  unfold Game.storeHighScore
  split <;> rfl

@[simp] theorem hud_gameOverIfDead (g : Game) : g.gameOverIfDead.hud = g.hud := by
  unfold Game.gameOverIfDead
  split <;> rfl

@[simp] theorem hud_deathCheck (g : Game) : g.deathCheck.hud = g.hud := by
  unfold Game.deathCheck
  split <;> simp

@[simp] theorem hud_dropPowerup (env : Env) (pos : Vector2f) (g : Game) :
    (Game.dropPowerup env pos g).hud = g.hud := by
  unfold Game.dropPowerup
  split <;> rfl

/-! ## The HUD footprint of a tick -/

theorem hudSteps_trans {h1 h2 h3 : HUD} (a : HudSteps h1 h2) (b : HudSteps h2 h3) :
    HudSteps h1 h3 := by
  induction b with
  | refl => exact a
  | loseHeart _ ih => exact ih.loseHeart
  | heal _ ih => exact ih.heal
  | addScore p _ hp ih => exact ih.addScore p hp
  | addEnemyDefeated _ ih => exact ih.addEnemyDefeated
  | showPowerup _ ih => exact ih.showPowerup
  | update dt _ ih => exact ih.update dt

theorem hudSteps_loseHearts (n : Nat) (h : HUD) : HudSteps h (loseHearts n h) := by
  induction n generalizing h with
  | zero => exact HudSteps.refl h
  | succ n ih =>
    unfold loseHearts
    split
    · exact hudSteps_trans (HudSteps.refl h).loseHeart (ih _)
    · exact HudSteps.refl h

theorem hudSteps_updateEnemiesLoop (env : Env) (dt : ℚ) (fuel i : Nat) (g : Game) :
    HudSteps g.hud (Game.updateEnemiesLoop env dt fuel i g).hud := by
  induction fuel generalizing i g with
  | zero => exact HudSteps.refl _
  | succ n ih =>
    rw [Game.updateEnemiesLoop]
    dsimp only
    split_ifs
    · refine hudSteps_trans ?_ (ih _ _)
      simpa using hudSteps_loseHearts 5 g.hud
    · refine hudSteps_trans ?_ (ih _ _)
      exact HudSteps.refl _
    · refine hudSteps_trans ?_ (ih _ _)
      exact HudSteps.refl _
    · exact HudSteps.refl _

theorem hudSteps_updateObjects (env : Env) (dt : ℚ) (g : Game) :
    HudSteps g.hud (Game.updateObjects env dt g).hud :=
  (HudSteps.refl g.hud).update dt

theorem hud_playerShooting (env : Env) (g : Game) : (Game.playerShooting env g).hud = g.hud := by
  unfold Game.playerShooting
  dsimp only
  split_ifs <;> rfl

theorem hud_enemySpawning (env : Env) (dt : ℚ) (g : Game) :
    (Game.enemySpawning env dt g).hud = g.hud := by
  unfold Game.enemySpawning
  dsimp only
  split_ifs <;> rfl

theorem hud_asteroidSpawning (env : Env) (dt : ℚ) (g : Game) :
    (Game.asteroidSpawning env dt g).hud = g.hud := by
  unfold Game.asteroidSpawning
  dsimp only
  split_ifs <;> rfl

theorem hud_bossSpawning (env : Env) (g : Game) : (Game.bossSpawning env g).hud = g.hud := by
  unfold Game.bossSpawning
  dsimp only
  split_ifs <;> rfl

theorem hud_asteroidVsBulletsLoop (env : Env) (ai fuel bi : Nat) (g : Game) :
    (Game.asteroidVsBulletsLoop env ai fuel bi g).hud = g.hud := by
  induction fuel generalizing bi g with
  | zero => rfl
  | succ n ih =>
    rw [Game.asteroidVsBulletsLoop]
    split
    · split
      · rfl
      · dsimp only
        split_ifs
        · rw [ih]; rfl
        · rw [ih]
    · rfl

theorem hudSteps_removeAsteroidIfGone (env : Env) (ai : Nat) (a : Asteroid) (g : Game) :
    HudSteps g.hud (Game.removeAsteroidIfGone env ai a g).1.hud := by
  unfold Game.removeAsteroidIfGone
  dsimp only
  split_ifs
  · exact (HudSteps.refl g.hud).addScore 30 (Or.inl rfl)
  · exact HudSteps.refl _
  · exact HudSteps.refl _

theorem hudSteps_updateAsteroidsLoop (env : Env) (dt : ℚ) (fuel ai : Nat) (g : Game) :
    HudSteps g.hud (Game.updateAsteroidsLoop env dt fuel ai g).hud := by
  induction fuel generalizing ai g with
  | zero => exact HudSteps.refl _
  | succ n ih =>
    rw [Game.updateAsteroidsLoop]
    split
    · dsimp only
      split
      · refine hudSteps_trans ?_ (ih _ _)
        simpa using hudSteps_loseHearts 5 g.hud
      · have hb : ∀ g1 : Game, (Game.asteroidVsBullets env ai g1).hud = g1.hud :=
          fun g1 => hud_asteroidVsBulletsLoop env ai _ 0 g1
        split
        · rw [hb]
          exact HudSteps.refl _
        · have hr := hudSteps_removeAsteroidIfGone env ai ‹Asteroid›
            (Game.asteroidVsBullets env ai
              { g with asteroids := g.asteroids.set ai ((g.asteroids[ai]).update dt) })
          rw [hb] at hr
          split
          · exact hudSteps_trans hr (ih _ _)
          · exact hudSteps_trans hr (ih _ _)
    · exact HudSteps.refl _

theorem hudSteps_bossDefeated (env : Env) (boss : Boss) (g : Game) :
    HudSteps g.hud (Game.bossDefeated env boss g).hud :=
  ((HudSteps.refl g.hud).addScore 100 (Or.inr (Or.inl rfl))).addEnemyDefeated

theorem hudSteps_bossVsBulletsLoop (env : Env) (fuel bi : Nat) (g : Game) :
    HudSteps g.hud (Game.bossVsBulletsLoop env fuel bi g).hud := by
  induction fuel generalizing bi g with
  | zero => exact HudSteps.refl _
  | succ n ih =>
    rw [Game.bossVsBulletsLoop]
    split
    · exact HudSteps.refl _
    · dsimp only
      split_ifs
      · refine hudSteps_trans ?_ (hudSteps_bossDefeated env _ _)
        exact HudSteps.refl _
      · refine hudSteps_trans ?_ (ih _ _)
        exact HudSteps.refl _
      · refine hudSteps_trans ?_ (ih _ _)
        exact HudSteps.refl _
      · exact HudSteps.refl _

theorem hudSteps_updateBoss (env : Env) (dt : ℚ) (g : Game) :
    HudSteps g.hud (Game.updateBoss env dt g).hud := by
  unfold Game.updateBoss
  split
  · exact HudSteps.refl _
  · dsimp only
    have hb := hudSteps_bossVsBulletsLoop env
      ({ g with activeBoss := some (Boss.update env ‹Boss› dt g.enemyBullets).1,
                enemyBullets := (Boss.update env ‹Boss› dt g.enemyBullets).2 } : Game).playerBullets.length
      0 { g with activeBoss := some (Boss.update env ‹Boss› dt g.enemyBullets).1,
                 enemyBullets := (Boss.update env ‹Boss› dt g.enemyBullets).2 }
    split
    · exact hb
    · split_ifs
      · exact hb.loseHeart
      · exact hb

theorem hudSteps_hitEnemy (env : Env) (i : Nat) (g : Game) (k : Fin g.enemies.length) :
    HudSteps g.hud (Game.hitEnemy env i g k).hud := by
  unfold Game.hitEnemy
  dsimp only
  split_ifs
  · simp only [hud_shake, hud_dropPowerup]
    exact ((HudSteps.refl g.hud).addScore 10 (Or.inr (Or.inr (Or.inl rfl)))).addEnemyDefeated
  · exact HudSteps.refl _

theorem hudSteps_playerBulletsVsEnemiesLoop (env : Env) (dt : ℚ) (fuel i : Nat) (g : Game) :
    HudSteps g.hud (Game.playerBulletsVsEnemiesLoop env dt fuel i g).hud := by
  induction fuel generalizing i g with
  | zero => exact HudSteps.refl _
  | succ n ih =>
    rw [Game.playerBulletsVsEnemiesLoop]
    split
    · dsimp only
      split
      · refine hudSteps_trans ?_ (ih _ _)
        refine hudSteps_trans ?_ (hudSteps_hitEnemy env i _ _)
        exact HudSteps.refl _
      · split_ifs
        · refine hudSteps_trans ?_ (ih _ _)
          exact HudSteps.refl _
        · refine hudSteps_trans ?_ (ih _ _)
          exact HudSteps.refl _
    · exact HudSteps.refl _

theorem hudSteps_enemyBulletsVsPlayerLoop (env : Env) (dt : ℚ) (fuel i : Nat) (g : Game) :
    HudSteps g.hud (Game.enemyBulletsVsPlayerLoop env dt fuel i g).hud := by
  induction fuel generalizing i g with
  | zero => exact HudSteps.refl _
  | succ n ih =>
    rw [Game.enemyBulletsVsPlayerLoop]
    split
    · dsimp only
      split_ifs
      · refine hudSteps_trans ?_ (ih _ _)
        simp only [hud_shake, hud_enterGameOver, hud_storeHighScore, hud_addExplosion]
        exact (HudSteps.refl g.hud).loseHeart
      · refine hudSteps_trans ?_ (ih _ _)
        exact (HudSteps.refl g.hud).loseHeart
      · refine hudSteps_trans ?_ (ih _ _)
        exact HudSteps.refl _
      · refine hudSteps_trans ?_ (ih _ _)
        exact HudSteps.refl _
    · exact HudSteps.refl _

theorem hud_updateExplosionsLoop (env : Env) (dt : ℚ) (fuel i : Nat) (g : Game) :
    (Game.updateExplosionsLoop env dt fuel i g).hud = g.hud := by
  induction fuel generalizing i g with
  | zero => rfl
  | succ n ih =>
    rw [Game.updateExplosionsLoop]
    split
    · dsimp only
      split_ifs
      · rw [ih]
      · rw [ih]
    · rfl

theorem hudSteps_applyPowerup (t : PowerupType) (g : Game) :
    HudSteps g.hud (Game.applyPowerup t g).hud := by
  cases t
  · exact ((HudSteps.refl g.hud).addScore 50 (Or.inr (Or.inr (Or.inr rfl)))).showPowerup
  · exact (HudSteps.refl g.hud).heal.showPowerup
  · exact (HudSteps.refl g.hud).showPowerup

theorem hudSteps_updatePowerupsLoop (env : Env) (dt : ℚ) (fuel i : Nat) (g : Game) :
    HudSteps g.hud (Game.updatePowerupsLoop env dt fuel i g).hud := by
  induction fuel generalizing i g with
  | zero => exact HudSteps.refl _
  | succ n ih =>
    rw [Game.updatePowerupsLoop]
    split
    · dsimp only
      split_ifs
      · refine hudSteps_trans ?_ (ih _ _)
        refine hudSteps_trans ?_ (hudSteps_applyPowerup _ _)
        exact HudSteps.refl _
      · refine hudSteps_trans ?_ (ih _ _)
        exact HudSteps.refl _
      · refine hudSteps_trans ?_ (ih _ _)
        exact HudSteps.refl _
    · exact HudSteps.refl _

/-- The simulation part of a tick changes the HUD only through `HudSteps`. -/
theorem hudSteps_simulate (env : Env) (dt : ℚ) (g : Game) :
    HudSteps g.hud (Game.simulate env dt g).hud := by
  unfold Game.simulate
  dsimp only
  refine hudSteps_trans ?_ (hudSteps_updatePowerupsLoop env dt _ 0 _)
  rw [Game.updateExplosions, hud_updateExplosionsLoop]
  refine hudSteps_trans ?_ (hudSteps_enemyBulletsVsPlayerLoop env dt _ 0 _)
  refine hudSteps_trans ?_ (hudSteps_playerBulletsVsEnemiesLoop env dt _ 0 _)
  refine hudSteps_trans ?_ (hudSteps_updateBoss env dt _)
  rw [hud_bossSpawning]
  refine hudSteps_trans ?_ (hudSteps_updateAsteroidsLoop env dt _ 0 _)
  rw [hud_asteroidSpawning, hud_deathCheck]
  refine hudSteps_trans ?_ (hudSteps_updateEnemiesLoop env dt _ 0 _)
  rw [hud_enemySpawning, hud_playerShooting]
  exact hudSteps_updateObjects env dt g

/-! ## Facts about the HUD -/

theorem hudSteps_maxHearts_eq {h1 h2 : HUD} (s : HudSteps h1 h2) : h2.maxHearts = h1.maxHearts := by
  induction s with
  | refl => rfl
  | loseHeart _ ih => rw [← ih]; unfold HUD.loseHeart; split <;> rfl
  | heal _ ih => exact ih
  | addScore p _ _ ih => exact ih
  | addEnemyDefeated _ ih => exact ih
  | showPowerup _ ih => exact ih
  | update dt _ ih => rw [← ih]; unfold HUD.update; dsimp only; split_ifs <;> rfl

theorem heartsInRange_loseHeart (h : HUD) (hh : h.heartsInRange) : h.loseHeart.heartsInRange := by
  unfold HUD.heartsInRange at *
  unfold HUD.loseHeart
  split
  · dsimp only
    omega
  · exact hh

theorem heartsInRange_heal (h : HUD) (amount : Int) (ha : 0 ≤ amount) (hh : h.heartsInRange) :
    (h.heal amount).heartsInRange := by
  unfold HUD.heartsInRange at *
  unfold HUD.heal
  dsimp only
  omega

theorem heartsInRange_reset (h : HUD) (hh : h.heartsInRange) : h.reset.heartsInRange := by
  unfold HUD.heartsInRange at *
  unfold HUD.reset
  dsimp only
  omega

theorem heartsInRange_update (h : HUD) (dt : ℚ) (hh : h.heartsInRange) :
    (h.update dt).heartsInRange := by
  unfold HUD.update
  dsimp only
  split_ifs <;> exact hh

theorem hudSteps_heartsInRange {h1 h2 : HUD} (s : HudSteps h1 h2) (hh : h1.heartsInRange) :
    h2.heartsInRange := by
  induction s with
  | refl => exact hh
  | loseHeart _ ih => exact heartsInRange_loseHeart _ ih
  | heal _ ih => exact heartsInRange_heal _ 3 (by decide) ih
  | addScore p _ _ ih => exact ih
  | addEnemyDefeated _ ih => exact ih
  | showPowerup _ ih => exact ih
  | update dt _ ih => exact heartsInRange_update _ dt ih

theorem score_update (h : HUD) (dt : ℚ) : (h.update dt).score = h.score := by
  unfold HUD.update
  dsimp only
  split_ifs <;> rfl

theorem hudSteps_score_le {h1 h2 : HUD} (s : HudSteps h1 h2) : h1.score ≤ h2.score := by
  induction s with
  | refl => exact le_refl _
  | loseHeart _ ih =>
    refine le_trans ih (le_of_eq ?_)
    unfold HUD.loseHeart
    split <;> rfl
  | heal _ ih => exact ih
  | addScore p _ hp ih =>
    refine le_trans ih ?_
    unfold HUD.addScore
    dsimp only
    omega
  | addEnemyDefeated _ ih => exact ih
  | showPowerup _ ih => exact ih
  | update dt _ ih => rw [score_update]; exact ih

theorem pauseActions_hud_of_not_exit (g : Game)
    (hp : g.pauseMenu.getLastAction ≠ PauseAction.EXIT_GAME) : g.pauseActions.hud = g.hud := by
  unfold Game.pauseActions
  split
  · rfl
  · exact absurd ‹_› hp
  · rfl

theorem pauseActions_hud (g : Game) :
    g.pauseActions.hud = g.hud ∨ g.pauseActions.hud = g.hud.reset := by
  unfold Game.pauseActions
  split
  · exact Or.inl rfl
  · exact Or.inr rfl
  · exact Or.inl rfl

/-- What the boss loop can leave behind: either the boss is still there and nothing else the
defeat touches has changed, or the boss is gone and the defeat was booked exactly once. -/
theorem bossVsBulletsLoop_outcome (env : Env) (fuel bi : Nat) (g : Game) (boss : Boss)
    (hb : g.activeBoss = some boss) :
    (∃ boss1 : Boss, (Game.bossVsBulletsLoop env fuel bi g).activeBoss = some boss1
        ∧ boss1.sprite = boss.sprite
        ∧ (Game.bossVsBulletsLoop env fuel bi g).hud = g.hud
        ∧ (Game.bossVsBulletsLoop env fuel bi g).powerups = g.powerups
        ∧ (Game.bossVsBulletsLoop env fuel bi g).bossCount = g.bossCount
        ∧ (Game.bossVsBulletsLoop env fuel bi g).nextBossScore = g.nextBossScore)
    ∨ ((Game.bossVsBulletsLoop env fuel bi g).activeBoss = none
        ∧ (Game.bossVsBulletsLoop env fuel bi g).hud = (g.hud.addScore 100).addEnemyDefeated
        ∧ (Game.bossVsBulletsLoop env fuel bi g).powerups = g.powerups ++
            [Powerup.new env .healTex .HEAL boss.sprite.position.x boss.sprite.position.y]
        ∧ (Game.bossVsBulletsLoop env fuel bi g).bossCount = g.bossCount + 1
        ∧ (Game.bossVsBulletsLoop env fuel bi g).nextBossScore = g.nextBossScore + 600) := by
  induction fuel generalizing bi g boss with
  | zero => exact Or.inl ⟨boss, hb, rfl, rfl, rfl, rfl, rfl⟩
  | succ n ih =>
    rw [Game.bossVsBulletsLoop]
    split
    · rename_i hnone
      rw [hb] at hnone
      exact absurd hnone (by simp)
    · rename_i boss0 hsome
      have hbe : boss0 = boss := by
        rw [hb] at hsome
        exact (Option.some.inj hsome).symm
      subst hbe
      dsimp only
      split_ifs
      · exact Or.inr ⟨rfl, rfl, rfl, rfl, rfl⟩
      · exact ih bi _ (boss0.takeDamage 10) rfl
      · exact ih (bi + 1) g boss0 hb
      · exact Or.inl ⟨boss0, hb, rfl, rfl, rfl, rfl, rfl⟩

/-! ## One enemy under fire -/

theorem scanEnemiesLoop_nil (env : Env) (bullet : Bullet) (fuel k0 : Nat) :
    scanEnemiesLoop env bullet [] fuel k0 = none := by
  cases fuel with
  | zero => rfl
  | succ n =>
    rw [scanEnemiesLoop]
    simp

theorem playerBulletsVsEnemiesLoop_no_enemies (env : Env) (dt : ℚ) (fuel i : Nat) (g : Game)
    (he : g.enemies = []) : (Game.playerBulletsVsEnemiesLoop env dt fuel i g).enemies = [] := by
  induction fuel generalizing i g with
  | zero => exact he
  | succ n ih =>
    rw [Game.playerBulletsVsEnemiesLoop]
    split
    · dsimp only
      split
      · rename_i k _
        have hk := k.isLt
        simp [he] at hk
      · split_ifs
        · exact ih _ _ he
        · exact ih _ _ he
    · exact he

theorem scanEnemies_single (env : Env) (bullet : Bullet) (e : Enemy) (es : List Enemy)
    (he : es = [e]) (hhit : env.hit bullet.sprite e.sprite = true) :
    scanEnemies env bullet es ≠ none := by
  subst he
  unfold scanEnemies
  simp [scanEnemiesLoop, hhit]

theorem hitEnemy_single (env : Env) (i : Nat) (g : Game) (e : Enemy)
    (k : Fin g.enemies.length) (he : g.enemies = [e]) :
    (Game.hitEnemy env i g k).playerBullets = g.playerBullets.eraseIdx i
    ∧ (Game.hitEnemy env i g k).enemies
        = if (e.takeDamage 10).getHp ≤ 0 then [] else [e.takeDamage 10] := by
  obtain ⟨kv, hk⟩ := k
  have hk0 : kv = 0 := by
    simp [he] at hk
    exact hk
  subst hk0
  have hget : g.enemies[0] = e := by simp [he]
  unfold Game.hitEnemy
  simp only [Fin.getElem_fin, hget]
  split_ifs with hdead
  · constructor
    · unfold Game.dropPowerup
      split_ifs <;> rfl
    · unfold Game.dropPowerup
      split_ifs <;> simp [Game.shake, Game.addExplosion, he]
  · constructor
    · rfl
    · simp [Game.shake, Game.addExplosion, he]

theorem takeDamage_ten (e : Enemy) :
    (e.takeDamage 10) = if e.hp - 10 < 0 then { e with hp := 0 } else { e with hp := e.hp - 10 } := by
  unfold Enemy.takeDamage
  rfl

/-- A single enemy hit by every bullet of the pass: it loses 10 hp per bullet and is erased
by the first hit that leaves no hp. -/
theorem playerBulletsVsEnemies_single (env : Env) (dt : ℚ) (bullets : List Bullet) (g : Game)
    (e : Enemy) (he : g.enemies = [e]) (hpos : 0 < e.hp) (hb : g.playerBullets = bullets)
    (hhit : ∀ b ∈ bullets, env.hit (b.update dt).sprite e.sprite = true) :
    (Game.playerBulletsVsEnemiesLoop env dt bullets.length 0 g).enemies
      = if 10 * (bullets.length : Int) < e.hp
          then [{ e with hp := e.hp - 10 * (bullets.length : Int) }] else [] := by
  induction bullets generalizing g e with
  | nil =>
    simp only [List.length_nil, Game.playerBulletsVsEnemiesLoop]
    rw [if_pos (by simpa using hpos), he]
    simp
  | cons b rest ih =>
    rw [List.length_cons, Game.playerBulletsVsEnemiesLoop]
    have hlen : 0 < g.playerBullets.length := by rw [hb]; simp
    rw [dif_pos hlen]
    have hb0 : g.playerBullets[0] = b := by simp [hb]
    dsimp only
    rw [hb0]
    have hbhit := hhit b (List.mem_cons_self _ _)
    split
    · rename_i k _
      have hs := hitEnemy_single env 0
        { g with playerBullets := g.playerBullets.set 0 (b.update dt) } e k he
      have hbul : (Game.hitEnemy env 0
          { g with playerBullets := g.playerBullets.set 0 (b.update dt) } k).playerBullets
          = rest := by
        rw [hs.1]
        simp [hb]
      have hrest : ∀ b1 ∈ rest, env.hit (b1.update dt).sprite e.sprite = true :=
        fun b1 h1 => hhit b1 (List.mem_cons_of_mem _ h1)
      by_cases hdead : (e.takeDamage 10).getHp ≤ 0
      · have hen := hs.2
        rw [if_pos hdead] at hen
        rw [playerBulletsVsEnemiesLoop_no_enemies env dt _ _ _ hen]
        have h10 : e.hp ≤ 10 := by
          rw [takeDamage_ten] at hdead
          unfold Enemy.getHp at hdead
          split_ifs at hdead with hneg
          · omega
          · simp only at hdead
            omega
        rw [if_neg]
        push_cast
        omega
      · have hen := hs.2
        rw [if_neg hdead] at hen
        have h10 : 10 < e.hp := by
          rw [takeDamage_ten] at hdead
          unfold Enemy.getHp at hdead
          split_ifs at hdead with hneg
          · simp only at hdead
            omega
          · simp only at hdead
            omega
        have htd : e.takeDamage 10 = { e with hp := e.hp - 10 } := by
          rw [takeDamage_ten, if_neg (by omega)]
        rw [htd] at hen
        have := ih _ { e with hp := e.hp - 10 } hen (by simp only; omega) hbul hrest
        rw [this]
        simp only
        push_cast
        by_cases hlt : 10 * ((rest.length : Int) + 1) < e.hp
        · rw [if_pos hlt, if_pos (by omega)]
          congr 2
          omega
        · rw [if_neg hlt, if_neg (by omega)]
    · rename_i hnone
      exact absurd hnone (scanEnemies_single env (b.update dt) e _ he hbhit)

/-! ## Player bullets and the targets they damage -/

theorem bulletsConsumed_of_eq {g1 g2 : Game} (h1 : g2.bulletHits = g1.bulletHits)
    (h2 : g2.playerBullets = g1.playerBullets) : BulletsConsumed g1 g2 :=
  ⟨[], by rw [h1, List.append_nil], by rw [h2]; exact List.Perm.refl _⟩

theorem bulletsConsumed_trans {g1 g2 g3 : Game} (a : BulletsConsumed g1 g2)
    (b : BulletsConsumed g2 g3) : BulletsConsumed g1 g3 := by
  obtain ⟨ha, hla, hpa⟩ := a
  obtain ⟨hb, hlb, hpb⟩ := b
  refine ⟨ha ++ hb, by rw [hlb, hla, List.append_assoc], ?_⟩
  rw [List.append_assoc]
  exact ((List.Perm.refl ha).append hpb).trans hpa

theorem perm_cons_eraseIdx {α : Type} (l : List α) (i : Nat) (h : i < l.length) :
    (l[i] :: l.eraseIdx i).Perm l := by
  rw [List.eraseIdx_eq_take_drop_succ]
  have := List.take_append_drop i l
  conv_rhs => rw [← this, List.drop_eq_getElem_cons h]
  exact List.perm_middle.symm

theorem bulletsConsumed_hit {g1 g2 : Game} (bi : Nat) (h : bi < g1.playerBullets.length)
    (h1 : g2.bulletHits = g1.bulletHits ++ [g1.playerBullets[bi]])
    (h2 : g2.playerBullets = g1.playerBullets.eraseIdx bi) : BulletsConsumed g1 g2 :=
  ⟨[g1.playerBullets[bi]], h1, by rw [h2]; exact perm_cons_eraseIdx _ _ h⟩

theorem bulletsConsumed_asteroidVsBulletsLoop (env : Env) (ai fuel bi : Nat) (g : Game) :
    BulletsConsumed g (Game.asteroidVsBulletsLoop env ai fuel bi g) := by
  induction fuel generalizing bi g with
  | zero => exact bulletsConsumed_of_eq rfl rfl
  | succ n ih =>
    rw [Game.asteroidVsBulletsLoop]
    split
    · rename_i h
      split
      · exact bulletsConsumed_of_eq rfl rfl
      · dsimp only
        split_ifs
        · refine bulletsConsumed_trans ?_ (ih _ _)
          exact bulletsConsumed_hit bi h rfl rfl
        · exact ih _ _
    · exact bulletsConsumed_of_eq rfl rfl

theorem bullets_gameOverIfDead (g : Game) :
    g.gameOverIfDead.bulletHits = g.bulletHits
    ∧ g.gameOverIfDead.playerBullets = g.playerBullets := by
  unfold Game.gameOverIfDead
  split <;> exact ⟨rfl, rfl⟩

theorem bullets_removeAsteroidIfGone (env : Env) (ai : Nat) (a : Asteroid) (g : Game) :
    (Game.removeAsteroidIfGone env ai a g).1.bulletHits = g.bulletHits
    ∧ (Game.removeAsteroidIfGone env ai a g).1.playerBullets = g.playerBullets := by
  unfold Game.removeAsteroidIfGone
  dsimp only
  split_ifs <;> exact ⟨rfl, rfl⟩

theorem bulletsConsumed_updateAsteroidsLoop (env : Env) (dt : ℚ) (fuel ai : Nat) (g : Game) :
    BulletsConsumed g (Game.updateAsteroidsLoop env dt fuel ai g) := by
  induction fuel generalizing ai g with
  | zero => exact bulletsConsumed_of_eq rfl rfl
  | succ n ih =>
    rw [Game.updateAsteroidsLoop]
    split
    · dsimp only
      split
      · refine bulletsConsumed_trans ?_ (ih _ _)
        exact bulletsConsumed_of_eq (bullets_gameOverIfDead _).1 (bullets_gameOverIfDead _).2
      · have hb := bulletsConsumed_asteroidVsBulletsLoop env ai
          ({ g with asteroids := g.asteroids.set ai ((g.asteroids[ai]).update dt) } :
            Game).playerBullets.length 0
          { g with asteroids := g.asteroids.set ai ((g.asteroids[ai]).update dt) }
        have hb1 : BulletsConsumed g (Game.asteroidVsBullets env ai
            { g with asteroids := g.asteroids.set ai ((g.asteroids[ai]).update dt) }) :=
          bulletsConsumed_trans (bulletsConsumed_of_eq rfl rfl) hb
        split
        · exact hb1
        · have hr := bullets_removeAsteroidIfGone env ai ‹Asteroid›
            (Game.asteroidVsBullets env ai
              { g with asteroids := g.asteroids.set ai ((g.asteroids[ai]).update dt) })
          split
          · exact bulletsConsumed_trans (bulletsConsumed_trans hb1 (bulletsConsumed_of_eq hr.1 hr.2)) (ih _ _)
          · exact bulletsConsumed_trans (bulletsConsumed_trans hb1 (bulletsConsumed_of_eq hr.1 hr.2)) (ih _ _)
    · exact bulletsConsumed_of_eq rfl rfl

theorem bulletsConsumed_bossVsBulletsLoop (env : Env) (fuel bi : Nat) (g : Game) :
    BulletsConsumed g (Game.bossVsBulletsLoop env fuel bi g) := by
  induction fuel generalizing bi g with
  | zero => exact bulletsConsumed_of_eq rfl rfl
  | succ n ih =>
    rw [Game.bossVsBulletsLoop]
    split
    · exact bulletsConsumed_of_eq rfl rfl
    · dsimp only
      split_ifs with h hhit hdead
      · exact bulletsConsumed_hit bi h rfl rfl
      · refine bulletsConsumed_trans ?_ (ih _ _)
        exact bulletsConsumed_hit bi h rfl rfl
      · exact ih _ _
      · exact bulletsConsumed_of_eq rfl rfl

theorem bulletsConsumed_updateBoss (env : Env) (dt : ℚ) (g : Game) :
    BulletsConsumed g (Game.updateBoss env dt g) := by
  unfold Game.updateBoss
  split
  · exact bulletsConsumed_of_eq rfl rfl
  · dsimp only
    have hb := bulletsConsumed_bossVsBulletsLoop env
      ({ g with activeBoss := some (Boss.update env ‹Boss› dt g.enemyBullets).1,
                enemyBullets := (Boss.update env ‹Boss› dt g.enemyBullets).2 } :
        Game).playerBullets.length
      0 { g with activeBoss := some (Boss.update env ‹Boss› dt g.enemyBullets).1,
                 enemyBullets := (Boss.update env ‹Boss› dt g.enemyBullets).2 }
    have hb1 : BulletsConsumed g (Game.bossVsBullets env
        { g with activeBoss := some (Boss.update env ‹Boss› dt g.enemyBullets).1,
                 enemyBullets := (Boss.update env ‹Boss› dt g.enemyBullets).2 }) :=
      bulletsConsumed_trans (bulletsConsumed_of_eq rfl rfl) hb
    split
    · exact hb1
    · split_ifs
      · exact bulletsConsumed_trans hb1 (bulletsConsumed_of_eq rfl rfl)
      · exact hb1

theorem bulletsConsumed_bossSpawning (env : Env) (g : Game) :
    BulletsConsumed g (Game.bossSpawning env g) := by
  unfold Game.bossSpawning
  dsimp only
  split_ifs <;> exact bulletsConsumed_of_eq rfl rfl

theorem hitEnemy_bullets (env : Env) (i : Nat) (g : Game) (k : Fin g.enemies.length) :
    (Game.hitEnemy env i g k).playerBullets = g.playerBullets.eraseIdx i
    ∧ (Game.hitEnemy env i g k).bulletHits = g.bulletHits ++ (g.playerBullets[i]?).toList := by
  unfold Game.hitEnemy
  dsimp only
  split_ifs
  · unfold Game.dropPowerup
    dsimp only
    split_ifs <;> exact ⟨rfl, rfl⟩
  · exact ⟨rfl, rfl⟩

theorem movedFrom_of_length_le (dt : ℚ) (i : Nat) (l : List Bullet) (h : l.length ≤ i) :
    movedFrom dt i l = l := by
  unfold movedFrom
  rw [List.take_of_length_le h, List.drop_of_length_le h]
  simp

theorem take_set_self {α : Type} (l : List α) (i : Nat) (x : α) :
    List.take i (l.set i x) = List.take i l := by
  induction l generalizing i with
  | nil => simp
  | cons a t ih =>
    cases i with
    | zero => simp
    | succ j => simp [ih]

theorem movedFrom_set (dt : ℚ) (i : Nat) (l : List Bullet) (h : i < l.length) :
    movedFrom dt (i + 1) (l.set i ((l[i]).update dt)) = movedFrom dt i l := by
  unfold movedFrom
  have h1 : List.take (i + 1) (l.set i ((l[i]).update dt))
      = List.take i l ++ [(l[i]).update dt] := by
    rw [List.take_succ, take_set_self]
    simp [h]
  have h2 : List.drop (i + 1) (l.set i ((l[i]).update dt)) = List.drop (i + 1) l := by
    rw [List.drop_set]
    simp
  rw [h1, h2, List.drop_eq_getElem_cons h, List.map_cons, List.append_assoc]
  rfl

theorem movedFrom_eraseIdx (dt : ℚ) (i : Nat) (l : List Bullet) (x : Bullet) (h : i < l.length) :
    ((l[i]).update dt :: movedFrom dt i ((l.set i x).eraseIdx i)).Perm (movedFrom dt i l) := by
  have he : (l.set i x).eraseIdx i = List.take i l ++ List.drop (i + 1) l := by
    rw [List.eraseIdx_eq_take_drop_succ, List.drop_set, take_set_self]
    simp
  have hlen : (List.take i l).length = i := by
    rw [List.length_take]
    omega
  unfold movedFrom
  rw [he, List.take_left' hlen, List.drop_left' hlen, List.drop_eq_getElem_cons h]
  simp only [List.map_cons]
  exact List.perm_middle.symm

/-- The loop against the enemies: the bullets recorded as hits and the bullets left are,
without repetition, among the bullets the loop started with (moved from index `i` on). -/
theorem playerBulletsVsEnemiesLoop_bullets (env : Env) (dt : ℚ) (fuel i : Nat) (g : Game)
    (hf : g.playerBullets.length ≤ fuel + i) :
    ∃ hits : List Bullet,
      (Game.playerBulletsVsEnemiesLoop env dt fuel i g).bulletHits = g.bulletHits ++ hits
      ∧ (hits ++ (Game.playerBulletsVsEnemiesLoop env dt fuel i g).playerBullets).Subperm
          (movedFrom dt i g.playerBullets) := by
  induction fuel generalizing i g with
  | zero =>
    refine ⟨[], by simp [Game.playerBulletsVsEnemiesLoop], ?_⟩
    rw [movedFrom_of_length_le dt i _ (by omega)]
    exact List.Subperm.refl _
  | succ n ih =>
    rw [Game.playerBulletsVsEnemiesLoop]
    split
    · rename_i h
      dsimp only
      split
      · rename_i k _
        have hh := hitEnemy_bullets env i
          { g with playerBullets := g.playerBullets.set i ((g.playerBullets[i]).update dt) } k
        have hlt : i < (g.playerBullets.set i ((g.playerBullets[i]).update dt)).length := by
          rw [List.length_set]
          exact h
        have hget : (g.playerBullets.set i ((g.playerBullets[i]).update dt))[i]?
            = some ((g.playerBullets[i]).update dt) := by
          rw [List.getElem?_eq_getElem hlt]
          simp
        obtain ⟨hits, hl, hp⟩ := ih i _ (by
          rw [hh.1, List.length_eraseIdx, List.length_set, if_pos h]
          omega)
        refine ⟨(g.playerBullets[i]).update dt :: hits, ?_, ?_⟩
        · rw [hl, hh.2]
          dsimp only
          rw [hget]
          simp
        · rw [hh.1] at hp
          dsimp only at hp
          rw [List.cons_append]
          exact ((List.subperm_cons _).mpr hp).trans
            (movedFrom_eraseIdx dt i g.playerBullets _ h).subperm
      · split_ifs
        · obtain ⟨hits, hl, hp⟩ := ih i
            { g with playerBullets :=
                (g.playerBullets.set i ((g.playerBullets[i]).update dt)).eraseIdx i } (by
            dsimp only
            rw [List.length_eraseIdx, List.length_set, if_pos h]
            omega)
          refine ⟨hits, hl, hp.trans ?_⟩
          exact ((List.sublist_cons_self _ _).subperm).trans
            (movedFrom_eraseIdx dt i g.playerBullets _ h).subperm
        · obtain ⟨hits, hl, hp⟩ := ih (i + 1)
            { g with playerBullets := g.playerBullets.set i ((g.playerBullets[i]).update dt) }
            (by
              dsimp only
              rw [List.length_set]
              omega)
          refine ⟨hits, hl, ?_⟩
          dsimp only at hp
          rw [movedFrom_set dt i g.playerBullets h] at hp
          exact hp
    · rename_i h
      refine ⟨[], by simp, ?_⟩
      rw [movedFrom_of_length_le dt i _ (by omega)]
      exact List.Subperm.refl _

/-! ## Enough fuel

Every loop is started with as much fuel as its vector has elements left to visit. One more
unit of fuel then changes nothing: no loop ever stops for lack of fuel. -/

theorem enemies_gameOverIfDead (g : Game) : g.gameOverIfDead.enemies = g.enemies := by
  unfold Game.gameOverIfDead
  split <;> rfl

theorem asteroids_gameOverIfDead (g : Game) : g.gameOverIfDead.asteroids = g.asteroids := by
  unfold Game.gameOverIfDead
  split <;> rfl

theorem updateEnemiesLoop_fuel_succ (env : Env) (dt : ℚ) (fuel i : Nat) (g : Game)
    (hf : g.enemies.length ≤ fuel + i) :
    Game.updateEnemiesLoop env dt (fuel + 1) i g = Game.updateEnemiesLoop env dt fuel i g := by
  induction fuel generalizing i g with
  | zero =>
    have hi : ¬ i < g.enemies.length := by omega
    simp [Game.updateEnemiesLoop, hi]
  | succ n ih =>
    conv_lhs => rw [Game.updateEnemiesLoop]
    conv_rhs => rw [Game.updateEnemiesLoop]
    by_cases hi : i < g.enemies.length
    · simp only [dif_pos hi]
      split_ifs
      · refine ih _ _ ?_
        simp only [enemies_gameOverIfDead, Game.shake, Game.addExplosion,
          List.length_eraseIdx, List.length_set, if_pos hi]
        omega
      · refine ih _ _ ?_
        simp only [List.length_eraseIdx, List.length_set, if_pos hi]
        omega
      · refine ih _ _ ?_
        simp only [List.length_set]
        omega
    · simp only [dif_neg hi]

theorem asteroidVsBulletsLoop_fuel_succ (env : Env) (ai fuel bi : Nat) (g : Game)
    (hf : g.playerBullets.length ≤ fuel + bi) :
    Game.asteroidVsBulletsLoop env ai (fuel + 1) bi g
      = Game.asteroidVsBulletsLoop env ai fuel bi g := by
  induction fuel generalizing bi g with
  | zero =>
    have hi : ¬ bi < g.playerBullets.length := by omega
    simp [Game.asteroidVsBulletsLoop, hi]
  | succ n ih =>
    conv_lhs => rw [Game.asteroidVsBulletsLoop]
    conv_rhs => rw [Game.asteroidVsBulletsLoop]
    by_cases hi : bi < g.playerBullets.length
    · simp only [dif_pos hi]
      split
      · rfl
      · split_ifs
        · refine ih _ _ ?_
          simp only [Game.shake, Game.addExplosion, List.length_eraseIdx, if_pos hi]
          omega
        · exact ih _ _ (by omega)
    · simp only [dif_neg hi]

theorem asteroids_length_asteroidVsBulletsLoop (env : Env) (ai fuel bi : Nat) (g : Game) :
    (Game.asteroidVsBulletsLoop env ai fuel bi g).asteroids.length = g.asteroids.length := by
  induction fuel generalizing bi g with
  | zero => rfl
  | succ n ih =>
    rw [Game.asteroidVsBulletsLoop]
    split
    · split
      · rfl
      · dsimp only
        split_ifs
        · rw [ih]
          simp [Game.shake, Game.addExplosion]
        · rw [ih]
    · rfl

theorem asteroids_length_removeAsteroidIfGone (env : Env) (ai : Nat) (a : Asteroid) (g : Game)
    (h : ai < g.asteroids.length) :
    (Game.removeAsteroidIfGone env ai a g).1.asteroids.length
      = if (Game.removeAsteroidIfGone env ai a g).2 then g.asteroids.length - 1
        else g.asteroids.length := by
  unfold Game.removeAsteroidIfGone
  dsimp only
  split_ifs <;> simp_all [Game.addExplosion, List.length_eraseIdx]

theorem updateAsteroidsLoop_fuel_succ (env : Env) (dt : ℚ) (fuel ai : Nat) (g : Game)
    (hf : g.asteroids.length ≤ fuel + ai) :
    Game.updateAsteroidsLoop env dt (fuel + 1) ai g = Game.updateAsteroidsLoop env dt fuel ai g := by
  induction fuel generalizing ai g with
  | zero =>
    have hi : ¬ ai < g.asteroids.length := by omega
    simp [Game.updateAsteroidsLoop, hi]
  | succ n ih =>
    conv_lhs => rw [Game.updateAsteroidsLoop]
    conv_rhs => rw [Game.updateAsteroidsLoop]
    by_cases hi : ai < g.asteroids.length
    · simp only [dif_pos hi]
      split
      · refine ih _ _ ?_
        simp only [asteroids_gameOverIfDead, Game.shake, List.length_eraseIdx, List.length_set,
          if_pos hi]
        omega
      · have hlen : (Game.asteroidVsBullets env ai
            { g with asteroids := g.asteroids.set ai ((g.asteroids[ai]).update dt) }).asteroids.length
            = g.asteroids.length := by
          unfold Game.asteroidVsBullets
          rw [asteroids_length_asteroidVsBulletsLoop]
          simp
        split
        · rfl
        · rename_i a _
          have hr := asteroids_length_removeAsteroidIfGone env ai a _ (by rw [hlen]; exact hi)
          split
          · rename_i hflag
            rw [if_pos hflag, hlen] at hr
            exact ih _ _ (by omega)
          · rename_i hflag
            rw [if_neg hflag, hlen] at hr
            exact ih _ _ (by omega)
    · simp only [dif_neg hi]

theorem bossVsBulletsLoop_fuel_succ (env : Env) (fuel bi : Nat) (g : Game)
    (hf : g.playerBullets.length ≤ fuel + bi) :
    Game.bossVsBulletsLoop env (fuel + 1) bi g = Game.bossVsBulletsLoop env fuel bi g := by
  induction fuel generalizing bi g with
  | zero =>
    have hi : ¬ bi < g.playerBullets.length := by omega
    simp only [Game.bossVsBulletsLoop, dif_neg hi]
    split <;> rfl
  | succ n ih =>
    conv_lhs => rw [Game.bossVsBulletsLoop]
    conv_rhs => rw [Game.bossVsBulletsLoop]
    split
    · rfl
    · by_cases hi : bi < g.playerBullets.length
      · simp only [dif_pos hi]
        split_ifs
        · rfl
        · refine ih _ _ ?_
          simp only [Game.shake, Game.addExplosion, List.length_eraseIdx, if_pos hi]
          omega
        · exact ih _ _ (by omega)
      · simp only [dif_neg hi]

theorem scanEnemiesLoop_fuel_succ (env : Env) (bullet : Bullet) (enemies : List Enemy)
    (fuel k0 : Nat) (hf : enemies.length ≤ fuel + k0) :
    scanEnemiesLoop env bullet enemies (fuel + 1) k0
      = scanEnemiesLoop env bullet enemies fuel k0 := by
  induction fuel generalizing k0 with
  | zero =>
    have hi : ¬ k0 < enemies.length := by omega
    simp [scanEnemiesLoop, hi]
  | succ n ih =>
    conv_lhs => rw [scanEnemiesLoop]
    conv_rhs => rw [scanEnemiesLoop]
    by_cases hi : k0 < enemies.length
    · simp only [dif_pos hi]
      split_ifs
      · rfl
      · exact ih _ (by omega)
    · simp only [dif_neg hi]

theorem playerBulletsVsEnemiesLoop_fuel_succ (env : Env) (dt : ℚ) (fuel i : Nat) (g : Game)
    (hf : g.playerBullets.length ≤ fuel + i) :
    Game.playerBulletsVsEnemiesLoop env dt (fuel + 1) i g
      = Game.playerBulletsVsEnemiesLoop env dt fuel i g := by
  induction fuel generalizing i g with
  | zero =>
    have hi : ¬ i < g.playerBullets.length := by omega
    simp [Game.playerBulletsVsEnemiesLoop, hi]
  | succ n ih =>
    conv_lhs => rw [Game.playerBulletsVsEnemiesLoop]
    conv_rhs => rw [Game.playerBulletsVsEnemiesLoop]
    by_cases hi : i < g.playerBullets.length
    · simp only [dif_pos hi]
      split
      · refine ih _ _ ?_
        rw [(hitEnemy_bullets env i _ _).1]
        simp only [List.length_eraseIdx, List.length_set, if_pos hi]
        omega
      · split_ifs
        · refine ih _ _ ?_
          simp only [List.length_eraseIdx, List.length_set, if_pos hi]
          omega
        · refine ih _ _ ?_
          simp only [List.length_set]
          omega
    · simp only [dif_neg hi]

theorem enemyBullets_storeHighScore (g : Game) :
    g.storeHighScore.enemyBullets = g.enemyBullets := by
  unfold Game.storeHighScore
  split <;> rfl

theorem enemyBulletsVsPlayerLoop_fuel_succ (env : Env) (dt : ℚ) (fuel i : Nat) (g : Game)
    (hf : g.enemyBullets.length ≤ fuel + i) :
    Game.enemyBulletsVsPlayerLoop env dt (fuel + 1) i g
      = Game.enemyBulletsVsPlayerLoop env dt fuel i g := by
  induction fuel generalizing i g with
  | zero =>
    have hi : ¬ i < g.enemyBullets.length := by omega
    simp [Game.enemyBulletsVsPlayerLoop, hi]
  | succ n ih =>
    conv_lhs => rw [Game.enemyBulletsVsPlayerLoop]
    conv_rhs => rw [Game.enemyBulletsVsPlayerLoop]
    by_cases hi : i < g.enemyBullets.length
    · simp only [dif_pos hi]
      split_ifs
      · refine ih _ _ ?_
        simp only [Game.shake, Game.enterGameOver, enemyBullets_storeHighScore,
          Game.addExplosion, List.length_eraseIdx, List.length_set, if_pos hi]
        omega
      · refine ih _ _ ?_
        simp only [Game.shake, Game.addExplosion, List.length_eraseIdx, List.length_set,
          if_pos hi]
        omega
      · refine ih _ _ ?_
        simp only [List.length_eraseIdx, List.length_set, if_pos hi]
        omega
      · refine ih _ _ ?_
        simp only [List.length_set]
        omega
    · simp only [dif_neg hi]

theorem updateExplosionsLoop_fuel_succ (env : Env) (dt : ℚ) (fuel i : Nat) (g : Game)
    (hf : g.explosions.length ≤ fuel + i) :
    Game.updateExplosionsLoop env dt (fuel + 1) i g
      = Game.updateExplosionsLoop env dt fuel i g := by
  induction fuel generalizing i g with
  | zero =>
    have hi : ¬ i < g.explosions.length := by omega
    simp [Game.updateExplosionsLoop, hi]
  | succ n ih =>
    conv_lhs => rw [Game.updateExplosionsLoop]
    conv_rhs => rw [Game.updateExplosionsLoop]
    by_cases hi : i < g.explosions.length
    · simp only [dif_pos hi]
      split_ifs
      · refine ih _ _ ?_
        simp only [List.length_eraseIdx, List.length_set, if_pos hi]
        omega
      · refine ih _ _ ?_
        simp only [List.length_set]
        omega
    · simp only [dif_neg hi]

theorem powerups_applyPowerup (t : PowerupType) (g : Game) :
    (Game.applyPowerup t g).powerups = g.powerups := by
  cases t <;> rfl

theorem updatePowerupsLoop_fuel_succ (env : Env) (dt : ℚ) (fuel i : Nat) (g : Game)
    (hf : g.powerups.length ≤ fuel + i) :
    Game.updatePowerupsLoop env dt (fuel + 1) i g = Game.updatePowerupsLoop env dt fuel i g := by
  induction fuel generalizing i g with
  | zero =>
    have hi : ¬ i < g.powerups.length := by omega
    simp [Game.updatePowerupsLoop, hi]
  | succ n ih =>
    conv_lhs => rw [Game.updatePowerupsLoop]
    conv_rhs => rw [Game.updatePowerupsLoop]
    by_cases hi : i < g.powerups.length
    · simp only [dif_pos hi]
      split_ifs
      · refine ih _ _ ?_
        simp only [List.length_eraseIdx, List.length_set, if_pos hi]
        omega
      · refine ih _ _ ?_
        simp only [List.length_eraseIdx, List.length_set, if_pos hi]
        omega
      · refine ih _ _ ?_
        simp only [List.length_set]
        omega
    · simp only [dif_neg hi]

/-! ## Collisions with the player -/

theorem eraseIdx_set_self {α : Type} (l : List α) (i : Nat) (x : α) :
    (l.set i x).eraseIdx i = l.eraseIdx i := by
  rw [List.eraseIdx_eq_take_drop_succ, List.eraseIdx_eq_take_drop_succ, List.drop_set,
    take_set_self]
  simp

theorem loseHearts_eq (n : Nat) (h : HUD) (h0 : 0 ≤ h.currentHearts) :
    loseHearts n h = { h with currentHearts := max (h.currentHearts - (n : Int)) 0 } := by
  induction n generalizing h with
  | zero => simp [loseHearts, max_eq_left h0]
  | succ n ih =>
    unfold loseHearts
    by_cases hc : h.currentHearts > 0
    · have halive : h.isAlive = true := by simp [HUD.isAlive, hc]
      have hl : h.loseHeart = { h with currentHearts := h.currentHearts - 1 } := by
        simp [HUD.loseHeart, hc]
      rw [if_pos halive, hl, ih _ (by show 0 ≤ h.currentHearts - 1; omega)]
      have he : h.currentHearts - 1 - (n : Int) = h.currentHearts - ((n + 1 : Nat) : Int) := by
        push_cast
        ring
      simp only [he]
    · have halive : ¬ h.isAlive = true := by simp [HUD.isAlive, hc]
      have hz : h.currentHearts = 0 := by omega
      have hm : max (h.currentHearts - ((n + 1 : Nat) : Int)) 0 = h.currentHearts := by
        rw [hz]
        apply max_eq_right
        omega
      rw [if_neg halive, hm]

theorem updateEnemiesLoop_collision (env : Env) (dt : ℚ) (fuel i : Nat) (g : Game)
    (h0 : 0 ≤ g.hud.currentHearts) (hi : i < g.enemies.length)
    (hhit : env.hit g.player.sprite ((g.enemies[i]).update env dt g.enemyBullets).1.sprite
      = true) :
    ∃ g1 : Game,
      Game.updateEnemiesLoop env dt (fuel + 1) i g = Game.updateEnemiesLoop env dt fuel i g1
      ∧ g1.enemies = g.enemies.eraseIdx i
      ∧ g1.hud.currentHearts = max (g.hud.currentHearts - 5) 0
      ∧ g1.hud.score = g.hud.score := by
  rw [Game.updateEnemiesLoop]
  simp only [dif_pos hi]
  rw [if_pos hhit]
  refine ⟨_, rfl, ?_, ?_, ?_⟩
  · simp [enemies_gameOverIfDead, Game.shake, Game.addExplosion, eraseIdx_set_self]
  · simp [Game.shake, Game.addExplosion, loseHearts_eq 5 g.hud h0]
  · simp [Game.shake, Game.addExplosion, loseHearts_eq 5 g.hud h0]

theorem updateAsteroidsLoop_collision (env : Env) (dt : ℚ) (fuel ai : Nat) (g : Game)
    (h0 : 0 ≤ g.hud.currentHearts) (hi : ai < g.asteroids.length)
    (hhit : env.hit g.player.sprite ((g.asteroids[ai]).update dt).sprite = true) :
    ∃ g1 : Game,
      Game.updateAsteroidsLoop env dt (fuel + 1) ai g
        = Game.updateAsteroidsLoop env dt fuel ai g1
      ∧ g1.asteroids = g.asteroids.eraseIdx ai
      ∧ g1.hud.currentHearts = max (g.hud.currentHearts - 5) 0
      ∧ g1.hud.score = g.hud.score := by
  rw [Game.updateAsteroidsLoop]
  simp only [dif_pos hi]
  rw [if_pos hhit]
  refine ⟨_, rfl, ?_, ?_, ?_⟩
  · simp [asteroids_gameOverIfDead, Game.shake, eraseIdx_set_self]
  · simp [Game.shake, loseHearts_eq 5 g.hud h0]
  · simp [Game.shake, loseHearts_eq 5 g.hud h0]

/-! ## Asteroids under fire -/

theorem sprite_takeDamage (a : Asteroid) (d : Int) : (a.takeDamage d).sprite = a.sprite := by
  unfold Asteroid.takeDamage
  dsimp only
  split <;> rfl

theorem health_takeDamage (a : Asteroid) (d : Int) :
    (a.takeDamage d).health = a.health - d := by
  unfold Asteroid.takeDamage
  dsimp only
  split <;> rfl

theorem drop_eraseIdx_self {α : Type} (l : List α) (i : Nat) (h : i < l.length) :
    (l.eraseIdx i).drop i = l.drop (i + 1) := by
  have hlen : (List.take i l).length = i := by
    rw [List.length_take]
    omega
  rw [List.eraseIdx_eq_take_drop_succ, List.drop_left' hlen]

theorem take_eraseIdx_self {α : Type} (l : List α) (i : Nat) (h : i < l.length) :
    (l.eraseIdx i).take i = l.take i := by
  have hlen : (List.take i l).length = i := by
    rw [List.length_take]
    omega
  rw [List.eraseIdx_eq_take_drop_succ, List.take_left' hlen]

/-- The loop of the asteroid at index `ai` over the player bullets from index `bi` on: the
asteroid keeps its sprite and loses one health point for every bullet that overlaps it, and
exactly these bullets are erased. -/
theorem asteroidVsBulletsLoop_outcome (env : Env) (ai fuel bi : Nat) (g : Game) (a : Asteroid)
    (ha : g.asteroids[ai]? = some a) (hf : g.playerBullets.length ≤ fuel + bi) :
    ∃ a1 : Asteroid,
      (Game.asteroidVsBulletsLoop env ai fuel bi g).asteroids[ai]? = some a1
      ∧ a1.sprite = a.sprite
      ∧ a1.health = a.health
          - (((g.playerBullets.drop bi).countP (fun b => env.hit a.sprite b.sprite) : Nat) : Int)
      ∧ (Game.asteroidVsBulletsLoop env ai fuel bi g).playerBullets
          = g.playerBullets.take bi
            ++ (g.playerBullets.drop bi).filter (fun b => !env.hit a.sprite b.sprite) := by
  induction fuel generalizing bi g a with
  | zero =>
    have hd : g.playerBullets.drop bi = [] := List.drop_eq_nil_of_le (by omega)
    have ht : g.playerBullets.take bi = g.playerBullets := List.take_of_length_le (by omega)
    exact ⟨a, ha, rfl, by simp [hd], by simp [Game.asteroidVsBulletsLoop, hd, ht]⟩
  | succ n ih =>
    rw [Game.asteroidVsBulletsLoop]
    by_cases hbi : bi < g.playerBullets.length
    · simp only [dif_pos hbi, ha]
      have hai : ai < g.asteroids.length := by
        rcases List.getElem?_eq_some.1 ha with ⟨h1, _⟩
        exact h1
      have hdrop : g.playerBullets.drop bi
          = g.playerBullets[bi] :: g.playerBullets.drop (bi + 1) :=
        List.drop_eq_getElem_cons hbi
      by_cases hhit : env.hit a.sprite (g.playerBullets[bi]).sprite = true
      · rw [if_pos hhit]
        obtain ⟨a2, h1, h2, h3, h4⟩ := ih bi
          (({ ({ g with asteroids := g.asteroids.set ai (a.takeDamage 1),
                        bulletHits := g.bulletHits ++ [g.playerBullets[bi]] } : Game).addExplosion
              env .explosionFrames (a.takeDamage 1).sprite.position with
              playerBullets := g.playerBullets.eraseIdx bi } : Game).shake 4 (3 / 20))
          (a.takeDamage 1)
          (by simp [Game.shake, Game.addExplosion, hai])
          (by
            simp only [Game.shake, Game.addExplosion, List.length_eraseIdx, if_pos hbi]
            omega)
        have hc : (g.playerBullets.drop bi).countP (fun b => env.hit a.sprite b.sprite)
            = (g.playerBullets.drop (bi + 1)).countP (fun b => env.hit a.sprite b.sprite)
              + 1 := by
          rw [hdrop]
          exact List.countP_cons_of_pos _ _ hhit
        have hfil : (g.playerBullets.drop bi).filter (fun b => !env.hit a.sprite b.sprite)
            = (g.playerBullets.drop (bi + 1)).filter
                (fun b => !env.hit a.sprite b.sprite) := by
          rw [hdrop]
          exact List.filter_cons_of_neg (by simp [hhit])
        simp only [Game.shake, Game.addExplosion, sprite_takeDamage] at h1 h3 h4 ⊢
        rw [drop_eraseIdx_self _ _ hbi] at h3 h4
        rw [take_eraseIdx_self _ _ hbi] at h4
        refine ⟨a2, h1, by rw [h2, sprite_takeDamage], ?_, ?_⟩
        · rw [h3, health_takeDamage, hc]
          push_cast
          ring
        · rw [h4, hfil]
      · rw [if_neg hhit]
        obtain ⟨a2, h1, h2, h3, h4⟩ := ih (bi + 1) g a ha (by omega)
        have hc : (g.playerBullets.drop bi).countP (fun b => env.hit a.sprite b.sprite)
            = (g.playerBullets.drop (bi + 1)).countP
                (fun b => env.hit a.sprite b.sprite) := by
          rw [hdrop]
          exact List.countP_cons_of_neg _ _ hhit
        have hfil : (g.playerBullets.drop bi).filter (fun b => !env.hit a.sprite b.sprite)
            = g.playerBullets[bi]
              :: (g.playerBullets.drop (bi + 1)).filter
                  (fun b => !env.hit a.sprite b.sprite) := by
          rw [hdrop]
          exact List.filter_cons_of_pos (by simp [hhit])
        refine ⟨a2, h1, h2, ?_, ?_⟩
        · rw [h3, hc]
        · rw [h4, hfil, List.take_succ, List.getElem?_eq_getElem hbi, List.append_assoc]
          rfl
    · simp only [dif_neg hbi]
      have hd : g.playerBullets.drop bi = [] := List.drop_eq_nil_of_le (by omega)
      have ht : g.playerBullets.take bi = g.playerBullets := List.take_of_length_le (by omega)
      exact ⟨a, ha, rfl, by simp [hd], by simp [hd, ht]⟩

theorem takeDamage_one_live (a : Asteroid) (hwf : a.isAlive = decide (0 < a.health)) :
    a.takeDamage 1
      = { a with health := a.health - 1, isAlive := decide (0 < a.health - 1) } := by
  unfold Asteroid.takeDamage
  dsimp only
  by_cases h : a.health - 1 ≤ 0
  · rw [if_pos h]
    have hd : decide (0 < a.health - 1) = false := by
      simp only [decide_eq_false_iff_not]
      omega
    rw [hd]
  · rw [if_neg h]
    have hd : decide (0 < a.health - 1) = true := by
      simp only [decide_eq_true_eq]
      omega
    have hd2 : a.isAlive = true := by
      rw [hwf]
      simp only [decide_eq_true_eq]
      omega
    rw [hd, ← hd2]

theorem set_getElem?_self {α : Type} (l : List α) (i : Nat) (x : α) (h : l[i]? = some x) :
    l.set i x = l := by
  apply List.ext_getElem?
  intro j
  by_cases hj : i = j
  · subst hj
    rcases List.getElem?_eq_some.1 h with ⟨h1, _⟩
    rw [List.getElem?_set_self h1, h]
  · rw [List.getElem?_set_ne hj]

/-- The loop of the live asteroid at index `ai` over the player bullets from index `bi` on:
the stored asteroid loses one health point for every bullet that overlaps it and `isAlive` is
cleared once no health is left; nothing else in `asteroids` changes. -/
theorem asteroidVsBulletsLoop_asteroids (env : Env) (ai fuel bi : Nat) (g : Game) (a : Asteroid)
    (ha : g.asteroids[ai]? = some a) (hwf : a.isAlive = decide (0 < a.health))
    (hf : g.playerBullets.length ≤ fuel + bi) :
    (Game.asteroidVsBulletsLoop env ai fuel bi g).asteroids
      = g.asteroids.set ai
          { a with
            health := a.health
              - (((g.playerBullets.drop bi).countP (fun b => env.hit a.sprite b.sprite) : Nat)
                  : Int),
            isAlive := decide (0 < a.health
              - (((g.playerBullets.drop bi).countP (fun b => env.hit a.sprite b.sprite) : Nat)
                  : Int)) } := by
  induction fuel generalizing bi g a with
  | zero =>
    have hd : g.playerBullets.drop bi = [] := List.drop_eq_nil_of_le (by omega)
    rw [hd]
    simp only [Game.asteroidVsBulletsLoop, List.countP_nil, Nat.cast_zero, sub_zero, ← hwf]
    exact (set_getElem?_self _ _ _ ha).symm
  | succ n ih =>
    rw [Game.asteroidVsBulletsLoop]
    by_cases hbi : bi < g.playerBullets.length
    · simp only [dif_pos hbi, ha]
      have hai : ai < g.asteroids.length := by
        rcases List.getElem?_eq_some.1 ha with ⟨h1, _⟩
        exact h1
      have hdrop : g.playerBullets.drop bi
          = g.playerBullets[bi] :: g.playerBullets.drop (bi + 1) :=
        List.drop_eq_getElem_cons hbi
      by_cases hhit : env.hit a.sprite (g.playerBullets[bi]).sprite = true
      · rw [if_pos hhit]
        have h1 := ih bi
          (({ ({ g with asteroids := g.asteroids.set ai (a.takeDamage 1),
                        bulletHits := g.bulletHits ++ [g.playerBullets[bi]] } : Game).addExplosion
              env .explosionFrames (a.takeDamage 1).sprite.position with
              playerBullets := g.playerBullets.eraseIdx bi } : Game).shake 4 (3 / 20))
          (a.takeDamage 1)
          (by simp [Game.shake, Game.addExplosion, hai])
          (by rw [takeDamage_one_live a hwf])
          (by
            simp only [Game.shake, Game.addExplosion, List.length_eraseIdx, if_pos hbi]
            omega)
        have hc : (g.playerBullets.drop bi).countP (fun b => env.hit a.sprite b.sprite)
            = (g.playerBullets.drop (bi + 1)).countP (fun b => env.hit a.sprite b.sprite)
              + 1 := by
          rw [hdrop]
          exact List.countP_cons_of_pos _ _ hhit
        simp only [Game.shake, Game.addExplosion, sprite_takeDamage] at h1 ⊢
        rw [drop_eraseIdx_self _ _ hbi] at h1
        rw [h1, List.set_set, hc, takeDamage_one_live a hwf]
        push_cast
        simp only [sub_sub, add_comm]
      · rw [if_neg hhit]
        have hc : (g.playerBullets.drop bi).countP (fun b => env.hit a.sprite b.sprite)
            = (g.playerBullets.drop (bi + 1)).countP
                (fun b => env.hit a.sprite b.sprite) := by
          rw [hdrop]
          exact List.countP_cons_of_neg _ _ hhit
        rw [ih (bi + 1) g a ha hwf (by omega), hc]
    · simp only [dif_neg hbi]
      have hd : g.playerBullets.drop bi = [] := List.drop_eq_nil_of_le (by omega)
      rw [hd]
      simp only [List.countP_nil, Nat.cast_zero, sub_zero, ← hwf]
      exact (set_getElem?_self _ _ _ ha).symm

theorem health_update (a : Asteroid) (dt : ℚ) : (a.update dt).health = a.health := by
  unfold Asteroid.update
  split <;> rfl

theorem isAlive_update (a : Asteroid) (dt : ℚ) : (a.update dt).isAlive = a.isAlive := by
  unfold Asteroid.update
  split <;> rfl

theorem with_isAlive_true (a : Asteroid) (x : Int) (h : a.isAlive = true) :
    { a with health := x, isAlive := true } = { a with health := x } := by
  cases a
  simp only at h
  simp [h]

/-! ## The state machine -/

theorem handleEvent_options (ui : Ui) (g : Game) (e : Event) (h : g.currentState = .OPTIONS) :
    (Game.handleEvent ui g e).currentState = .OPTIONS
    ∧ (Game.handleEvent ui g e).previousState = g.previousState := by
  unfold Game.handleEvent
  by_cases he : e = .Closed
  · simp [he, h]
  · simp [he, h]

theorem processEvents_options (ui : Ui) (events : List Event) (g : Game)
    (h : g.currentState = .OPTIONS) :
    (Game.processEvents ui events g).currentState = .OPTIONS
    ∧ (Game.processEvents ui events g).previousState = g.previousState := by
  induction events generalizing g with
  | nil => exact ⟨h, rfl⟩
  | cons e es ih =>
    have h1 := handleEvent_options ui g e h
    have h2 := ih (Game.handleEvent ui g e) h1.1
    unfold Game.processEvents at h2 ⊢
    rw [List.foldl_cons]
    exact ⟨h2.1, h2.2.trans h1.2⟩

theorem update_options_back (env : Env) (ui : Ui) (dt : ℚ) (g : Game)
    (h : g.currentState = .OPTIONS) (hb : g.optionsMenu.isBackPressed = true) :
    (Game.update env ui dt g).currentState = g.previousState := by
  unfold Game.update
  rw [h]
  simp [Game.updateOptions, hb]

theorem handleEvent_options_escape (ui : Ui) (g : Game) (h : g.currentState = .OPTIONS)
    (himg : g.optionsMenu.showingImage = false) :
    (Game.handleEvent ui g (.KeyPressed .Escape)).optionsMenu.isBackPressed = true := by
  have ho : (OptionsMenu.handleInput ui g.optionsMenu (.KeyPressed .Escape)).backPressed
      = true := by
    unfold OptionsMenu.handleInput
    rw [himg]
    rfl
  unfold Game.handleEvent
  simp [h, ho, OptionsMenu.isBackPressed]

theorem updateMenu_previousState (g : Game)
    (h : g.updateMenu.currentState = .OPTIONS ∨ g.updateMenu.currentState = .HIGHSCORE)
    (hg : g.currentState = .MENU) :
    g.updateMenu.previousState = .MENU := by
  unfold Game.updateMenu at h ⊢
  dsimp only at h ⊢
  split_ifs at h ⊢ <;> simp_all

theorem menu_update (ui : Ui) (s : GameOver) (dt : ℚ) : (s.update ui dt).menu = s.menu := by
  unfold GameOver.update
  dsimp only
  split_ifs <;> rfl

theorem updateGameOver_previousState (ui : Ui) (dt : ℚ) (g : Game)
    (h : (Game.updateGameOver ui dt g).currentState = .OPTIONS
      ∨ (Game.updateGameOver ui dt g).currentState = .HIGHSCORE)
    (hg : g.currentState = .GAME_OVER) :
    (Game.updateGameOver ui dt g).previousState = .GAME_OVER := by
  unfold Game.updateGameOver at h ⊢
  dsimp only at h ⊢
  split_ifs at h ⊢ <;> simp_all [Game.resetGame]

theorem update_enter_previousState (env : Env) (ui : Ui) (dt : ℚ) (g : Game) (s : GameState)
    (hs : s = .MENU ∨ s = .GAME_OVER) (hg : g.currentState = s)
    (h : (Game.update env ui dt g).currentState = .OPTIONS
      ∨ (Game.update env ui dt g).currentState = .HIGHSCORE) :
    (Game.update env ui dt g).previousState = s := by
  rcases hs with hs | hs
  · subst hs
    have hu : Game.update env ui dt g = g.updateMenu := by
      unfold Game.update
      rw [hg]
    rw [hu] at h ⊢
    exact updateMenu_previousState g h hg
  · subst hs
    have hu : Game.update env ui dt g = Game.updateGameOver ui dt g := by
      unfold Game.update
      rw [hg]
    rw [hu] at h ⊢
    exact updateGameOver_previousState ui dt g h hg

theorem frame_highscore_escape (env : Env) (ui : Ui) (dt : ℚ) (g : Game)
    (h : g.currentState = .HIGHSCORE)
    (hp : g.previousState = .MENU ∨ g.previousState = .GAME_OVER) :
    (Game.handleEvent ui g (.KeyPressed .Escape)).currentState = g.previousState
    ∧ (Game.frame env ui [.KeyPressed .Escape] dt g).currentState = g.previousState := by
  unfold Game.frame Game.processEvents
  rw [List.foldl_cons, List.foldl_nil]
  rcases hp with hp | hp
  · have he : Game.handleEvent ui g (.KeyPressed .Escape)
        = { g with currentState := .MENU, menu := g.menu.reset } := by
      unfold Game.handleEvent
      simp [h, hp]
    rw [he, hp]
    refine ⟨rfl, ?_⟩
    simp [Game.update, Game.updateMenu, Menu.reset, Menu.isStartPressed,
      Menu.isHighScorePressed, Menu.isOptionsPressed, Menu.isExitPressed]
  · have he : Game.handleEvent ui g (.KeyPressed .Escape)
        = { g with currentState := .GAME_OVER,
                   gameOverScreen := { g.gameOverScreen with
                     menu := g.gameOverScreen.menu.reset } } := by
      unfold Game.handleEvent
      simp [h, hp]
    rw [he, hp]
    refine ⟨rfl, ?_⟩
    simp [Game.update, Game.updateGameOver, menu_update, Menu.reset, GameOver.isRetryPressed,
      GameOver.isOptionsPressed, GameOver.isHighScorePressed, GameOver.isExitPressed,
      Menu.isStartPressed, Menu.isHighScorePressed, Menu.isOptionsPressed, Menu.isExitPressed]

/-! ## Enemy bullets and the end of the game -/

theorem enemyBulletsVsPlayer_single_hit (env : Env) (dt : ℚ) (g : Game) (b : Bullet)
    (hb : g.enemyBullets = [b])
    (hhit : env.hit (b.update dt).sprite g.player.sprite = true)
    (hh : 0 < g.hud.currentHearts) :
    (Game.enemyBulletsVsPlayer env dt g).enemyBullets = []
    ∧ (Game.enemyBulletsVsPlayer env dt g).hud.currentHearts = g.hud.currentHearts - 1
    ∧ (Game.enemyBulletsVsPlayer env dt g).hud.score = g.hud.score
    ∧ (Game.enemyBulletsVsPlayer env dt g).currentState
        = if g.hud.currentHearts = 1 then .GAME_OVER else g.currentState := by
  have hi : 0 < g.enemyBullets.length := by simp [hb]
  have hget : g.enemyBullets[0] = b := by simp [hb]
  have hlen : g.enemyBullets.length = 1 := by simp [hb]
  have hl : g.hud.loseHeart = { g.hud with currentHearts := g.hud.currentHearts - 1 } := by
    simp [HUD.loseHeart, hh]
  unfold Game.enemyBulletsVsPlayer
  rw [hlen, Game.enemyBulletsVsPlayerLoop]
  simp only [dif_pos hi]
  rw [hget, if_pos hhit]
  simp only [Game.enemyBulletsVsPlayerLoop, Game.shake, Game.addExplosion, hl]
  by_cases h1 : g.hud.currentHearts = 1
  · simp [HUD.isAlive, h1, hb, Game.enterGameOver, Game.storeHighScore]
    split <;> simp [Game.saveHighScore]
  · have h2 : 0 < g.hud.currentHearts - 1 := by omega
    simp [HUD.isAlive, h1, h2, hb]

theorem update_game_over_idle (env : Env) (ui : Ui) (dt : ℚ) (g : Game)
    (hg : g.currentState = .GAME_OVER) (hm : g.gameOverScreen.menu = {}) :
    Game.update env ui dt g = { g with gameOverScreen := g.gameOverScreen.update ui dt } := by
  unfold Game.update
  rw [hg]
  simp [Game.updateGameOver, menu_update, hm, hg, GameOver.isRetryPressed,
    GameOver.isOptionsPressed, GameOver.isHighScorePressed, GameOver.isExitPressed,
    Menu.isStartPressed, Menu.isHighScorePressed, Menu.isOptionsPressed, Menu.isExitPressed]

theorem update_game_over_frame (env : Env) (ui : Ui) (dt : ℚ) (g : Game)
    (hg : g.currentState = .GAME_OVER) (hr : g.gameOverScreen.isRetryPressed = false) :
    (Game.update env ui dt g).hud = g.hud
    ∧ (Game.update env ui dt g).enemies = g.enemies
    ∧ (Game.update env ui dt g).enemyBullets = g.enemyBullets
    ∧ (Game.update env ui dt g).playerBullets = g.playerBullets
    ∧ (Game.update env ui dt g).explosions = g.explosions
    ∧ (Game.update env ui dt g).asteroids = g.asteroids
    ∧ (Game.update env ui dt g).powerups = g.powerups
    ∧ (Game.update env ui dt g).activeBoss = g.activeBoss := by
  have hr1 : (g.gameOverScreen.update ui dt).isRetryPressed = false := by
    unfold GameOver.isRetryPressed at hr ⊢
    rw [menu_update]
    exact hr
  unfold Game.update
  rw [hg]
  simp only [Game.updateGameOver]
  split_ifs with h1 <;> first | (rw [hr1] at h1; exact absurd h1 (by decide)) | simp

theorem tenHitsRun_succ (n : Nat) :
    tenHitsRun (n + 1)
      = Game.update sampleEnv sampleUi (1 / 100) (tenHitsRun n).placeEnemyBullet := rfl

theorem tenHitsRun_ten :
    (tenHitsRun 10).currentState = .GAME_OVER
    ∧ (tenHitsRun 10).gameOverScreen.menu = {}
    ∧ (tenHitsRun 10).enemyBullets.length = 0 := by
  with_unfolding_all decide

/-- After the tenth hit the run stays in `GAME_OVER` with an untouched game-over menu: the
placed bullets pile up and nothing else changes. -/
theorem tenHitsRun_after_game_over (m : Nat) :
    (tenHitsRun (10 + m)).currentState = .GAME_OVER
    ∧ (tenHitsRun (10 + m)).gameOverScreen.menu = {}
    ∧ (tenHitsRun (10 + m)).hud = (tenHitsRun 10).hud
    ∧ (tenHitsRun (10 + m)).enemies = (tenHitsRun 10).enemies
    ∧ (tenHitsRun (10 + m)).playerBullets = (tenHitsRun 10).playerBullets
    ∧ (tenHitsRun (10 + m)).explosions = (tenHitsRun 10).explosions
    ∧ (tenHitsRun (10 + m)).asteroids = (tenHitsRun 10).asteroids
    ∧ (tenHitsRun (10 + m)).powerups = (tenHitsRun 10).powerups
    ∧ (tenHitsRun (10 + m)).activeBoss = (tenHitsRun 10).activeBoss
    ∧ (tenHitsRun (10 + m)).enemyBullets.length = m := by
  induction m with
  | zero =>
    obtain ⟨h1, h2, h3⟩ := tenHitsRun_ten
    exact ⟨h1, h2, rfl, rfl, rfl, rfl, rfl, rfl, rfl, h3⟩
  | succ m ih =>
    obtain ⟨h1, h2, h3, h4, h5, h6, h7, h8, h9, h10⟩ := ih
    have hs : (tenHitsRun (10 + m)).placeEnemyBullet.currentState = .GAME_OVER := h1
    have hm : (tenHitsRun (10 + m)).placeEnemyBullet.gameOverScreen.menu = {} := h2
    have hrun : tenHitsRun (10 + (m + 1))
        = { (tenHitsRun (10 + m)).placeEnemyBullet with
            gameOverScreen :=
              (tenHitsRun (10 + m)).placeEnemyBullet.gameOverScreen.update sampleUi (1 / 100) } := by
      rw [← update_game_over_idle sampleEnv sampleUi (1 / 100) _ hs hm]
      rfl
    rw [hrun]
    refine ⟨h1, ?_, h3, h4, h5, h6, h7, h8, h9, ?_⟩
    · show (GameOver.update sampleUi _ (1 / 100)).menu = {}
      rw [menu_update]
      exact h2
    · show ((tenHitsRun (10 + m)).enemyBullets ++ [_]).length = m + 1
      rw [List.length_append, h10]
      rfl

/-! ## The footprint of a tick on the books -/

theorem tickSteps_trans {g1 g2 g3 : Game} (a : TickSteps g1 g2) (b : TickSteps g2 g3) :
    TickSteps g1 g3 := by
  induction b with
  | refl => exact a
  | other g3 _ hh hb ih => exact ih.other g3 hh hb
  | gameOver _ hd ih => exact ih.gameOver hd
  | store _ hd ih => exact ih.store hd
  | bossDefeated g3 _ hh hb ih => exact ih.bossDefeated g3 hh hb

theorem tickSteps_same {g1 g3 : Game} (g2 : Game) (h : TickSteps g1 g2)
    (hh : HudSteps g2.hud g3.hud) (hb : g3.books = g2.books) : TickSteps g1 g3 :=
  h.other g3 hh hb

/-- A pass that changes the HUD by `HudSteps` and leaves the books alone. -/
theorem tickSteps_of_books {g1 g2 : Game} (hh : HudSteps g1.hud g2.hud)
    (hb : g2.books = g1.books) : TickSteps g1 g2 :=
  (TickSteps.refl g1).other g2 hh hb

/-- The statement `if (!hud.isAlive()) { gameOverScreen.reset(); currentState = GAME_OVER; }`
run in a state with the HUD and the books of `g2`. -/
theorem tickSteps_gameOverIfDead_of {g1 g3 : Game} (g2 : Game) (h : TickSteps g1 g2)
    (hh : g3.hud = g2.hud) (hb : g3.books = g2.gameOverIfDead.books) : TickSteps g1 g3 := by
  unfold Game.gameOverIfDead at hb
  by_cases hd : g2.hud.isAlive = true
  · rw [hd] at hb
    exact h.other g3 (by rw [hh]; exact HudSteps.refl _) hb
  · have hd1 : g2.hud.isAlive = false := by simpa using hd
    rw [hd1] at hb
    exact (h.gameOver hd1).other g3 (by rw [hh]; exact HudSteps.refl _) hb

/-- The statement
`if (!hud.isAlive()) { if (score > high) { ...save... } gameOverScreen.reset(); currentState = GAME_OVER; }`
run in a state with the HUD and the books of `g2`. -/
theorem tickSteps_deathCheck_of {g1 g3 : Game} (g2 : Game) (h : TickSteps g1 g2)
    (hh : g3.hud = g2.hud) (hb : g3.books = g2.deathCheck.books) : TickSteps g1 g3 := by
  unfold Game.deathCheck at hb
  by_cases hd : g2.hud.isAlive = true
  · rw [hd] at hb
    exact h.other g3 (by rw [hh]; exact HudSteps.refl _) hb
  · have hd1 : g2.hud.isAlive = false := by simpa using hd
    rw [hd1] at hb
    exact (h.store hd1).other g3 (by rw [hh]; simp; exact HudSteps.refl _) hb

theorem books_playerShooting (env : Env) (g : Game) :
    (Game.playerShooting env g).books = g.books := by
  unfold Game.playerShooting
  dsimp only
  split_ifs <;> rfl

theorem books_enemySpawning (env : Env) (dt : ℚ) (g : Game) :
    (Game.enemySpawning env dt g).books = g.books := by
  unfold Game.enemySpawning
  dsimp only
  split_ifs <;> rfl

theorem books_asteroidSpawning (env : Env) (dt : ℚ) (g : Game) :
    (Game.asteroidSpawning env dt g).books = g.books := by
  unfold Game.asteroidSpawning
  dsimp only
  split_ifs <;> rfl

theorem books_bossSpawning (env : Env) (g : Game) :
    (Game.bossSpawning env g).books = g.books := by
  unfold Game.bossSpawning
  dsimp only
  split_ifs <;> rfl

theorem books_asteroidVsBulletsLoop (env : Env) (ai fuel bi : Nat) (g : Game) :
    (Game.asteroidVsBulletsLoop env ai fuel bi g).books = g.books := by
  induction fuel generalizing bi g with
  | zero => rfl
  | succ n ih =>
    rw [Game.asteroidVsBulletsLoop]
    split
    · split
      · rfl
      · dsimp only
        split_ifs
        · rw [ih]; rfl
        · rw [ih]
    · rfl

theorem books_removeAsteroidIfGone (env : Env) (ai : Nat) (a : Asteroid) (g : Game) :
    (Game.removeAsteroidIfGone env ai a g).1.books = g.books := by
  unfold Game.removeAsteroidIfGone
  dsimp only
  split_ifs <;> rfl

theorem books_dropPowerup (env : Env) (pos : Vector2f) (g : Game) :
    (Game.dropPowerup env pos g).books = g.books := by
  unfold Game.dropPowerup
  split <;> rfl

theorem books_hitEnemy (env : Env) (i : Nat) (g : Game) (k : Fin g.enemies.length) :
    (Game.hitEnemy env i g k).books = g.books := by
  unfold Game.hitEnemy
  dsimp only
  split_ifs
  · show (Game.dropPowerup env _ _).books = g.books
    rw [books_dropPowerup]
    rfl
  · rfl

theorem books_playerBulletsVsEnemiesLoop (env : Env) (dt : ℚ) (fuel i : Nat) (g : Game) :
    (Game.playerBulletsVsEnemiesLoop env dt fuel i g).books = g.books := by
  induction fuel generalizing i g with
  | zero => rfl
  | succ n ih =>
    rw [Game.playerBulletsVsEnemiesLoop]
    split
    · dsimp only
      split
      · rw [ih, books_hitEnemy]
        rfl
      · split_ifs
        · rw [ih]; rfl
        · rw [ih]; rfl
    · rfl

theorem books_updateExplosionsLoop (env : Env) (dt : ℚ) (fuel i : Nat) (g : Game) :
    (Game.updateExplosionsLoop env dt fuel i g).books = g.books := by
  induction fuel generalizing i g with
  | zero => rfl
  | succ n ih =>
    rw [Game.updateExplosionsLoop]
    split
    · dsimp only
      split_ifs
      · rw [ih]; rfl
      · rw [ih]; rfl
    · rfl

theorem books_applyPowerup (t : PowerupType) (g : Game) :
    (Game.applyPowerup t g).books = g.books := by
  cases t <;> rfl

theorem books_updatePowerupsLoop (env : Env) (dt : ℚ) (fuel i : Nat) (g : Game) :
    (Game.updatePowerupsLoop env dt fuel i g).books = g.books := by
  induction fuel generalizing i g with
  | zero => rfl
  | succ n ih =>
    rw [Game.updatePowerupsLoop]
    split
    · dsimp only
      split_ifs
      · rw [ih]
        show (Game.applyPowerup _ g).books = g.books
        rw [books_applyPowerup]
      · rw [ih]; rfl
      · rw [ih]; rfl
    · rfl

theorem tickSteps_updateEnemiesLoop (env : Env) (dt : ℚ) (fuel i : Nat) (g : Game) :
    TickSteps g (Game.updateEnemiesLoop env dt fuel i g) := by
  induction fuel generalizing i g with
  | zero => exact TickSteps.refl _
  | succ n ih =>
    rw [Game.updateEnemiesLoop]
    dsimp only
    split_ifs
    · refine tickSteps_trans ?_ (ih _ _)
      refine tickSteps_gameOverIfDead_of { g with hud := loseHearts 5 g.hud }
        (tickSteps_of_books (hudSteps_loseHearts 5 g.hud) rfl) ?_ ?_
      · simp [Game.shake, Game.addExplosion]
      · unfold Game.gameOverIfDead
        simp only [Game.shake, Game.addExplosion]
        split <;> rfl
    · refine tickSteps_trans ?_ (ih _ _)
      exact tickSteps_of_books (HudSteps.refl _) rfl
    · refine tickSteps_trans ?_ (ih _ _)
      exact tickSteps_of_books (HudSteps.refl _) rfl
    · exact TickSteps.refl _

theorem tickSteps_deathCheck (g : Game) : TickSteps g g.deathCheck :=
  tickSteps_deathCheck_of g (TickSteps.refl g) (hud_deathCheck g) rfl

theorem tickSteps_updateAsteroidsLoop (env : Env) (dt : ℚ) (fuel ai : Nat) (g : Game) :
    TickSteps g (Game.updateAsteroidsLoop env dt fuel ai g) := by
  induction fuel generalizing ai g with
  | zero => exact TickSteps.refl _
  | succ n ih =>
    rw [Game.updateAsteroidsLoop]
    split
    · dsimp only
      split
      · refine tickSteps_trans ?_ (ih _ _)
        refine tickSteps_gameOverIfDead_of { g with hud := loseHearts 5 g.hud }
          (tickSteps_of_books (hudSteps_loseHearts 5 g.hud) rfl) ?_ ?_
        · simp [Game.shake]
        · unfold Game.gameOverIfDead
          simp only [Game.shake]
          split <;> rfl
      · have hh : ∀ g1 : Game, (Game.asteroidVsBullets env ai g1).hud = g1.hud :=
          fun g1 => hud_asteroidVsBulletsLoop env ai _ 0 g1
        have hb : ∀ g1 : Game, (Game.asteroidVsBullets env ai g1).books = g1.books :=
          fun g1 => books_asteroidVsBulletsLoop env ai _ 0 g1
        split
        · exact tickSteps_of_books (by rw [hh]; exact HudSteps.refl _) (by rw [hb]; rfl)
        · have hr := hudSteps_removeAsteroidIfGone env ai ‹Asteroid›
            (Game.asteroidVsBullets env ai
              { g with asteroids := g.asteroids.set ai ((g.asteroids[ai]).update dt) })
          rw [hh] at hr
          have hstep : TickSteps g (Game.removeAsteroidIfGone env ai ‹Asteroid›
              (Game.asteroidVsBullets env ai
                { g with asteroids := g.asteroids.set ai ((g.asteroids[ai]).update dt) })).1 :=
            tickSteps_of_books hr (by rw [books_removeAsteroidIfGone, hb]; rfl)
          split
          · exact tickSteps_trans hstep (ih _ _)
          · exact tickSteps_trans hstep (ih _ _)
    · exact TickSteps.refl _

theorem tickSteps_bossDefeated (env : Env) (boss : Boss) (g : Game) :
    TickSteps g (Game.bossDefeated env boss g) :=
  (TickSteps.refl g).bossDefeated _ rfl rfl

theorem tickSteps_bossVsBulletsLoop (env : Env) (fuel bi : Nat) (g : Game) :
    TickSteps g (Game.bossVsBulletsLoop env fuel bi g) := by
  induction fuel generalizing bi g with
  | zero => exact TickSteps.refl _
  | succ n ih =>
    rw [Game.bossVsBulletsLoop]
    split
    · exact TickSteps.refl _
    · dsimp only
      split_ifs
      · refine tickSteps_trans ?_ (tickSteps_bossDefeated env _ _)
        exact tickSteps_of_books (HudSteps.refl _) rfl
      · refine tickSteps_trans ?_ (ih _ _)
        exact tickSteps_of_books (HudSteps.refl _) rfl
      · refine tickSteps_trans ?_ (ih _ _)
        exact TickSteps.refl _
      · exact TickSteps.refl _

theorem tickSteps_bossVsBullets (env : Env) (g : Game) :
    TickSteps g (Game.bossVsBullets env g) :=
  tickSteps_bossVsBulletsLoop env _ 0 g

theorem tickSteps_updateBoss (env : Env) (dt : ℚ) (g : Game) :
    TickSteps g (Game.updateBoss env dt g) := by
  unfold Game.updateBoss
  split
  · exact TickSteps.refl _
  · dsimp only
    have hb : TickSteps g (Game.bossVsBullets env
        { g with activeBoss := some (Boss.update env ‹Boss› dt g.enemyBullets).1,
                 enemyBullets := (Boss.update env ‹Boss› dt g.enemyBullets).2 }) := by
      refine tickSteps_trans ?_ (tickSteps_bossVsBullets env _)
      exact tickSteps_of_books (HudSteps.refl _) rfl
    split
    · exact hb
    · split_ifs
      · exact hb.other _ (HudSteps.refl _).loseHeart rfl
      · exact hb

theorem tickSteps_enemyBulletsVsPlayerLoop (env : Env) (dt : ℚ) (fuel i : Nat) (g : Game) :
    TickSteps g (Game.enemyBulletsVsPlayerLoop env dt fuel i g) := by
  induction fuel generalizing i g with
  | zero => exact TickSteps.refl _
  | succ n ih =>
    rw [Game.enemyBulletsVsPlayerLoop]
    split
    · dsimp only
      split_ifs with h1 h2 h3
      · refine tickSteps_trans ?_ (ih _ _)
        refine tickSteps_deathCheck_of { g with hud := g.hud.loseHeart }
          (tickSteps_of_books (HudSteps.refl g.hud).loseHeart rfl) ?_ ?_
        · simp [Game.shake, Game.addExplosion]
        · have hd : ({ g with hud := g.hud.loseHeart } : Game).hud.isAlive = false := by
            simpa [Game.addExplosion] using h2
          unfold Game.deathCheck
          rw [hd]
          simp only [Game.shake, Game.addExplosion, Game.storeHighScore]
          split <;> rfl
      · refine tickSteps_trans ?_ (ih _ _)
        exact tickSteps_of_books (HudSteps.refl g.hud).loseHeart rfl
      · refine tickSteps_trans ?_ (ih _ _)
        exact tickSteps_of_books (HudSteps.refl _) rfl
      · refine tickSteps_trans ?_ (ih _ _)
        exact tickSteps_of_books (HudSteps.refl _) rfl
    · exact TickSteps.refl _

theorem tickSteps_updateEnemies (env : Env) (dt : ℚ) (g : Game) :
    TickSteps g (Game.updateEnemies env dt g) :=
  tickSteps_updateEnemiesLoop env dt _ 0 g

theorem tickSteps_updateAsteroids (env : Env) (dt : ℚ) (g : Game) :
    TickSteps g (Game.updateAsteroids env dt g) :=
  tickSteps_updateAsteroidsLoop env dt _ 0 g

theorem tickSteps_playerBulletsVsEnemies (env : Env) (dt : ℚ) (g : Game) :
    TickSteps g (Game.playerBulletsVsEnemies env dt g) :=
  tickSteps_of_books (hudSteps_playerBulletsVsEnemiesLoop env dt _ 0 g)
    (books_playerBulletsVsEnemiesLoop env dt _ 0 g)

theorem tickSteps_enemyBulletsVsPlayer (env : Env) (dt : ℚ) (g : Game) :
    TickSteps g (Game.enemyBulletsVsPlayer env dt g) :=
  tickSteps_enemyBulletsVsPlayerLoop env dt _ 0 g

theorem tickSteps_updateExplosions (env : Env) (dt : ℚ) (g : Game) :
    TickSteps g (Game.updateExplosions env dt g) :=
  tickSteps_of_books
    (by rw [Game.updateExplosions, hud_updateExplosionsLoop]; exact HudSteps.refl _)
    (books_updateExplosionsLoop env dt _ 0 g)

theorem tickSteps_updatePowerups (env : Env) (dt : ℚ) (g : Game) :
    TickSteps g (Game.updatePowerups env dt g) :=
  tickSteps_of_books (hudSteps_updatePowerupsLoop env dt _ 0 g)
    (books_updatePowerupsLoop env dt _ 0 g)

theorem tickSteps_spawning (env : Env) (dt : ℚ) (g : Game) :
    TickSteps g (Game.enemySpawning env dt g)
    ∧ TickSteps g (Game.asteroidSpawning env dt g)
    ∧ TickSteps g (Game.bossSpawning env g) :=
  ⟨tickSteps_of_books (by rw [hud_enemySpawning]; exact HudSteps.refl _)
      (books_enemySpawning env dt g),
    tickSteps_of_books (by rw [hud_asteroidSpawning]; exact HudSteps.refl _)
      (books_asteroidSpawning env dt g),
    tickSteps_of_books (by rw [hud_bossSpawning]; exact HudSteps.refl _)
      (books_bossSpawning env g)⟩

/-- The simulation part of a tick changes the HUD and the books only through `TickSteps`. -/
theorem tickSteps_simulate (env : Env) (dt : ℚ) (g : Game) :
    TickSteps g (Game.simulate env dt g) := by
  unfold Game.simulate
  dsimp only
  have h1 : TickSteps g (Game.playerShooting env (Game.updateObjects env dt g)) :=
    tickSteps_of_books
      (by rw [hud_playerShooting]; exact hudSteps_updateObjects env dt g)
      (by rw [books_playerShooting]; rfl)
  refine tickSteps_trans h1 ?_
  refine tickSteps_trans (tickSteps_spawning env dt _).1 ?_
  refine tickSteps_trans (tickSteps_updateEnemies env dt _) ?_
  refine tickSteps_trans (tickSteps_deathCheck _) ?_
  refine tickSteps_trans (tickSteps_spawning env dt _).2.1 ?_
  refine tickSteps_trans (tickSteps_updateAsteroids env dt _) ?_
  refine tickSteps_trans (tickSteps_spawning env dt _).2.2 ?_
  refine tickSteps_trans (tickSteps_updateBoss env dt _) ?_
  refine tickSteps_trans (tickSteps_playerBulletsVsEnemies env dt _) ?_
  refine tickSteps_trans (tickSteps_enemyBulletsVsPlayer env dt _) ?_
  refine tickSteps_trans (tickSteps_updateExplosions env dt _) ?_
  exact tickSteps_updatePowerups env dt _

/-! ## What the footprint says about the high score -/

theorem books_pauseActions (g : Game) :
    g.pauseActions.currentHighScore = g.currentHighScore
    ∧ g.pauseActions.saveCalls = g.saveCalls
    ∧ g.pauseActions.saveHearts = g.saveHearts := by
  unfold Game.pauseActions
  split <;> exact ⟨rfl, rfl, rfl⟩

/-- The values saved along `TickSteps`, preceded by the high score known before, are strictly
increasing, and the high score known after is the largest of them. -/
theorem tickSteps_saves {g1 g2 : Game} (h : TickSteps g1 g2) :
    ∃ new : List Int, g2.saveCalls = g1.saveCalls ++ new
      ∧ (g1.currentHighScore :: new).Pairwise (fun a b => a < b)
      ∧ (∀ x ∈ g1.currentHighScore :: new, x ≤ g2.currentHighScore)
      ∧ g2.currentHighScore ∈ g1.currentHighScore :: new := by
  induction h with
  | refl => exact ⟨[], by simp, by simp, by simp, by simp⟩
  | other g3 _ _ hb ih =>
    have h1 : g3.saveCalls = _ := congrArg Books.saveCalls hb
    have h2 : g3.currentHighScore = _ := congrArg Books.currentHighScore hb
    rw [h1, h2]
    exact ih
  | gameOver _ _ ih => exact ih
  | @store g2 _ _ ih =>
    obtain ⟨new, h1, h2, h3, h4⟩ := ih
    by_cases hs : g2.hud.getScore > g2.currentHighScore
    · have he : g2.storeHighScore.enterGameOver.saveCalls = g2.saveCalls ++ [g2.hud.getScore]
          ∧ g2.storeHighScore.enterGameOver.currentHighScore = g2.hud.getScore := by
        unfold Game.storeHighScore
        rw [if_pos hs]
        exact ⟨rfl, rfl⟩
      refine ⟨new ++ [g2.hud.getScore], ?_, ?_, ?_, ?_⟩
      · rw [he.1, h1, List.append_assoc]
      · rw [← List.cons_append, List.pairwise_append]
        refine ⟨h2, by simp, ?_⟩
        intro a ha b hb
        have hb1 : b = g2.hud.getScore := by simpa using hb
        rw [hb1]
        exact lt_of_le_of_lt (h3 a ha) hs
      · intro x hx
        rw [he.2]
        rw [← List.cons_append, List.mem_append] at hx
        rcases hx with hx | hx
        · exact le_of_lt (lt_of_le_of_lt (h3 x hx) hs)
        · have hx1 : x = g2.hud.getScore := by simpa using hx
          exact le_of_eq hx1
      · rw [he.2]
        simp
    · have he : g2.storeHighScore.enterGameOver.saveCalls = g2.saveCalls
          ∧ g2.storeHighScore.enterGameOver.currentHighScore = g2.currentHighScore := by
        unfold Game.storeHighScore
        rw [if_neg hs]
        exact ⟨rfl, rfl⟩
      rw [he.1, he.2]
      exact ⟨new, h1, h2, h3, h4⟩
  | bossDefeated g3 _ _ hb ih =>
    have h1 : g3.saveCalls = _ := congrArg Books.saveCalls hb
    have h2 : g3.currentHighScore = _ := congrArg Books.currentHighScore hb
    rw [h1, h2]
    exact ih

/-- Along `TickSteps` from a state with the hearts in range every call of `saveHighScore` is
made with 0 hearts. -/
theorem tickSteps_saveHearts {g1 g2 : Game} (h : TickSteps g1 g2)
    (hr : g1.hud.heartsInRange) :
    g2.hud.heartsInRange
    ∧ g1.saveCalls.length ≤ g2.saveCalls.length
    ∧ g2.saveHearts
        = g1.saveHearts ++ List.replicate (g2.saveCalls.length - g1.saveCalls.length) 0 := by
  induction h with
  | refl => exact ⟨hr, le_refl _, by simp⟩
  | other g3 _ hh hb ih =>
    have h1 : g3.saveCalls = _ := congrArg Books.saveCalls hb
    have h2 : g3.saveHearts = _ := congrArg Books.saveHearts hb
    rw [h1, h2]
    exact ⟨hudSteps_heartsInRange hh ih.1, ih.2⟩
  | gameOver _ _ ih => exact ih
  | @store g2 _ hd ih =>
    obtain ⟨h1, h2, h3⟩ := ih
    have hz : g2.hud.currentHearts = 0 := by
      have hle : ¬ g2.hud.currentHearts > 0 := by simpa [HUD.isAlive] using hd
      have hge := h1.1
      omega
    by_cases hs : g2.hud.getScore > g2.currentHighScore
    · have he : g2.storeHighScore.enterGameOver.saveCalls = g2.saveCalls ++ [g2.hud.getScore]
          ∧ g2.storeHighScore.enterGameOver.saveHearts = g2.saveHearts ++ [0]
          ∧ g2.storeHighScore.enterGameOver.hud = g2.hud := by
        unfold Game.storeHighScore
        rw [if_pos hs]
        refine ⟨rfl, ?_, rfl⟩
        show g2.saveHearts ++ [g2.hud.currentHearts] = g2.saveHearts ++ [0]
        rw [hz]
      rw [he.1, he.2.1, he.2.2]
      refine ⟨h1, by rw [List.length_append]; omega, ?_⟩
      have hk : (g2.saveCalls ++ [g2.hud.getScore]).length - g1.saveCalls.length
          = (g2.saveCalls.length - g1.saveCalls.length) + 1 := by
        rw [List.length_append, List.length_singleton]
        omega
      rw [hk, h3, List.replicate_succ', List.append_assoc]
    · have he : g2.storeHighScore.enterGameOver.saveCalls = g2.saveCalls
          ∧ g2.storeHighScore.enterGameOver.saveHearts = g2.saveHearts
          ∧ g2.storeHighScore.enterGameOver.hud = g2.hud := by
        unfold Game.storeHighScore
        rw [if_neg hs]
        exact ⟨rfl, rfl, rfl⟩
      rw [he.1, he.2.1, he.2.2]
      exact ⟨h1, h2, h3⟩
  | bossDefeated g3 _ hh hb ih =>
    have h1 : g3.saveCalls = _ := congrArg Books.saveCalls hb
    have h2 : g3.saveHearts = _ := congrArg Books.saveHearts hb
    rw [h1, h2, hh]
    refine ⟨?_, ih.2⟩
    exact ih.1

/-- Along `TickSteps` a state `GAME_OVER` is kept, and it is reached when something is
saved. -/
theorem tickSteps_game_over {g1 g2 : Game} (h : TickSteps g1 g2) :
    g1.saveCalls.length ≤ g2.saveCalls.length
    ∧ ((g1.currentState = .GAME_OVER ∨ g1.saveCalls.length < g2.saveCalls.length) →
        g2.currentState = .GAME_OVER) := by
  induction h with
  | refl =>
    refine ⟨le_refl _, ?_⟩
    rintro (h1 | h1)
    · exact h1
    · omega
  | other g3 _ _ hb ih =>
    have h1 : g3.saveCalls = _ := congrArg Books.saveCalls hb
    have h2 : g3.currentState = _ := congrArg Books.currentState hb
    rw [h1, h2]
    exact ih
  | gameOver _ _ ih => exact ⟨ih.1, fun _ => rfl⟩
  | @store g2 _ _ ih =>
    refine ⟨le_trans ih.1 ?_, fun _ => rfl⟩
    unfold Game.storeHighScore
    split
    · show g2.saveCalls.length ≤ (g2.saveCalls ++ [_]).length
      rw [List.length_append]
      omega
    · exact le_refl _
  | bossDefeated g3 _ _ hb ih =>
    have h1 : g3.saveCalls = _ := congrArg Books.saveCalls hb
    have h2 : g3.currentState = _ := congrArg Books.currentState hb
    rw [h1, h2]
    exact ih

theorem tickSteps_updatePlaying (env : Env) (dt : ℚ) (g : Game) :
    TickSteps g.pauseActions (Game.updatePlaying env dt g) := by
  unfold Game.updatePlaying
  dsimp only
  split
  · exact TickSteps.refl _
  · exact tickSteps_simulate env dt _

/-! ## Powerups -/

theorem updatePowerupsLoop_pickup (env : Env) (dt : ℚ) (fuel i : Nat) (g : Game)
    (hi : i < g.powerups.length)
    (hhit : env.hit ((g.powerups[i]).update dt).sprite g.player.sprite = true) :
    Game.updatePowerupsLoop env dt (fuel + 1) i g
      = Game.updatePowerupsLoop env dt fuel i
          { Game.applyPowerup (g.powerups[i]).getType g with
            powerups := g.powerups.eraseIdx i } := by
  rw [Game.updatePowerupsLoop]
  simp only [dif_pos hi]
  rw [if_pos hhit, eraseIdx_set_self]
  rfl

/-! ## Screen shake -/

theorem shakeReachable_inv {s : ScreenShake} (h : ShakeReachable s) :
    s.maxShakeDuration = s.shakeDuration ∧ 0 ≤ s.shakeTimer := by
  induction h with
  | default => exact ⟨rfl, le_refl _⟩
  | shake s amount duration _ _ => exact ⟨rfl, le_refl _⟩
  | update s dt _ hdt ih =>
    unfold ScreenShake.update
    split
    · exact ⟨ih.1, add_nonneg ih.2 hdt⟩
    · exact ih

/-! ## Invariants of the reachable states -/

theorem storeHighScore_frame (g : Game) :
    g.storeHighScore.previousState = g.previousState
    ∧ g.storeHighScore.bossCount = g.bossCount
    ∧ g.storeHighScore.nextBossScore = g.nextBossScore := by
  unfold Game.storeHighScore
  split <;> exact ⟨rfl, rfl, rfl⟩

theorem tickSteps_frame {g1 g2 : Game} (h : TickSteps g1 g2) :
    g2.previousState = g1.previousState ∧ (g1.bossScoreInv → g2.bossScoreInv) := by
  induction h with
  | refl => exact ⟨rfl, id⟩
  | other g3 _ _ hb ih =>
    have h1 : g3.previousState = _ := congrArg Books.previousState hb
    have h2 : g3.bossCount = _ := congrArg Books.bossCount hb
    have h3 : g3.nextBossScore = _ := congrArg Books.nextBossScore hb
    refine ⟨h1.trans ih.1, fun hi => ?_⟩
    have := ih.2 hi
    unfold Game.bossScoreInv at this ⊢
    rw [h2, h3]
    exact this
  | gameOver _ _ ih => exact ih
  | @store g2 _ _ ih =>
    obtain ⟨h1, h2, h3⟩ := storeHighScore_frame g2
    refine ⟨?_, fun hi => ?_⟩
    · show g2.storeHighScore.previousState = _
      rw [h1]
      exact ih.1
    · have := ih.2 hi
      unfold Game.bossScoreInv at this ⊢
      show g2.storeHighScore.nextBossScore = 500 + 600 * g2.storeHighScore.bossCount
      rw [h2, h3]
      exact this
  | @bossDefeated g2 g3 _ _ hb ih =>
    have h1 : g3.previousState = _ := congrArg Books.previousState hb
    have h2 : g3.bossCount = _ := congrArg Books.bossCount hb
    have h3 : g3.nextBossScore = _ := congrArg Books.nextBossScore hb
    refine ⟨h1.trans ih.1, fun hi => ?_⟩
    have := ih.2 hi
    unfold Game.bossScoreInv at this ⊢
    rw [h2, h3]
    show g2.nextBossScore + 600 = 500 + 600 * (g2.bossCount + 1)
    rw [this]
    ring

theorem pauseActions_frame (g : Game) :
    g.pauseActions.previousState = g.previousState
    ∧ (g.bossScoreInv → g.pauseActions.bossScoreInv) := by
  unfold Game.pauseActions
  split
  · exact ⟨rfl, id⟩
  · exact ⟨rfl, fun _ => rfl⟩
  · exact ⟨rfl, id⟩

theorem updatePlaying_frame (env : Env) (dt : ℚ) (g : Game) :
    (Game.updatePlaying env dt g).previousState = g.previousState
    ∧ (g.bossScoreInv → (Game.updatePlaying env dt g).bossScoreInv) := by
  have h1 := tickSteps_frame (tickSteps_updatePlaying env dt g)
  have h2 := pauseActions_frame g
  exact ⟨h1.1.trans h2.1, fun hi => h1.2 (h2.2 hi)⟩

theorem updateMenu_frame (g : Game) :
    (g.previousStateInv → g.updateMenu.previousStateInv)
    ∧ (g.bossScoreInv → g.updateMenu.bossScoreInv) := by
  unfold Game.updateMenu Game.previousStateInv Game.bossScoreInv
  dsimp only
  split_ifs <;> simp

theorem updateOptions_frame (g : Game) :
    (g.previousStateInv → g.updateOptions.previousStateInv)
    ∧ (g.bossScoreInv → g.updateOptions.bossScoreInv) := by
  unfold Game.updateOptions Game.previousStateInv Game.bossScoreInv
  split_ifs <;> simp

theorem updateGameOver_frame (ui : Ui) (dt : ℚ) (g : Game) :
    (g.previousStateInv → (Game.updateGameOver ui dt g).previousStateInv)
    ∧ (g.bossScoreInv → (Game.updateGameOver ui dt g).bossScoreInv) := by
  unfold Game.updateGameOver Game.previousStateInv Game.bossScoreInv
  dsimp only
  split_ifs <;> simp [Game.resetGame]

theorem update_frame (env : Env) (ui : Ui) (dt : ℚ) (g : Game) :
    (g.previousStateInv → (Game.update env ui dt g).previousStateInv)
    ∧ (g.bossScoreInv → (Game.update env ui dt g).bossScoreInv) := by
  unfold Game.update
  split
  · exact updateMenu_frame g
  · exact updateOptions_frame g
  · have h := updatePlaying_frame env dt g
    refine ⟨fun hp => ?_, h.2⟩
    unfold Game.previousStateInv at hp ⊢
    rw [h.1]
    exact hp
  · exact updateGameOver_frame ui dt g
  · exact ⟨id, id⟩

theorem handleEvent_frame (ui : Ui) (g : Game) (e : Event) :
    (Game.handleEvent ui g e).previousState = g.previousState
    ∧ (Game.handleEvent ui g e).bossCount = g.bossCount
    ∧ (Game.handleEvent ui g e).nextBossScore = g.nextBossScore := by
  unfold Game.handleEvent
  dsimp only
  split <;> split_ifs <;> exact ⟨rfl, rfl, rfl⟩

theorem processEvents_frame (ui : Ui) (events : List Event) (g : Game) :
    (Game.processEvents ui events g).previousState = g.previousState
    ∧ (Game.processEvents ui events g).bossCount = g.bossCount
    ∧ (Game.processEvents ui events g).nextBossScore = g.nextBossScore := by
  induction events generalizing g with
  | nil => exact ⟨rfl, rfl, rfl⟩
  | cons e es ih =>
    have h1 := handleEvent_frame ui g e
    have h2 := ih (Game.handleEvent ui g e)
    unfold Game.processEvents at h2 ⊢
    rw [List.foldl_cons]
    exact ⟨h2.1.trans h1.1, h2.2.1.trans h1.2.1, h2.2.2.trans h1.2.2⟩

theorem reachable_inv {g : Game} (h : Reachable g) : g.previousStateInv ∧ g.bossScoreInv := by
  induction h with
  | init env highScore => exact ⟨Or.inl rfl, rfl⟩
  | events ui events g _ ih =>
    obtain ⟨h1, h2, h3⟩ := processEvents_frame ui events g
    unfold Game.previousStateInv Game.bossScoreInv at ih ⊢
    rw [h1, h2, h3]
    exact ih
  | update env ui dt g _ ih =>
    have h := update_frame env ui dt g
    exact ⟨h.1 ih.1, h.2 ih.2⟩

/-! ## The boss under fire -/

theorem boss_with_hp_self (b : Boss) : { b with hp := b.hp - 10 * ((0 : Nat) : Int) } = b := by
  cases b
  simp

/-- The boss loop over the player bullets from index `bi` on, for a boss with positive hp:
either fewer overlapping bullets are left than the boss needs, all of them are erased and the
boss stays; or the loop ends at the lethal bullet, erases the overlapping bullets up to it,
leaves the bullets after it and books the defeat once. -/
theorem bossVsBulletsLoop_bullets (env : Env) (fuel bi : Nat) (g : Game) (boss : Boss)
    (hb : g.activeBoss = some boss) (hhp : 0 < boss.hp)
    (hf : g.playerBullets.length ≤ fuel + bi) :
    (10 * (((g.playerBullets.drop bi).countP (fun b => env.hit boss.sprite b.sprite) : Nat)
        : Int) < boss.hp
      ∧ (Game.bossVsBulletsLoop env fuel bi g).activeBoss
          = some { boss with hp := boss.hp
              - 10 * (((g.playerBullets.drop bi).countP
                  (fun b => env.hit boss.sprite b.sprite) : Nat) : Int) }
      ∧ (Game.bossVsBulletsLoop env fuel bi g).playerBullets
          = g.playerBullets.take bi
            ++ (g.playerBullets.drop bi).filter (fun b => !env.hit boss.sprite b.sprite)
      ∧ (Game.bossVsBulletsLoop env fuel bi g).hud = g.hud
      ∧ (Game.bossVsBulletsLoop env fuel bi g).bossCount = g.bossCount
      ∧ (Game.bossVsBulletsLoop env fuel bi g).nextBossScore = g.nextBossScore)
    ∨ (∃ (pre : List Bullet) (b : Bullet) (post : List Bullet),
        g.playerBullets.drop bi = pre ++ b :: post
        ∧ env.hit boss.sprite b.sprite = true
        ∧ 10 * ((pre.countP (fun b => env.hit boss.sprite b.sprite) : Nat) : Int) < boss.hp
        ∧ boss.hp ≤ 10 * (((pre.countP (fun b => env.hit boss.sprite b.sprite) : Nat) : Int) + 1)
        ∧ (Game.bossVsBulletsLoop env fuel bi g).activeBoss = none
        ∧ (Game.bossVsBulletsLoop env fuel bi g).playerBullets
            = g.playerBullets.take bi
              ++ (pre.filter (fun b => !env.hit boss.sprite b.sprite) ++ post)
        ∧ (Game.bossVsBulletsLoop env fuel bi g).hud = (g.hud.addScore 100).addEnemyDefeated
        ∧ (Game.bossVsBulletsLoop env fuel bi g).bossCount = g.bossCount + 1
        ∧ (Game.bossVsBulletsLoop env fuel bi g).nextBossScore = g.nextBossScore + 600) := by
  induction fuel generalizing bi g boss with
  | zero =>
    have hd : g.playerBullets.drop bi = [] := List.drop_eq_nil_of_le (by omega)
    have ht : g.playerBullets.take bi = g.playerBullets := List.take_of_length_le (by omega)
    left
    rw [hd, ht]
    refine ⟨by simpa using hhp, ?_, ?_, rfl, rfl, rfl⟩
    · rw [List.countP_nil, boss_with_hp_self]
      exact hb
    · simp [Game.bossVsBulletsLoop]
  | succ n ih =>
    rw [Game.bossVsBulletsLoop]
    simp only [hb]
    by_cases hbi : bi < g.playerBullets.length
    · simp only [dif_pos hbi]
      have hdrop : g.playerBullets.drop bi
          = g.playerBullets[bi] :: g.playerBullets.drop (bi + 1) :=
        List.drop_eq_getElem_cons hbi
      by_cases hhit : env.hit boss.sprite (g.playerBullets[bi]).sprite = true
      · rw [if_pos hhit]
        have hc : (g.playerBullets.drop bi).countP (fun b => env.hit boss.sprite b.sprite)
            = (g.playerBullets.drop (bi + 1)).countP (fun b => env.hit boss.sprite b.sprite)
              + 1 := by
          rw [hdrop]
          exact List.countP_cons_of_pos _ _ hhit
        have hfil : (g.playerBullets.drop bi).filter (fun b => !env.hit boss.sprite b.sprite)
            = (g.playerBullets.drop (bi + 1)).filter
                (fun b => !env.hit boss.sprite b.sprite) := by
          rw [hdrop]
          exact List.filter_cons_of_neg (by simp [hhit])
        by_cases hdead : boss.hp - 10 ≤ 0
        · have hd1 : (!(boss.takeDamage 10).isAlive) = true := by
            simp only [Boss.isAlive, Boss.takeDamage, Bool.not_eq_true', decide_eq_false_iff_not]
            omega
          rw [if_pos hd1]
          right
          refine ⟨[], g.playerBullets[bi], g.playerBullets.drop (bi + 1), hdrop, hhit,
            by simpa using hhp, ?_, rfl, ?_, rfl, rfl, rfl⟩
          · simp only [List.countP_nil]
            push_cast
            omega
          simp only [Game.bossDefeated, Game.shake, Game.addExplosion, List.filter_nil,
            List.nil_append]
          exact List.eraseIdx_eq_take_drop_succ _ _
        · have hd1 : ¬ (!(boss.takeDamage 10).isAlive) = true := by
            simp [Boss.isAlive, Boss.takeDamage]
            omega
          rw [if_neg hd1]
          have h1 := ih bi
            ({ (({ g with activeBoss := some (boss.takeDamage 10),
                          bulletHits := g.bulletHits ++ [g.playerBullets[bi]] } : Game).addExplosion
                env .explosionFrames (g.playerBullets[bi]).sprite.position).shake 4 (1 / 10) with
                playerBullets := g.playerBullets.eraseIdx bi } : Game)
            (boss.takeDamage 10) rfl
            (by show 0 < boss.hp - 10; omega)
            (by
              simp only [List.length_eraseIdx, if_pos hbi]
              omega)
          simp only [Game.shake, Game.addExplosion] at h1 ⊢
          rw [drop_eraseIdx_self _ _ hbi, take_eraseIdx_self _ _ hbi] at h1
          have hs : (boss.takeDamage 10).sprite = boss.sprite := rfl
          have hh : (boss.takeDamage 10).hp = boss.hp - 10 := rfl
          rw [hs, hh] at h1
          rcases h1 with ⟨h2, h3, h4, h5, h6, h7⟩ | ⟨pre, b, post, h2, h3, h4, h5, h6, h7, h8, h9, h10⟩
          · left
            rw [hc, hfil]
            refine ⟨by push_cast; omega, ?_, h4, h5, h6, h7⟩
            rw [h3]
            congr 1
            simp only [Boss.takeDamage]
            congr 1
            push_cast
            ring
          · right
            have hcp : (g.playerBullets[bi] :: pre).countP (fun b => env.hit boss.sprite b.sprite)
                = pre.countP (fun b => env.hit boss.sprite b.sprite) + 1 :=
              List.countP_cons_of_pos _ _ hhit
            refine ⟨g.playerBullets[bi] :: pre, b, post, ?_, h3, ?_, ?_, h6, ?_, h8, h9, h10⟩
            · rw [hdrop, h2]
              rfl
            · rw [hcp]
              push_cast
              omega
            · rw [hcp]
              push_cast
              omega
            · rw [h7, List.filter_cons_of_neg (by simp [hhit])]
      · rw [if_neg hhit]
        have hc : (g.playerBullets.drop bi).countP (fun b => env.hit boss.sprite b.sprite)
            = (g.playerBullets.drop (bi + 1)).countP
                (fun b => env.hit boss.sprite b.sprite) := by
          rw [hdrop]
          exact List.countP_cons_of_neg _ _ hhit
        have hfil : (g.playerBullets.drop bi).filter (fun b => !env.hit boss.sprite b.sprite)
            = g.playerBullets[bi]
              :: (g.playerBullets.drop (bi + 1)).filter
                  (fun b => !env.hit boss.sprite b.sprite) := by
          rw [hdrop]
          exact List.filter_cons_of_pos (by simp [hhit])
        have htake : g.playerBullets.take (bi + 1)
            = g.playerBullets.take bi ++ [g.playerBullets[bi]] := by
          rw [List.take_succ, List.getElem?_eq_getElem hbi]
          rfl
        rcases ih (bi + 1) g boss hb hhp (by omega) with
          ⟨h2, h3, h4, h5, h6, h7⟩ | ⟨pre, b, post, h2, h3, h4, h5, h6, h7, h8, h9, h10⟩
        · left
          rw [hc, hfil]
          refine ⟨h2, h3, ?_, h5, h6, h7⟩
          rw [h4, htake, List.append_assoc]
          rfl
        · right
          have hcp : (g.playerBullets[bi] :: pre).countP (fun b => env.hit boss.sprite b.sprite)
              = pre.countP (fun b => env.hit boss.sprite b.sprite) :=
            List.countP_cons_of_neg _ _ hhit
          refine ⟨g.playerBullets[bi] :: pre, b, post, ?_, h3, ?_, ?_, h6, ?_, h8, h9, h10⟩
          · rw [hdrop, h2]
            rfl
          · rw [hcp]
            exact h4
          · rw [hcp]
            exact h5
          · rw [h7, htake, List.append_assoc, List.filter_cons_of_pos (by simp [hhit])]
            rfl
    · rw [dif_neg hbi]
      have hd : g.playerBullets.drop bi = [] := List.drop_eq_nil_of_le (by omega)
      have ht : g.playerBullets.take bi = g.playerBullets := List.take_of_length_le (by omega)
      left
      rw [hd, ht]
      refine ⟨by simpa using hhp, ?_, ?_, rfl, rfl, rfl⟩
      · rw [List.countP_nil, boss_with_hp_self]
        exact hb
      · simp

theorem length_filter_not_add_countP {α : Type} (p : α → Bool) (l : List α) :
    (l.filter (fun x => !p x)).length + l.countP p = l.length := by
  induction l with
  | nil => rfl
  | cons x l ih =>
    by_cases hx : p x = true
    · rw [List.filter_cons_of_neg (by simp [hx]), List.countP_cons_of_pos _ _ hx,
        List.length_cons]
      omega
    · rw [List.filter_cons_of_pos (by simp [hx]), List.countP_cons_of_neg _ _ hx,
        List.length_cons, List.length_cons]
      omega

/-! ## The enemy pass -/

theorem update_fst (env : Env) (e : Enemy) (dt : ℚ) (bullets : List Bullet) :
    (e.update env dt bullets).1 = Enemy.updated env dt e := by
  unfold Enemy.updated Enemy.update
  dsimp only
  split <;> rfl

theorem player_gameOverIfDead (g : Game) : g.gameOverIfDead.player = g.player := by
  unfold Game.gameOverIfDead
  split <;> rfl

theorem player_updateEnemiesLoop (env : Env) (dt : ℚ) (fuel i : Nat) (g : Game) :
    (Game.updateEnemiesLoop env dt fuel i g).player = g.player := by
  induction fuel generalizing i g with
  | zero => rfl
  | succ n ih =>
    rw [Game.updateEnemiesLoop]
    split
    · dsimp only
      split_ifs
      · rw [ih]
        simp [player_gameOverIfDead, Game.shake, Game.addExplosion]
      · rw [ih]
      · rw [ih]
    · rfl

theorem keepsEnemy_def (env : Env) (g : Game) :
    Game.keepsEnemy env g
      = fun e => !env.hit g.player.sprite e.sprite
          && !decide (e.sprite.position.y > (windowHeight : ℚ)) := rfl

/-- The enemy loop from index `i` on: the enemies before `i` stay, the enemies from `i` on
are updated once each and filtered, in order. -/
theorem updateEnemiesLoop_enemies (env : Env) (dt : ℚ) (fuel i : Nat) (g : Game)
    (hf : g.enemies.length ≤ fuel + i) :
    (Game.updateEnemiesLoop env dt fuel i g).enemies
        = g.enemies.take i
          ++ ((g.enemies.drop i).map (Enemy.updated env dt)).filter (Game.keepsEnemy env g) := by
  induction fuel generalizing i g with
  | zero =>
    have hd : g.enemies.drop i = [] := List.drop_eq_nil_of_le (by omega)
    have ht : g.enemies.take i = g.enemies := List.take_of_length_le (by omega)
    rw [hd, ht]
    simp [Game.updateEnemiesLoop]
  | succ n ih =>
    rw [Game.updateEnemiesLoop]
    by_cases hi : i < g.enemies.length
    · simp only [dif_pos hi, update_fst]
      have hdrop : (g.enemies.drop i).map (Enemy.updated env dt)
          = Enemy.updated env dt g.enemies[i]
            :: (g.enemies.drop (i + 1)).map (Enemy.updated env dt) := by
        rw [List.drop_eq_getElem_cons hi]
        rfl
      rw [hdrop]
      by_cases hhit : env.hit g.player.sprite (Enemy.updated env dt g.enemies[i]).sprite = true
      · rw [if_pos hhit]
        have hkeep : ¬ Game.keepsEnemy env g (Enemy.updated env dt g.enemies[i]) = true := by
          simp [Game.keepsEnemy, hhit]
        rw [List.filter_cons_of_neg hkeep, ih]
        · simp only [enemies_gameOverIfDead, Game.shake, Game.addExplosion, eraseIdx_set_self,
            drop_eraseIdx_self _ _ hi, take_eraseIdx_self _ _ hi]
          simp only [keepsEnemy_def, player_gameOverIfDead, Game.shake, Game.addExplosion]
        · simp only [enemies_gameOverIfDead, Game.shake, Game.addExplosion, eraseIdx_set_self,
            List.length_eraseIdx, if_pos hi]
          omega
      · rw [if_neg hhit]
        by_cases hy : (Enemy.updated env dt g.enemies[i]).sprite.position.y > (windowHeight : ℚ)
        · rw [if_pos hy]
          have hkeep : ¬ Game.keepsEnemy env g (Enemy.updated env dt g.enemies[i]) = true := by
            simp [Game.keepsEnemy, hy]
          rw [List.filter_cons_of_neg hkeep, ih]
          · simp only [eraseIdx_set_self, drop_eraseIdx_self _ _ hi, take_eraseIdx_self _ _ hi]
            simp only [keepsEnemy_def]
          · simp only [eraseIdx_set_self, List.length_eraseIdx, if_pos hi]
            omega
        · rw [if_neg hy]
          have hkeep : Game.keepsEnemy env g (Enemy.updated env dt g.enemies[i]) = true := by
            simp [Game.keepsEnemy, hy, hhit]
          rw [List.filter_cons_of_pos hkeep, ih]
          · simp only [List.drop_set, if_neg (Nat.lt_irrefl _)]
            rw [List.take_succ, take_set_self]
            simp [hi, keepsEnemy_def]
          · simp only [List.length_set]
            omega
    · simp only [dif_neg hi]
      have hd : g.enemies.drop i = [] := List.drop_eq_nil_of_le (by omega)
      have ht : g.enemies.take i = g.enemies := List.take_of_length_le (by omega)
      rw [hd, ht]
      simp

/-! ## No dead entity is stored -/

theorem hp_boss_update (env : Env) (b : Boss) (dt : ℚ) (bullets : List Bullet) :
    (b.update env dt bullets).1.hp = b.hp ∧ (b.update env dt bullets).1.maxHp = b.maxHp := by
  unfold Boss.update
  dsimp only
  split_ifs <;> exact ⟨rfl, rfl⟩

theorem hp_enemy_takeDamage (e : Enemy) (d : Int) :
    0 ≤ (e.takeDamage d).hp := by
  unfold Enemy.takeDamage
  dsimp only
  split_ifs with h
  · exact le_refl _
  · exact not_lt.1 h

theorem update_menu_options (env : Env) (ui : Ui) (dt : ℚ) (g : Game)
    (hg : g.currentState = .MENU) (h1 : g.menu.isStartPressed = false)
    (h2 : g.menu.isHighScorePressed = false) (h3 : g.menu.isOptionsPressed = true) :
    (Game.update env ui dt g).currentState = .OPTIONS
    ∧ (Game.update env ui dt g).previousState = .MENU
    ∧ (Game.update env ui dt g).optionsMenu = g.optionsMenu := by
  unfold Game.update
  rw [hg]
  unfold Game.updateMenu
  simp only [h1, h2, h3, Bool.false_eq_true, if_false, if_true]
  split_ifs <;> exact ⟨rfl, rfl, rfl⟩

theorem update_menu_highscore (env : Env) (ui : Ui) (dt : ℚ) (g : Game)
    (hg : g.currentState = .MENU) (h1 : g.menu.isStartPressed = false)
    (h2 : g.menu.isHighScorePressed = true) :
    (Game.update env ui dt g).currentState = .HIGHSCORE
    ∧ (Game.update env ui dt g).previousState = .MENU := by
  unfold Game.update
  rw [hg]
  unfold Game.updateMenu
  have hr : g.menu.reset.isOptionsPressed = false := rfl
  simp only [h1, h2, hr, Bool.false_eq_true, if_false, if_true]
  split_ifs <;> exact ⟨rfl, rfl⟩

theorem update_gameOver_options (env : Env) (ui : Ui) (dt : ℚ) (g : Game)
    (hg : g.currentState = .GAME_OVER) (h1 : g.gameOverScreen.isRetryPressed = false)
    (h2 : g.gameOverScreen.isOptionsPressed = true) :
    (Game.update env ui dt g).currentState = .OPTIONS
    ∧ (Game.update env ui dt g).previousState = .GAME_OVER
    ∧ (Game.update env ui dt g).optionsMenu = g.optionsMenu := by
  have e1 : (g.gameOverScreen.update ui dt).isRetryPressed = false := by
    unfold GameOver.isRetryPressed at h1 ⊢
    rw [menu_update]
    exact h1
  have e2 : (g.gameOverScreen.update ui dt).isOptionsPressed = true := by
    unfold GameOver.isOptionsPressed at h2 ⊢
    rw [menu_update]
    exact h2
  unfold Game.update
  rw [hg]
  unfold Game.updateGameOver
  simp only [e1, e2, Bool.false_eq_true, if_false, if_true]
  refine ⟨?_, ?_, ?_⟩ <;> first | rfl | trivial

theorem update_gameOver_highscore (env : Env) (ui : Ui) (dt : ℚ) (g : Game)
    (hg : g.currentState = .GAME_OVER) (h1 : g.gameOverScreen.isRetryPressed = false)
    (h2 : g.gameOverScreen.isOptionsPressed = false)
    (h3 : g.gameOverScreen.isHighScorePressed = true) :
    (Game.update env ui dt g).currentState = .HIGHSCORE
    ∧ (Game.update env ui dt g).previousState = .GAME_OVER := by
  have e1 : (g.gameOverScreen.update ui dt).isRetryPressed = false := by
    unfold GameOver.isRetryPressed at h1 ⊢
    rw [menu_update]
    exact h1
  have e2 : (g.gameOverScreen.update ui dt).isOptionsPressed = false := by
    unfold GameOver.isOptionsPressed at h2 ⊢
    rw [menu_update]
    exact h2
  have e3 : (g.gameOverScreen.update ui dt).isHighScorePressed = true := by
    unfold GameOver.isHighScorePressed at h3 ⊢
    rw [menu_update]
    exact h3
  unfold Game.update
  rw [hg]
  unfold Game.updateGameOver
  simp only [e1, e2, e3, Bool.false_eq_true, if_false, if_true]
  refine ⟨?_, ?_⟩ <;> first | rfl | trivial

/-- What follows once `update()` has entered OPTIONS or HIGHSCORE from `s` and remembered `s`:
in OPTIONS every frame whose events leave the back flag of the options menu set ends in `s`,
and the Escape key is such an event when no image is shown; in HIGHSCORE the Escape key event
sets the state to `s` and the frame ends in `s`. -/
theorem back_after_entering (env : Env) (ui : Ui) (dt : ℚ) (g1 : Game) (s : GameState)
    (hs : s = .MENU ∨ s = .GAME_OVER) (hprev : g1.previousState = s) :
    (g1.currentState = .OPTIONS →
      (∀ events : List Event,
          (Game.processEvents ui events g1).optionsMenu.isBackPressed = true →
          (Game.frame env ui events dt g1).currentState = s)
      ∧ (g1.optionsMenu.showingImage = false →
          (Game.frame env ui [.KeyPressed .Escape] dt g1).currentState = s))
    ∧ (g1.currentState = .HIGHSCORE →
      (Game.handleEvent ui g1 (.KeyPressed .Escape)).currentState = s
      ∧ (Game.frame env ui [.KeyPressed .Escape] dt g1).currentState = s) := by
  constructor
  · intro h
    have hback : ∀ events : List Event,
        (Game.processEvents ui events g1).optionsMenu.isBackPressed = true →
        (Game.frame env ui events dt g1).currentState = s := by
      intro events hb
      have h1 := processEvents_options ui events _ h
      unfold Game.frame
      rw [update_options_back env ui dt _ h1.1 hb, h1.2, hprev]
    refine ⟨hback, ?_⟩
    intro himg
    apply hback
    unfold Game.processEvents
    rw [List.foldl_cons, List.foldl_nil]
    exact handleEvent_options_escape ui _ h himg
  · intro h
    have h1 := frame_highscore_escape env ui dt _ h (by rw [hprev]; exact hs)
    rw [hprev] at h1
    exact h1

/-! ## The boss counters through a tick -/

theorem simulate_split (env : Env) (dt : ℚ) (g : Game) :
    Game.simulate env dt g
      = Game.afterBoss env dt (Game.updateBoss env dt (Game.beforeBoss env dt g)) := rfl

theorem ledger_gameOverIfDead (g : Game) : g.gameOverIfDead.bossLedger = g.bossLedger := by
  unfold Game.gameOverIfDead
  split <;> rfl

theorem ledger_storeHighScore (g : Game) : g.storeHighScore.bossLedger = g.bossLedger := by
  unfold Game.storeHighScore
  split <;> rfl

theorem ledger_deathCheck (g : Game) : g.deathCheck.bossLedger = g.bossLedger := by
  unfold Game.deathCheck
  split
  · exact ledger_storeHighScore g
  · rfl

theorem ledger_playerShooting (env : Env) (g : Game) :
    (Game.playerShooting env g).bossLedger = g.bossLedger := by
  unfold Game.playerShooting
  dsimp only
  split_ifs <;> rfl

theorem ledger_enemySpawning (env : Env) (dt : ℚ) (g : Game) :
    (Game.enemySpawning env dt g).bossLedger = g.bossLedger := by
  unfold Game.enemySpawning
  dsimp only
  split_ifs <;> rfl

theorem ledger_asteroidSpawning (env : Env) (dt : ℚ) (g : Game) :
    (Game.asteroidSpawning env dt g).bossLedger = g.bossLedger := by
  unfold Game.asteroidSpawning
  dsimp only
  split_ifs <;> rfl

theorem ledger_updateEnemiesLoop (env : Env) (dt : ℚ) (fuel i : Nat) (g : Game) :
    (Game.updateEnemiesLoop env dt fuel i g).bossLedger = g.bossLedger := by
  induction fuel generalizing i g with
  | zero => rfl
  | succ n ih =>
    rw [Game.updateEnemiesLoop]
    split
    · dsimp only
      split_ifs
      · rw [ih]
        exact ledger_gameOverIfDead _
      · rw [ih]
        rfl
      · rw [ih]
        rfl
    · rfl

theorem ledger_asteroidVsBulletsLoop (env : Env) (ai fuel bi : Nat) (g : Game) :
    (Game.asteroidVsBulletsLoop env ai fuel bi g).bossLedger = g.bossLedger := by
  induction fuel generalizing bi g with
  | zero => rfl
  | succ n ih =>
    rw [Game.asteroidVsBulletsLoop]
    split
    · split
      · rfl
      · dsimp only
        split_ifs
        · rw [ih]
          rfl
        · exact ih (bi + 1) g
    · rfl

theorem ledger_removeAsteroidIfGone (env : Env) (ai : Nat) (a : Asteroid) (g : Game) :
    (Game.removeAsteroidIfGone env ai a g).1.bossLedger = g.bossLedger := by
  unfold Game.removeAsteroidIfGone
  dsimp only
  split_ifs <;> rfl

theorem ledger_updateAsteroidsLoop (env : Env) (dt : ℚ) (fuel ai : Nat) (g : Game) :
    (Game.updateAsteroidsLoop env dt fuel ai g).bossLedger = g.bossLedger := by
  induction fuel generalizing ai g with
  | zero => rfl
  | succ n ih =>
    rw [Game.updateAsteroidsLoop]
    split
    · dsimp only
      split_ifs
      · rw [ih]
        exact ledger_gameOverIfDead _
      · have hb : ∀ g1 : Game, (Game.asteroidVsBullets env ai g1).bossLedger = g1.bossLedger :=
          fun g1 => ledger_asteroidVsBulletsLoop env ai _ 0 g1
        split
        · exact hb _
        · split_ifs
          · rw [ih, ledger_removeAsteroidIfGone, hb]
            rfl
          · rw [ih, ledger_removeAsteroidIfGone, hb]
            rfl
    · rfl

theorem counts_bossSpawning (env : Env) (g : Game) :
    (Game.bossSpawning env g).bossCount = g.bossCount
    ∧ (Game.bossSpawning env g).nextBossScore = g.nextBossScore := by
  unfold Game.bossSpawning
  dsimp only
  split_ifs <;> exact ⟨rfl, rfl⟩

theorem ledger_dropPowerup (env : Env) (pos : Vector2f) (g : Game) :
    (Game.dropPowerup env pos g).bossLedger = g.bossLedger := by
  unfold Game.dropPowerup
  dsimp only
  split_ifs <;> rfl

theorem ledger_hitEnemy (env : Env) (i : Nat) (g : Game) (k : Fin g.enemies.length) :
    (Game.hitEnemy env i g k).bossLedger = g.bossLedger := by
  unfold Game.hitEnemy
  dsimp only
  split_ifs
  · exact ledger_dropPowerup env _ _
  · rfl

theorem ledger_playerBulletsVsEnemiesLoop (env : Env) (dt : ℚ) (fuel i : Nat) (g : Game) :
    (Game.playerBulletsVsEnemiesLoop env dt fuel i g).bossLedger = g.bossLedger := by
  induction fuel generalizing i g with
  | zero => rfl
  | succ n ih =>
    rw [Game.playerBulletsVsEnemiesLoop]
    split
    · dsimp only
      split
      · rw [ih, ledger_hitEnemy]
        rfl
      · split_ifs
        · rw [ih]
          rfl
        · rw [ih]
          rfl
    · rfl

theorem ledger_enemyBulletsVsPlayerLoop (env : Env) (dt : ℚ) (fuel i : Nat) (g : Game) :
    (Game.enemyBulletsVsPlayerLoop env dt fuel i g).bossLedger = g.bossLedger := by
  induction fuel generalizing i g with
  | zero => rfl
  | succ n ih =>
    rw [Game.enemyBulletsVsPlayerLoop]
    split
    · dsimp only
      split_ifs
      · rw [ih]
        exact ledger_storeHighScore _
      · rw [ih]
        rfl
      · rw [ih]
        rfl
      · rw [ih]
        rfl
    · rfl

theorem ledger_updateExplosionsLoop (env : Env) (dt : ℚ) (fuel i : Nat) (g : Game) :
    (Game.updateExplosionsLoop env dt fuel i g).bossLedger = g.bossLedger := by
  induction fuel generalizing i g with
  | zero => rfl
  | succ n ih =>
    rw [Game.updateExplosionsLoop]
    split
    · dsimp only
      split_ifs
      · rw [ih]
        rfl
      · rw [ih]
        rfl
    · rfl

theorem ledger_applyPowerup (t : PowerupType) (g : Game) :
    (Game.applyPowerup t g).bossLedger = g.bossLedger := by
  cases t <;> rfl

theorem ledger_updatePowerupsLoop (env : Env) (dt : ℚ) (fuel i : Nat) (g : Game) :
    (Game.updatePowerupsLoop env dt fuel i g).bossLedger = g.bossLedger := by
  induction fuel generalizing i g with
  | zero => rfl
  | succ n ih =>
    rw [Game.updatePowerupsLoop]
    split
    · dsimp only
      split_ifs
      · rw [ih]
        exact ledger_applyPowerup _ g
      · rw [ih]
        rfl
      · rw [ih]
        rfl
    · rfl

/-- The passes after the boss update leave the boss slot and the boss counters alone. -/
theorem ledger_afterBoss (env : Env) (dt : ℚ) (g : Game) :
    (Game.afterBoss env dt g).bossLedger = g.bossLedger := by
  unfold Game.afterBoss Game.playerBulletsVsEnemies Game.enemyBulletsVsPlayer
    Game.updateExplosions Game.updatePowerups
  dsimp only
  rw [ledger_updatePowerupsLoop, ledger_updateExplosionsLoop, ledger_enemyBulletsVsPlayerLoop,
    ledger_playerBulletsVsEnemiesLoop]

/-- The passes before the boss update leave the boss counters alone. -/
theorem counts_beforeBoss (env : Env) (dt : ℚ) (g : Game) :
    (Game.beforeBoss env dt g).bossCount = g.bossCount
    ∧ (Game.beforeBoss env dt g).nextBossScore = g.nextBossScore := by
  have h : (Game.updateAsteroids env dt (Game.asteroidSpawning env dt
      (Game.updateEnemies env dt (Game.enemySpawning env dt
        (Game.playerShooting env (Game.updateObjects env dt g)))).deathCheck)).bossLedger
      = g.bossLedger := by
    unfold Game.updateAsteroids Game.updateEnemies
    rw [ledger_updateAsteroidsLoop, ledger_asteroidSpawning, ledger_deathCheck,
      ledger_updateEnemiesLoop, ledger_enemySpawning, ledger_playerShooting]
    rfl
  unfold Game.bossLedger at h
  simp only [Prod.mk.injEq] at h
  obtain ⟨_, h2, h3⟩ := h
  obtain ⟨h4, h5⟩ := counts_bossSpawning env (Game.updateAsteroids env dt
    (Game.asteroidSpawning env dt (Game.updateEnemies env dt (Game.enemySpawning env dt
      (Game.playerShooting env (Game.updateObjects env dt g)))).deathCheck))
  unfold Game.beforeBoss
  dsimp only
  exact ⟨h4.trans h2, h5.trans h3⟩

/-- A tick that is neither paused nor handles EXIT GAME runs the simulation on the state the
pause actions leave, which has the boss counters of the start of the tick. -/
theorem updatePlaying_runs (env : Env) (dt : ℚ) (g : Game)
    (hrun : g.pauseMenu.isPaused = false)
    (hex : g.pauseMenu.getLastAction ≠ PauseAction.EXIT_GAME) :
    Game.updatePlaying env dt g = Game.simulate env dt g.pauseActions
    ∧ g.pauseActions.bossCount = g.bossCount
    ∧ g.pauseActions.nextBossScore = g.nextBossScore := by
  have hp : g.pauseActions.pauseMenu.isPaused = false
      ∧ g.pauseActions.bossCount = g.bossCount
      ∧ g.pauseActions.nextBossScore = g.nextBossScore := by
    unfold Game.pauseActions
    split
    · exact ⟨hrun, rfl, rfl⟩
    · exact absurd ‹_› hex
    · exact ⟨hrun, rfl, rfl⟩
  refine ⟨?_, hp.2⟩
  unfold Game.updatePlaying
  dsimp only
  rw [if_neg (by rw [hp.1]; simp)]

/-- The boss update on a state whose boss has positive hp and is overlapped, after its move, by
at least as many player bullets as it needs hits: the boss is cleared and the defeat is booked
once. -/
theorem updateBoss_lethal (env : Env) (dt : ℚ) (g : Game) (boss : Boss)
    (hb : g.activeBoss = some boss) (hhp : 0 < boss.hp)
    (hlethal : hitsToKill boss.hp
      ≤ g.playerBullets.countP
          (fun b => env.hit (boss.update env dt g.enemyBullets).1.sprite b.sprite)) :
    (Game.updateBoss env dt g).activeBoss = none
    ∧ (Game.updateBoss env dt g).bossCount = g.bossCount + 1
    ∧ (Game.updateBoss env dt g).nextBossScore = g.nextBossScore + 600
    ∧ (Game.updateBoss env dt g).hud.score = g.hud.score + 100
    ∧ (Game.updateBoss env dt g).hud.enemiesDefeated = g.hud.enemiesDefeated + 1
    ∧ (Game.updateBoss env dt g).hud.currentHearts = g.hud.currentHearts
    ∧ (Game.updateBoss env dt g).powerups = g.powerups ++
        [Powerup.new env .healTex .HEAL (boss.update env dt g.enemyBullets).1.sprite.position.x
          (boss.update env dt g.enemyBullets).1.sprite.position.y] := by
  have hu1 := (hp_boss_update env boss dt g.enemyBullets).1
  have key := bossVsBulletsLoop_outcome env g.playerBullets.length
    0 { g with activeBoss := some (boss.update env dt g.enemyBullets).1,
               enemyBullets := (boss.update env dt g.enemyBullets).2 }
    (boss.update env dt g.enemyBullets).1 rfl
  have hloop := bossVsBulletsLoop_bullets env g.playerBullets.length 0
    { g with activeBoss := some (boss.update env dt g.enemyBullets).1,
             enemyBullets := (boss.update env dt g.enemyBullets).2 }
    (boss.update env dt g.enemyBullets).1 rfl (by rw [hu1]; exact hhp) (by simp)
  dsimp only at key hloop
  rw [List.drop_zero, hu1] at hloop
  have hnone : (Game.bossVsBulletsLoop env g.playerBullets.length 0
      { g with activeBoss := some (boss.update env dt g.enemyBullets).1,
               enemyBullets := (boss.update env dt g.enemyBullets).2 }).activeBoss = none := by
    rcases hloop with ⟨h2, _⟩ | ⟨_, _, _, _, _, _, _, h6, _⟩
    · exfalso
      unfold hitsToKill at hlethal
      omega
    · exact h6
  have hu : Game.updateBoss env dt g = Game.bossVsBulletsLoop env g.playerBullets.length 0
      { g with activeBoss := some (boss.update env dt g.enemyBullets).1,
               enemyBullets := (boss.update env dt g.enemyBullets).2 } := by
    rw [Game.updateBoss, hb]
    unfold Game.bossVsBullets
    dsimp only
    rw [hnone]
  rw [hu]
  rcases key with ⟨boss1, h1, -⟩ | ⟨h0, hhud, hpow, hcount, hnext⟩
  · rw [hnone] at h1
    exact absurd h1 (by simp)
  · refine ⟨h0, hcount, hnext, ?_, ?_, ?_, hpow⟩
    · rw [hhud]; rfl
    · rw [hhud]; rfl
    · rw [hhud]; rfl

/-! ## The claims -/

/-- C1: for a non-negative score, `HUD::getSpawnRateMultiplier` returns
`min(1.0 + floor(score/100) * 0.2, 2.2)` in exact rational arithmetic; it returns 1.0 at score 0,
1.2 at score 100 and 2.2 at score 1000. -/
theorem getSpawnRateMultiplier_formula (h : HUD) (hs : 0 ≤ h.score) :
    h.getSpawnRateMultiplier = min (1 + ((⌊(h.score : ℚ) / 100⌋ : Int) : ℚ) * (2 / 10)) (22 / 10)
    ∧ ({ h with score := 0 } : HUD).getSpawnRateMultiplier = 1
    ∧ ({ h with score := 100 } : HUD).getSpawnRateMultiplier = 12 / 10
    ∧ ({ h with score := 1000 } : HUD).getSpawnRateMultiplier = 22 / 10 := by
  refine ⟨?_, ?_, ?_, ?_⟩
  · have hfloor : ⌊(h.score : ℚ) / 100⌋ = Int.tdiv h.score 100 := by
      rw [Int.tdiv_eq_ediv hs (by decide)]
      have := Rat.floor_intCast_div_natCast h.score 100
      simpa using this
    unfold HUD.getSpawnRateMultiplier
    rw [hfloor]
    norm_num
  · have : Int.tdiv 0 100 = 0 := by decide
    simp only [HUD.getSpawnRateMultiplier, this]
    norm_num
  · have : Int.tdiv 100 100 = 1 := by decide
    simp only [HUD.getSpawnRateMultiplier, this]
    norm_num
  · have : Int.tdiv 1000 100 = 10 := by decide
    simp only [HUD.getSpawnRateMultiplier, this]
    norm_num

/-- Witness of C1 at score 250, where the multiplier is 1.4. -/
theorem getSpawnRateMultiplier_formula_witness :
    (0 : Int) ≤ ({ score := 250 } : HUD).score
    ∧ ({ score := 250 } : HUD).getSpawnRateMultiplier
        = min (1 + ((⌊((({ score := 250 } : HUD).score : Int) : ℚ) / 100⌋ : Int) : ℚ) * (2 / 10))
            (22 / 10) :=
  ⟨by decide, (getSpawnRateMultiplier_formula { score := 250 } (by decide)).1⟩

/-- C2: the boss created by the boss-spawn step has `hp = maxHp = 250 + bossCount * 100` and
bullet speed `300 + min(bossCount, 5) * 30`; boss counts 0, 3 and 10 give (250, 300),
(550, 390) and (1250, 450). -/
theorem bossSpawning_stats (env : Env) (g : Game)
    (hs : g.hud.getScore ≥ g.nextBossScore) (hb : g.activeBoss = none) :
    ∃ b : Boss, (Game.bossSpawning env g).activeBoss = some b
      ∧ b.hp = 250 + g.bossCount * 100 ∧ b.maxHp = 250 + g.bossCount * 100
      ∧ b.bulletSpeed = 300 + ((min g.bossCount 5 : Int) : ℚ) * 30
      ∧ (g.bossCount = 0 → b.hp = 250 ∧ b.maxHp = 250 ∧ b.bulletSpeed = 300)
      ∧ (g.bossCount = 3 → b.hp = 550 ∧ b.maxHp = 550 ∧ b.bulletSpeed = 390)
      ∧ (g.bossCount = 10 → b.hp = 1250 ∧ b.maxHp = 1250 ∧ b.bulletSpeed = 450) := by
  have hcond : g.hud.getScore ≥ g.nextBossScore ∧ g.activeBoss.isNone = true := by
    rw [hb]
    exact ⟨hs, rfl⟩
  refine ⟨Boss.new env .bossTex (250 + g.bossCount * 100)
    (300 + ((min g.bossCount 5 : Int) : ℚ) * 30), ?_, rfl, rfl, rfl, ?_, ?_, ?_⟩
  · unfold Game.bossSpawning
    rw [if_pos hcond]
  · intro h0
    simp only [Boss.new, h0]
    norm_num
  · intro h3
    simp only [Boss.new, h3]
    norm_num
  · intro h10
    simp only [Boss.new, h10]
    norm_num

/-- Witness of C2: the sample game has score 520, threshold 500 and no boss. -/
theorem bossSpawning_stats_witness :
    sampleGame.hud.getScore ≥ sampleGame.nextBossScore ∧ sampleGame.activeBoss = none
    ∧ ∃ b : Boss, (Game.bossSpawning sampleEnv sampleGame).activeBoss = some b
      ∧ b.hp = 250 + sampleGame.bossCount * 100 :=
  ⟨by decide, rfl,
    (bossSpawning_stats sampleEnv sampleGame (by decide) rfl).imp
      (fun _ hb => ⟨hb.1, hb.2.1⟩)⟩

/-- C3: `0 ≤ currentHearts ≤ maxHearts` holds in the state the constructor leaves and is
preserved by `loseHeart`, by `heal(amount)` for `amount ≥ 0`, by `reset` (also through
`resetGame`) and by every tick of `updatePlaying`. -/
theorem heartsInRange_invariant (env : Env) (dt : ℚ) (highScore amount : Int) (h : HUD)
    (g : Game) (ha : 0 ≤ amount) (hh : h.heartsInRange) (hg : g.hud.heartsInRange) :
    (Game.new env highScore).hud.heartsInRange
    ∧ h.loseHeart.heartsInRange
    ∧ (h.heal amount).heartsInRange
    ∧ h.reset.heartsInRange
    ∧ g.resetGame.hud.heartsInRange
    ∧ (Game.updatePlaying env dt g).hud.heartsInRange := by
  refine ⟨?_, heartsInRange_loseHeart h hh, heartsInRange_heal h amount ha hh,
    heartsInRange_reset h hh, heartsInRange_reset g.hud hg, ?_⟩
  · exact ⟨show (0 : Int) ≤ 10 by decide, show (10 : Int) ≤ 10 by decide⟩
  · have hp : g.pauseActions.hud.heartsInRange := by
      rcases pauseActions_hud g with e | e
      · rw [e]; exact hg
      · rw [e]; exact heartsInRange_reset g.hud hg
    unfold Game.updatePlaying
    dsimp only
    split_ifs
    · exact hp
    · exact hudSteps_heartsInRange (hudSteps_simulate env dt g.pauseActions) hp

/-- Witness of C3 on the sample game (10 of 10 hearts) and `heal(3)`. -/
theorem heartsInRange_invariant_witness :
    (0 : Int) ≤ 3 ∧ sampleGame.hud.heartsInRange
    ∧ (sampleGame.hud.heal 3).heartsInRange
    ∧ (Game.updatePlaying sampleEnv (1 / 100) sampleGame).hud.heartsInRange :=
  have hs : sampleGame.hud.heartsInRange := by
    unfold HUD.heartsInRange
    decide
  have w := heartsInRange_invariant sampleEnv (1 / 100) 0 3 sampleGame.hud sampleGame
    (by decide) hs hs
  ⟨by decide, hs, w.2.2.1, w.2.2.2.2.2⟩

/-- C4: in a tick of `updatePlaying` with no pending exit-to-menu action the score does not
decrease: the HUD changes only through `HudSteps`, whose `addScore` calls pass one of the
constants 30, 100, 10 and 50. -/
theorem score_nondecreasing (env : Env) (dt : ℚ) (g : Game)
    (hp : g.pauseMenu.getLastAction ≠ PauseAction.EXIT_GAME) :
    HudSteps g.hud (Game.updatePlaying env dt g).hud
    ∧ g.hud.score ≤ (Game.updatePlaying env dt g).hud.score := by
  have hs : HudSteps g.hud (Game.updatePlaying env dt g).hud := by
    have e := pauseActions_hud_of_not_exit g hp
    unfold Game.updatePlaying
    dsimp only
    split_ifs
    · rw [e]
      exact HudSteps.refl _
    · have hsim := hudSteps_simulate env dt g.pauseActions
      rw [e] at hsim
      exact hsim
  exact ⟨hs, hudSteps_score_le hs⟩

/-- Witness of C4 on the sample game, whose pause menu has no pending action. -/
theorem score_nondecreasing_witness :
    sampleGame.pauseMenu.getLastAction ≠ PauseAction.EXIT_GAME
    ∧ sampleGame.hud.score ≤ (Game.updatePlaying sampleEnv (1 / 100) sampleGame).hud.score :=
  ⟨by decide, (score_nondecreasing sampleEnv (1 / 100) sampleGame (by decide)).2⟩

/-- C6: while a boss is active the boss-spawn step changes nothing, whatever the score and the
threshold are; the step changes the boss slot exactly when `score ≥ nextBossScore` and no boss
is active, and then a boss is present. The slot `activeBoss` holds at most one boss. -/
theorem bossSpawning_single_boss (env : Env) (g : Game) (b : Boss) (hb : g.activeBoss = some b) :
    Game.bossSpawning env g = g
    ∧ (Game.bossSpawning env g).activeBoss = some b
    ∧ ∀ g0 : Game, ((Game.bossSpawning env g0).activeBoss ≠ g0.activeBoss
        ↔ g0.hud.getScore ≥ g0.nextBossScore ∧ g0.activeBoss = none)
      ∧ (Game.bossSpawning env g0 ≠ g0 → (Game.bossSpawning env g0).activeBoss.isSome = true) := by
  have hno : Game.bossSpawning env g = g := by
    unfold Game.bossSpawning
    rw [if_neg]
    rw [hb]
    simp
  refine ⟨hno, by rw [hno, hb], ?_⟩
  intro g0
  unfold Game.bossSpawning
  dsimp only
  split_ifs with hc
  · have hn : g0.activeBoss = none := Option.isNone_iff_eq_none.mp hc.2
    refine ⟨⟨fun _ => ⟨hc.1, hn⟩, fun _ => ?_⟩, fun _ => rfl⟩
    rw [hn]
    simp
  · refine ⟨⟨fun hne => absurd rfl hne, fun hx => ?_⟩, fun hne => absurd rfl hne⟩
    exact absurd ⟨hx.1, Option.isNone_iff_eq_none.mpr hx.2⟩ hc

/-- Witness of C6 on the sample game with an active boss and score above the threshold. -/
theorem bossSpawning_single_boss_witness :
    sampleBossGame.activeBoss = some (sampleBoss ⟨600, 150⟩)
    ∧ sampleBossGame.hud.getScore ≥ sampleBossGame.nextBossScore
    ∧ Game.bossSpawning sampleEnv sampleBossGame = sampleBossGame :=
  ⟨rfl, by decide, (bossSpawning_single_boss sampleEnv sampleBossGame _ rfl).1⟩

set_option maxRecDepth 4000 in
/-- C8, counterexample: a tick in which the first player bullet brings the boss from 10 hp to 0
and the second one kills an enemy. The boss is cleared, `bossCount` grows by 1 and
`nextBossScore` by 600, but over the tick the score grows by 110, `enemiesDefeated` by 2, and
two powerups are appended: the tick does not add exactly 100 to the score, 1 to
`enemiesDefeated` and one powerup. -/
theorem boss_and_enemy_killed_in_one_tick :
    (bossAndEnemyKillGame.currentState = .PLAYING
      ∧ bossAndEnemyKillGame.activeBoss.map (fun b => b.hp) = some 10
      ∧ bossAndEnemyKillGame.powerups = [])
    ∧ (Game.updatePlaying sampleEnv (1 / 100) bossAndEnemyKillGame).activeBoss = none
    ∧ (Game.updatePlaying sampleEnv (1 / 100) bossAndEnemyKillGame).bossCount
        = bossAndEnemyKillGame.bossCount + 1
    ∧ (Game.updatePlaying sampleEnv (1 / 100) bossAndEnemyKillGame).nextBossScore
        = bossAndEnemyKillGame.nextBossScore + 600
    ∧ (Game.updatePlaying sampleEnv (1 / 100) bossAndEnemyKillGame).hud.score
        = bossAndEnemyKillGame.hud.score + 110
    ∧ (Game.updatePlaying sampleEnv (1 / 100) bossAndEnemyKillGame).hud.enemiesDefeated
        = bossAndEnemyKillGame.hud.enemiesDefeated + 2
    ∧ (Game.updatePlaying sampleEnv (1 / 100) bossAndEnemyKillGame).powerups.map
        (fun p => p.getType) = [.HEAL, .HEAL]
    ∧ ¬ ((Game.updatePlaying sampleEnv (1 / 100) bossAndEnemyKillGame).hud.score
          = bossAndEnemyKillGame.hud.score + 100
        ∧ (Game.updatePlaying sampleEnv (1 / 100) bossAndEnemyKillGame).hud.enemiesDefeated
          = bossAndEnemyKillGame.hud.enemiesDefeated + 1
        ∧ (Game.updatePlaying sampleEnv (1 / 100) bossAndEnemyKillGame).powerups.length
          = bossAndEnemyKillGame.powerups.length + 1) := by
  have h1 : (Game.updatePlaying sampleEnv (1 / 100) bossAndEnemyKillGame).hud.score = 630 := by
    with_unfolding_all decide
  refine ⟨⟨rfl, rfl, rfl⟩, ?_, ?_, ?_, ?_, ?_, ?_, ?_⟩
  · with_unfolding_all decide
  · with_unfolding_all decide
  · with_unfolding_all decide
  · rw [h1]
    decide
  · with_unfolding_all decide
  · with_unfolding_all decide
  · intro h
    rw [h1] at h
    exact absurd h.1 (by decide)

/-- C8, amended: when a bullet hit brings the active boss to hp ≤ 0, that is, when a tick that
is neither paused nor handling EXIT GAME reaches the boss update with a boss of hp `h > 0` that
is overlapped, after its move, by at least `ceil(h / 10)` player bullets: the tick runs through
the boss update; the boss update increments `bossCount` by exactly 1, increases
`nextBossScore` by exactly 600, adds exactly 100 to the score, increments `enemiesDefeated`
by 1, leaves the hearts, appends exactly one powerup, of type `HEAL` and at the position of
the boss, and clears the boss; and at the end of the tick the boss is still absent,
`bossCount` is exactly 1 and `nextBossScore` exactly 600 above their values at the start of
the tick. -/
theorem boss_defeat_bookkeeping (env : Env) (dt : ℚ) (g : Game) (boss : Boss)
    (hrun : g.pauseMenu.isPaused = false)
    (hex : g.pauseMenu.getLastAction ≠ PauseAction.EXIT_GAME)
    (hb : (Game.atBossUpdate env dt g).activeBoss = some boss) (hhp : 0 < boss.hp)
    (hlethal : hitsToKill boss.hp
      ≤ (Game.atBossUpdate env dt g).playerBullets.countP
          (fun b => env.hit
            (boss.update env dt (Game.atBossUpdate env dt g).enemyBullets).1.sprite b.sprite)) :
    Game.updatePlaying env dt g
      = Game.afterBoss env dt (Game.updateBoss env dt (Game.atBossUpdate env dt g))
    ∧ ((Game.updateBoss env dt (Game.atBossUpdate env dt g)).activeBoss = none
      ∧ (Game.updateBoss env dt (Game.atBossUpdate env dt g)).bossCount
          = (Game.atBossUpdate env dt g).bossCount + 1
      ∧ (Game.updateBoss env dt (Game.atBossUpdate env dt g)).nextBossScore
          = (Game.atBossUpdate env dt g).nextBossScore + 600
      ∧ (Game.updateBoss env dt (Game.atBossUpdate env dt g)).hud.score
          = (Game.atBossUpdate env dt g).hud.score + 100
      ∧ (Game.updateBoss env dt (Game.atBossUpdate env dt g)).hud.enemiesDefeated
          = (Game.atBossUpdate env dt g).hud.enemiesDefeated + 1
      ∧ (Game.updateBoss env dt (Game.atBossUpdate env dt g)).hud.currentHearts
          = (Game.atBossUpdate env dt g).hud.currentHearts
      ∧ ∃ p : Powerup,
          (Game.updateBoss env dt (Game.atBossUpdate env dt g)).powerups
            = (Game.atBossUpdate env dt g).powerups ++ [p]
          ∧ p.getType = PowerupType.HEAL
          ∧ p.sprite.position
              = (boss.update env dt (Game.atBossUpdate env dt g).enemyBullets).1.sprite.position)
    ∧ ((Game.updatePlaying env dt g).activeBoss = none
      ∧ (Game.updatePlaying env dt g).bossCount = g.bossCount + 1
      ∧ (Game.updatePlaying env dt g).nextBossScore = g.nextBossScore + 600) := by
  obtain ⟨hsim, hc0, hn0⟩ := updatePlaying_runs env dt g hrun hex
  have htick : Game.updatePlaying env dt g
      = Game.afterBoss env dt (Game.updateBoss env dt (Game.atBossUpdate env dt g)) := by
    rw [hsim, simulate_split]
    rfl
  obtain ⟨k1, k2, k3, k4, k5, k6, k7⟩ :=
    updateBoss_lethal env dt (Game.atBossUpdate env dt g) boss hb hhp hlethal
  obtain ⟨hc1, hn1⟩ := counts_beforeBoss env dt g.pauseActions
  have hl := ledger_afterBoss env dt (Game.updateBoss env dt (Game.atBossUpdate env dt g))
  unfold Game.bossLedger at hl
  simp only [Prod.mk.injEq] at hl
  obtain ⟨l1, l2, l3⟩ := hl
  refine ⟨htick, ⟨k1, k2, k3, k4, k5, k6, _, k7, rfl, rfl⟩, ?_, ?_, ?_⟩
  · rw [htick, l1]
    exact k1
  · rw [htick, l2, k2]
    show (Game.beforeBoss env dt g.pauseActions).bossCount + 1 = g.bossCount + 1
    rw [hc1, hc0]
  · rw [htick, l3, k3]
    show (Game.beforeBoss env dt g.pauseActions).nextBossScore + 600 = g.nextBossScore + 600
    rw [hn1, hn0]

/-- Witness of C8 (amended): a boss with 10 hp left and one overlapping player bullet. -/
theorem boss_defeat_bookkeeping_witness :
    (sampleLastHitGame.pauseMenu.isPaused = false
      ∧ (Game.atBossUpdate sampleEnv (1 / 100) sampleLastHitGame).activeBoss
          = some { sampleBoss ⟨600, 150⟩ with hp := 10 })
    ∧ (Game.updatePlaying sampleEnv (1 / 100) sampleLastHitGame).activeBoss = none
    ∧ (Game.updatePlaying sampleEnv (1 / 100) sampleLastHitGame).bossCount
        = sampleLastHitGame.bossCount + 1
    ∧ (Game.updatePlaying sampleEnv (1 / 100) sampleLastHitGame).nextBossScore
        = sampleLastHitGame.nextBossScore + 600 :=
  have hb : (Game.atBossUpdate sampleEnv (1 / 100) sampleLastHitGame).activeBoss
      = some { sampleBoss ⟨600, 150⟩ with hp := 10 } := by
    with_unfolding_all rfl
  have w := boss_defeat_bookkeeping sampleEnv (1 / 100) sampleLastHitGame _ rfl (by decide) hb
    (by decide) (by with_unfolding_all decide)
  ⟨⟨rfl, hb⟩, w.2.2⟩

/-- C9, evaluated at `bossContactGame`: the tick starts unpaused in `PLAYING` with one heart, the
contact with the boss takes it, and the tick ends with 0 hearts in state `PLAYING`; the state
becomes `GAME_OVER` only in the tick after. -/
theorem boss_contact_leaves_playing :
    bossContactGame.currentState = GameState.PLAYING
    ∧ bossContactGame.pauseMenu.isPaused = false
    ∧ bossContactGame.hud.currentHearts = 1
    ∧ (Game.updatePlaying sampleEnv (1 / 100) bossContactGame).hud.currentHearts = 0
    ∧ (Game.updatePlaying sampleEnv (1 / 100) bossContactGame).currentState = GameState.PLAYING
    ∧ (Game.updatePlaying sampleEnv (1 / 100)
        (Game.updatePlaying sampleEnv (1 / 100) bossContactGame)).currentState
        = GameState.GAME_OVER := by
  refine ⟨rfl, rfl, rfl, ?_, ?_, ?_⟩
  · with_unfolding_all decide
  · with_unfolding_all decide
  · with_unfolding_all decide

/-- C10, evaluated at `asteroidCrashGame`: the asteroid takes the last five hearts, the tick
moves the state from `PLAYING` to `GAME_OVER` with score 120 above the stored high score 100,
and neither is `currentHighScore` updated nor `saveHighScore` called; with an enemy in place of
the asteroid the same tick stores and saves 120. -/
theorem asteroid_death_skips_high_score :
    asteroidCrashGame.currentState = GameState.PLAYING
    ∧ asteroidCrashGame.hud.score > asteroidCrashGame.currentHighScore
    ∧ (Game.updatePlaying sampleEnv (1 / 100) asteroidCrashGame).currentState
        = GameState.GAME_OVER
    ∧ (Game.updatePlaying sampleEnv (1 / 100) asteroidCrashGame).hud.currentHearts = 0
    ∧ (Game.updatePlaying sampleEnv (1 / 100) asteroidCrashGame).hud.score = 120
    ∧ (Game.updatePlaying sampleEnv (1 / 100) asteroidCrashGame).currentHighScore = 100
    ∧ (Game.updatePlaying sampleEnv (1 / 100) asteroidCrashGame).saveCalls = []
    ∧ (Game.updatePlaying sampleEnv (1 / 100) enemyCrashGame).currentState = GameState.GAME_OVER
    ∧ (Game.updatePlaying sampleEnv (1 / 100) enemyCrashGame).currentHighScore = 120
    ∧ (Game.updatePlaying sampleEnv (1 / 100) enemyCrashGame).saveCalls = [120] := by
  refine ⟨rfl, by decide, ?_, ?_, ?_, ?_, ?_, ?_, ?_, ?_⟩
  all_goals with_unfolding_all decide

/-- C5: an enemy is constructed with 70 hp; when it is the only enemy and every player bullet
of the pass overlaps it, after `n ≤ 6` bullets it is still in the enemy list with
`70 - 10 n > 0` hp, and with 7 bullets (or more) it has been erased from the list. -/
theorem enemy_dies_at_seventh_hit (env : Env) (dt : ℚ) (g : Game) (e : Enemy)
    (he : g.enemies = [e]) (hhp : e.hp = 70)
    (hhit : ∀ b ∈ g.playerBullets, env.hit (b.update dt).sprite e.sprite = true) :
    (∀ (r : Nat) (tex : Texture) (x y : ℚ), (Enemy.new env r tex x y).hp = 70)
    ∧ (g.playerBullets.length ≤ 6 →
        (Game.playerBulletsVsEnemies env dt g).enemies
          = [{ e with hp := 70 - 10 * (g.playerBullets.length : Int) }]
        ∧ 0 < 70 - 10 * (g.playerBullets.length : Int))
    ∧ (7 ≤ g.playerBullets.length → (Game.playerBulletsVsEnemies env dt g).enemies = []) := by
  have key := playerBulletsVsEnemies_single env dt g.playerBullets g e he (by omega) rfl hhit
  rw [hhp] at key
  unfold Game.playerBulletsVsEnemies
  refine ⟨fun _ _ _ _ => rfl, fun h6 => ?_, fun h7 => ?_⟩
  · rw [key, if_pos (by omega)]
    exact ⟨rfl, by omega⟩
  · rw [key, if_neg (by omega)]

/-- Witness of C5: seven bullets on one fresh enemy. -/
theorem enemy_dies_at_seventh_hit_witness :
    sampleSevenHitsGame.enemies = [sampleEnemy ⟨100, 100⟩]
    ∧ (sampleEnemy ⟨100, 100⟩).hp = 70
    ∧ 7 ≤ sampleSevenHitsGame.playerBullets.length
    ∧ (Game.playerBulletsVsEnemies sampleEnv (1 / 100) sampleSevenHitsGame).enemies = [] :=
  ⟨rfl, rfl, by decide,
    (enemy_dies_at_seventh_hit sampleEnv (1 / 100) sampleSevenHitsGame (sampleEnemy ⟨100, 100⟩)
      rfl rfl (by with_unfolding_all decide)).2.2 (by decide)⟩

/-- C7: over the asteroid, boss and enemy passes of a tick (which `simulate` runs in this
order) every player bullet damages at most one target and is removed when it does: the
bullets recorded at the `takeDamage` calls of the asteroid and boss passes (`early`) and of the
enemy pass (`late`, recorded after their move), together with the bullets still in
`playerBullets`, are among the moved bullets the passes started with, none of them twice. A
bullet overlapping both the boss and an enemy damages the boss only; a bullet overlapping two
enemies damages the first only. -/
theorem bullet_damages_at_most_one_target (env : Env) (dt : ℚ) (g : Game) :
    (∃ early late : List Bullet,
      (Game.bulletPasses env dt g).bulletHits = g.bulletHits ++ early ++ late
      ∧ (early.map (fun b => b.update dt) ++ late
          ++ (Game.bulletPasses env dt g).playerBullets).Subperm
          (g.playerBullets.map (fun b => b.update dt)))
    ∧ Game.simulate env dt g
        = Game.updatePowerups env dt (Game.updateExplosions env dt
            (Game.enemyBulletsVsPlayer env dt (Game.bulletPasses env dt
              (Game.asteroidSpawning env dt (Game.deathCheck (Game.updateEnemies env dt
                (Game.enemySpawning env dt
                  (Game.playerShooting env (Game.updateObjects env dt g)))))))))
    ∧ ((Game.bulletPasses sampleEnv (1 / 100) bossAndEnemyGame).activeBoss.map (fun b => b.hp)
          = some 240
        ∧ (Game.bulletPasses sampleEnv (1 / 100) bossAndEnemyGame).enemies.map (fun e => e.hp)
          = [70]
        ∧ (Game.bulletPasses sampleEnv (1 / 100) bossAndEnemyGame).playerBullets = [])
    ∧ ((Game.bulletPasses sampleEnv (1 / 100) twoEnemiesGame).enemies.map (fun e => e.hp)
          = [60, 70]
        ∧ (Game.bulletPasses sampleEnv (1 / 100) twoEnemiesGame).playerBullets = []) := by
  refine ⟨?_, rfl, ⟨?_, ?_, ?_⟩, ⟨?_, ?_⟩⟩
  · have hA : BulletsConsumed g (Game.updateAsteroids env dt g) :=
      bulletsConsumed_updateAsteroidsLoop env dt _ 0 g
    have hB : BulletsConsumed g
        (Game.updateBoss env dt (Game.bossSpawning env (Game.updateAsteroids env dt g))) :=
      bulletsConsumed_trans (bulletsConsumed_trans hA (bulletsConsumed_bossSpawning env _))
        (bulletsConsumed_updateBoss env dt _)
    obtain ⟨early, hlog, hperm⟩ := hB
    obtain ⟨late, hlog2, hsub⟩ := playerBulletsVsEnemiesLoop_bullets env dt
      (Game.updateBoss env dt
        (Game.bossSpawning env (Game.updateAsteroids env dt g))).playerBullets.length 0
      (Game.updateBoss env dt (Game.bossSpawning env (Game.updateAsteroids env dt g)))
      (by omega)
    refine ⟨early, late, ?_, ?_⟩
    · unfold Game.bulletPasses Game.playerBulletsVsEnemies
      rw [hlog2, hlog]
    · unfold Game.bulletPasses Game.playerBulletsVsEnemies
      have hmoved : movedFrom dt 0 (Game.updateBoss env dt
          (Game.bossSpawning env (Game.updateAsteroids env dt g))).playerBullets
          = (Game.updateBoss env dt
              (Game.bossSpawning env (Game.updateAsteroids env dt g))).playerBullets.map
              (fun b => b.update dt) := by
        simp [movedFrom]
      rw [hmoved] at hsub
      have h1 := (hperm.map (fun b => b.update dt)).subperm
      rw [List.map_append] at h1
      rw [List.append_assoc]
      exact ((List.subperm_append_left _).mpr hsub).trans h1
  all_goals with_unfolding_all decide

/-- C13: for every game state, `resetGame()` yields hearts = maxHearts, score 0,
enemiesDefeated 0, bossCount 0, nextBossScore 500, no active boss, and empty enemies,
enemyBullets, playerBullets, explosions, asteroids and powerups. -/
theorem resetGame_fresh_session (g : Game) :
    g.resetGame.hud.currentHearts = g.resetGame.hud.maxHearts
    ∧ g.resetGame.hud.maxHearts = g.hud.maxHearts
    ∧ g.resetGame.hud.score = 0
    ∧ g.resetGame.hud.enemiesDefeated = 0
    ∧ g.resetGame.bossCount = 0
    ∧ g.resetGame.nextBossScore = 500
    ∧ g.resetGame.activeBoss = none
    ∧ g.resetGame.enemies = []
    ∧ g.resetGame.enemyBullets = []
    ∧ g.resetGame.playerBullets = []
    ∧ g.resetGame.explosions = []
    ∧ g.resetGame.asteroids = []
    ∧ g.resetGame.powerups = [] := by
  simp [Game.resetGame, HUD.reset]

/-- C14, the code on the failing input: `resetGame()` on a game whose spawn timers stand at
2 s and 3 s resets the boss counters declared beside them but leaves the two timers at 2 s and
3 s, so they are not both 0 after the reset. The retry of a session that ended with these
timers enters `PLAYING` with them, while a game built by the constructor starts with both
at 0. -/
theorem resetGame_timers_not_zero :
    midSessionGame.resetGame.spawnTimer = 2
    ∧ midSessionGame.resetGame.asteroidSpawnTimer = 3
    ∧ ¬ (midSessionGame.resetGame.spawnTimer = 0
          ∧ midSessionGame.resetGame.asteroidSpawnTimer = 0)
    ∧ (retryPendingGame.currentState = .GAME_OVER
      ∧ retryPendingGame.gameOverScreen.isRetryPressed = true
      ∧ retryPendingGame.bossCount = 2 ∧ retryPendingGame.nextBossScore = 1700)
    ∧ (Game.update sampleEnv sampleUi (1 / 100) retryPendingGame).currentState = .PLAYING
    ∧ (Game.update sampleEnv sampleUi (1 / 100) retryPendingGame).bossCount = 0
    ∧ (Game.update sampleEnv sampleUi (1 / 100) retryPendingGame).nextBossScore = 500
    ∧ (Game.update sampleEnv sampleUi (1 / 100) retryPendingGame).spawnTimer = 2
    ∧ (Game.update sampleEnv sampleUi (1 / 100) retryPendingGame).asteroidSpawnTimer = 3
    ∧ (Game.new sampleEnv 0).spawnTimer = 0
    ∧ (Game.new sampleEnv 0).asteroidSpawnTimer = 0 := by
  refine ⟨?_, ?_, ?_, ⟨rfl, rfl, rfl, rfl⟩, ?_, ?_, ?_, ?_, ?_, rfl, rfl⟩
  · with_unfolding_all decide
  · with_unfolding_all decide
  · with_unfolding_all decide
  · with_unfolding_all decide
  · with_unfolding_all decide
  · with_unfolding_all decide
  · with_unfolding_all decide
  · with_unfolding_all decide

/-- C16, the code on the failing input: the tick that handles EXIT GAME ends in state `MENU`
but has run the simulation on the reset state: the player has fired a bullet, its attack and
animation timers have changed and both spawn timers have advanced by `dt`, so the state is not
the one `resetGame()` produces. -/
theorem exit_tick_runs_simulation :
    (Game.updatePlaying sampleEnv (1 / 100) exitPendingGame).currentState = .MENU
    ∧ exitPendingGame.resetGame.playerBullets = []
    ∧ (Game.updatePlaying sampleEnv (1 / 100) exitPendingGame).playerBullets.length = 1
    ∧ exitPendingGame.resetGame.spawnTimer = 2
    ∧ (Game.updatePlaying sampleEnv (1 / 100) exitPendingGame).spawnTimer = 2 + 1 / 100
    ∧ exitPendingGame.resetGame.asteroidSpawnTimer = 3
    ∧ (Game.updatePlaying sampleEnv (1 / 100) exitPendingGame).asteroidSpawnTimer = 3 + 1 / 100
    ∧ (Game.updatePlaying sampleEnv (1 / 100) exitPendingGame).player
        ≠ exitPendingGame.resetGame.player
    ∧ Game.updatePlaying sampleEnv (1 / 100) exitPendingGame
        ≠ { exitPendingGame.resetGame with
            currentState := .MENU,
            pauseMenu := (exitPendingGame.pauseMenu.resetAction).setPaused false } := by
  have hbullets :
      (Game.updatePlaying sampleEnv (1 / 100) exitPendingGame).playerBullets.length = 1 := by
    with_unfolding_all decide
  refine ⟨?_, ?_, hbullets, ?_, ?_, ?_, ?_, ?_, ?_⟩
  · with_unfolding_all decide
  · with_unfolding_all decide
  · with_unfolding_all decide
  · with_unfolding_all decide
  · with_unfolding_all decide
  · with_unfolding_all decide
  · intro h
    have h1 : (Game.updatePlaying sampleEnv (1 / 100) exitPendingGame).player.attackTimer
        = 0 := by
      with_unfolding_all decide
    have h2 : exitPendingGame.resetGame.player.attackTimer = 1 / 5 := by
      with_unfolding_all decide
    rw [h, h2] at h1
    norm_num at h1
  · intro h
    have h1 : (Game.updatePlaying sampleEnv (1 / 100) exitPendingGame).playerBullets.length
        = 0 := by
      rw [h]
      rfl
    omega

/-- C15, the code on the failing input: in state `MENU` with START GAME pressed, `update()`
moves to `PLAYING` and resets nothing: the bullet left by the exit tick is still in
`playerBullets`. -/
theorem menu_start_keeps_session_state :
    menuStartGame.currentState = .MENU
    ∧ menuStartGame.menu.isStartPressed = true
    ∧ (Game.update sampleEnv sampleUi (1 / 100) menuStartGame).currentState = .PLAYING
    ∧ (Game.update sampleEnv sampleUi (1 / 100) menuStartGame).playerBullets
        = menuStartGame.playerBullets
    ∧ (Game.update sampleEnv sampleUi (1 / 100) menuStartGame).playerBullets.length = 1 := by
  refine ⟨?_, ?_, ?_, ?_, ?_⟩
  · with_unfolding_all decide
  · with_unfolding_all decide
  · with_unfolding_all decide
  · with_unfolding_all rfl
  · with_unfolding_all decide

/-- C17: for every `PLAYING` state with the paused flag set and no pending EXIT_GAME action,
one tick of `updatePlaying` with any `dt` changes nothing but the pause menu (whose pending
action may be cleared, the flag stays set): score, hearts, all entity collections, the boss,
bossCount, nextBossScore, both spawn timers, currentHighScore and the game state are the
same before and after. -/
theorem paused_tick_changes_nothing (env : Env) (dt : ℚ) (g : Game)
    (_hstate : g.currentState = .PLAYING)
    (hpaused : g.pauseMenu.isPaused = true)
    (hexit : g.pauseMenu.getLastAction ≠ .EXIT_GAME) :
    Game.updatePlaying env dt g
        = { g with pauseMenu := (Game.updatePlaying env dt g).pauseMenu }
    ∧ (Game.updatePlaying env dt g).pauseMenu.isPaused = true
    ∧ (Game.updatePlaying env dt g).hud = g.hud
    ∧ (Game.updatePlaying env dt g).enemies = g.enemies
    ∧ (Game.updatePlaying env dt g).enemyBullets = g.enemyBullets
    ∧ (Game.updatePlaying env dt g).playerBullets = g.playerBullets
    ∧ (Game.updatePlaying env dt g).explosions = g.explosions
    ∧ (Game.updatePlaying env dt g).asteroids = g.asteroids
    ∧ (Game.updatePlaying env dt g).powerups = g.powerups
    ∧ (Game.updatePlaying env dt g).activeBoss = g.activeBoss
    ∧ (Game.updatePlaying env dt g).bossCount = g.bossCount
    ∧ (Game.updatePlaying env dt g).nextBossScore = g.nextBossScore
    ∧ (Game.updatePlaying env dt g).spawnTimer = g.spawnTimer
    ∧ (Game.updatePlaying env dt g).asteroidSpawnTimer = g.asteroidSpawnTimer
    ∧ (Game.updatePlaying env dt g).currentHighScore = g.currentHighScore
    ∧ (Game.updatePlaying env dt g).currentState = g.currentState := by
  have hp : g.pauseMenu.isPaused_ = true := hpaused
  cases hact : g.pauseMenu.getLastAction
  · simp [Game.updatePlaying, Game.pauseActions, hact, hpaused]
  · simp [Game.updatePlaying, Game.pauseActions, hact, hpaused]
  · simp [Game.updatePlaying, Game.pauseActions, hact, PauseMenu.isPaused,
      PauseMenu.resetAction, hp]
  · exact absurd hact hexit

/-- Witness for C17: a paused game with one enemy and running spawn timers. -/
theorem paused_tick_changes_nothing_witness :
    Game.updatePlaying sampleEnv (1 / 100) pausedGame
        = { pausedGame with
            pauseMenu := (Game.updatePlaying sampleEnv (1 / 100) pausedGame).pauseMenu }
    ∧ (Game.updatePlaying sampleEnv (1 / 100) pausedGame).spawnTimer = pausedGame.spawnTimer :=
  have h := paused_tick_changes_nothing sampleEnv (1 / 100) pausedGame rfl rfl (by decide)
  ⟨h.1, h.2.2.2.2.2.2.2.2.2.2.2.2.1⟩

/-- C19: when an enemy or an asteroid overlaps the player, for every heart count `h` in
`[0, maxHearts]` the hearts after that collision are `max (h - 5) 0`, the colliding enemy or
asteroid is removed from its collection, and the score is unchanged by the collision. Stated
for the iteration of the enemy loop and of the asteroid loop that meets the overlap (the loop
goes on at the same index from a state `g1` with these properties), and for the whole pass
when the colliding entity is the only one. -/
theorem crash_costs_five_hearts (env : Env) (dt : ℚ) (g : Game)
    (hrange : g.hud.heartsInRange) :
    (∀ (fuel i : Nat) (hi : i < g.enemies.length),
      env.hit g.player.sprite ((g.enemies[i]).update env dt g.enemyBullets).1.sprite = true →
      ∃ g1 : Game,
        Game.updateEnemiesLoop env dt (fuel + 1) i g = Game.updateEnemiesLoop env dt fuel i g1
        ∧ g1.enemies = g.enemies.eraseIdx i
        ∧ g1.hud.currentHearts = max (g.hud.currentHearts - 5) 0
        ∧ g1.hud.score = g.hud.score)
    ∧ (∀ (fuel ai : Nat) (hi : ai < g.asteroids.length),
      env.hit g.player.sprite ((g.asteroids[ai]).update dt).sprite = true →
      ∃ g1 : Game,
        Game.updateAsteroidsLoop env dt (fuel + 1) ai g
          = Game.updateAsteroidsLoop env dt fuel ai g1
        ∧ g1.asteroids = g.asteroids.eraseIdx ai
        ∧ g1.hud.currentHearts = max (g.hud.currentHearts - 5) 0
        ∧ g1.hud.score = g.hud.score)
    ∧ (∀ e : Enemy, g.enemies = [e] →
      env.hit g.player.sprite (e.update env dt g.enemyBullets).1.sprite = true →
      (Game.updateEnemies env dt g).enemies = []
      ∧ (Game.updateEnemies env dt g).hud.currentHearts = max (g.hud.currentHearts - 5) 0
      ∧ (Game.updateEnemies env dt g).hud.score = g.hud.score)
    ∧ (∀ a : Asteroid, g.asteroids = [a] →
      env.hit g.player.sprite (a.update dt).sprite = true →
      (Game.updateAsteroids env dt g).asteroids = []
      ∧ (Game.updateAsteroids env dt g).hud.currentHearts = max (g.hud.currentHearts - 5) 0
      ∧ (Game.updateAsteroids env dt g).hud.score = g.hud.score) := by
  refine ⟨fun fuel i hi hhit => updateEnemiesLoop_collision env dt fuel i g hrange.1 hi hhit,
    fun fuel ai hi hhit => updateAsteroidsLoop_collision env dt fuel ai g hrange.1 hi hhit,
    ?_, ?_⟩
  · intro e he hhit
    have hi : 0 < g.enemies.length := by simp [he]
    have hget : g.enemies[0] = e := by simp [he]
    obtain ⟨g1, h1, h2, h3, h4⟩ :=
      updateEnemiesLoop_collision env dt 0 0 g hrange.1 hi (by rw [hget]; exact hhit)
    have hrun : Game.updateEnemies env dt g = g1 := by
      unfold Game.updateEnemies
      rw [he, List.length_singleton, h1]
      rfl
    rw [hrun, h2, h3, h4, he]
    simp
  · intro a ha hhit
    have hi : 0 < g.asteroids.length := by simp [ha]
    have hget : g.asteroids[0] = a := by simp [ha]
    obtain ⟨g1, h1, h2, h3, h4⟩ :=
      updateAsteroidsLoop_collision env dt 0 0 g hrange.1 hi (by rw [hget]; exact hhit)
    have hrun : Game.updateAsteroids env dt g = g1 := by
      unfold Game.updateAsteroids
      rw [ha, List.length_singleton, h1]
      rfl
    rw [hrun, h2, h3, h4, ha]
    simp

/-- Witness for C19: a game with five hearts whose only enemy overlaps the player, and the
same game with an asteroid in place of the enemy. -/
theorem crash_costs_five_hearts_witness :
    enemyCrashGame.hud.heartsInRange
    ∧ ((Game.updateEnemies sampleEnv (1 / 100) enemyCrashGame).enemies = []
      ∧ (Game.updateEnemies sampleEnv (1 / 100) enemyCrashGame).hud.currentHearts
          = max (enemyCrashGame.hud.currentHearts - 5) 0
      ∧ (Game.updateEnemies sampleEnv (1 / 100) enemyCrashGame).hud.score
          = enemyCrashGame.hud.score)
    ∧ ((Game.updateAsteroids sampleEnv (1 / 100) asteroidCrashGame).asteroids = []
      ∧ (Game.updateAsteroids sampleEnv (1 / 100) asteroidCrashGame).hud.currentHearts
          = max (asteroidCrashGame.hud.currentHearts - 5) 0
      ∧ (Game.updateAsteroids sampleEnv (1 / 100) asteroidCrashGame).hud.score
          = asteroidCrashGame.hud.score) :=
  have hr1 : enemyCrashGame.hud.heartsInRange :=
    ⟨show (0 : Int) ≤ 5 by decide, show (5 : Int) ≤ 10 by decide⟩
  have hr2 : asteroidCrashGame.hud.heartsInRange :=
    ⟨show (0 : Int) ≤ 5 by decide, show (5 : Int) ≤ 10 by decide⟩
  ⟨hr1,
    (crash_costs_five_hearts sampleEnv (1 / 100) enemyCrashGame hr1).2.2.1
      (sampleEnemy ⟨600, 748⟩) rfl (by with_unfolding_all decide),
    (crash_costs_five_hearts sampleEnv (1 / 100) asteroidCrashGame hr2).2.2.2
      (sampleAsteroid ⟨600, 748⟩) rfl (by with_unfolding_all decide)⟩

/-- C20, counterexample: an asteroid with health 1 has health -1 after `takeDamage(2)`, a boss
with hp 5 has hp -5 after `takeDamage(10)`, and an asteroid with health 1 overlapped by two
player bullets has health -1 after the asteroid-vs-player-bullet pass. -/
theorem health_goes_below_zero :
    (({ sampleAsteroid ⟨100, 100⟩ with health := 1 } : Asteroid).takeDamage 2).health = -1
    ∧ (({ sampleBoss ⟨600, 150⟩ with hp := 5 } : Boss).takeDamage 10).hp = -5
    ∧ (Game.asteroidVsBullets sampleEnv 0 weakAsteroidGame).asteroids.map (fun a => a.health)
        = [-1]
    ∧ ¬ (0 ≤ (({ sampleAsteroid ⟨100, 100⟩ with health := 1 } : Asteroid).takeDamage 2).health)
    ∧ ¬ (0 ≤ (({ sampleBoss ⟨600, 150⟩ with hp := 5 } : Boss).takeDamage 10).hp) := by
  refine ⟨?_, ?_, ?_, ?_, ?_⟩
  · with_unfolding_all decide
  · with_unfolding_all decide
  · with_unfolding_all decide
  · with_unfolding_all decide
  · with_unfolding_all decide

/-- C20, amended: health is not clamped. For every Asteroid and every Boss with health `h`
and every damage `d`, the health after `takeDamage(d)` is `h - d`, which is `≥ 0` exactly
when `d ≤ h`; and for every asteroid with health `h`, after the asteroid-vs-player-bullet
pass with `n` overlapping bullets its health is `h - n`, which is `≥ 0` exactly when
`n ≤ h`. -/
theorem takeDamage_subtracts (a : Asteroid) (b : Boss) (d : Int) :
    (a.takeDamage d).health = a.health - d
    ∧ (b.takeDamage d).hp = b.hp - d
    ∧ (0 ≤ (a.takeDamage d).health ↔ d ≤ a.health)
    ∧ (0 ≤ (b.takeDamage d).hp ↔ d ≤ b.hp)
    ∧ ∀ (env : Env) (ai : Nat) (g : Game), g.asteroids[ai]? = some a →
        ∃ a1 : Asteroid,
          (Game.asteroidVsBullets env ai g).asteroids[ai]? = some a1
          ∧ a1.health
              = a.health
                - ((g.playerBullets.countP (fun p => env.hit a.sprite p.sprite) : Nat) : Int)
          ∧ (0 ≤ a1.health
              ↔ ((g.playerBullets.countP (fun p => env.hit a.sprite p.sprite) : Nat) : Int)
                  ≤ a.health) := by
  have h1 : (a.takeDamage d).health = a.health - d := health_takeDamage a d
  have h2 : (b.takeDamage d).hp = b.hp - d := rfl
  refine ⟨h1, h2, by rw [h1]; omega, by rw [h2]; omega, ?_⟩
  intro env ai g ha
  obtain ⟨a1, h3, _, h5, _⟩ :=
    asteroidVsBulletsLoop_outcome env ai g.playerBullets.length 0 g a ha (by omega)
  rw [List.drop_zero] at h5
  exact ⟨a1, h3, h5, by rw [h5]; omega⟩

/-- Witness for C20 (amended): an asteroid with 15 health points overlapped by two of three
player bullets. -/
theorem takeDamage_subtracts_witness :
    asteroidUnderFireGame.asteroids[0]? = some (sampleAsteroid ⟨100, 100⟩)
    ∧ ∃ a1 : Asteroid,
        (Game.asteroidVsBullets sampleEnv 0 asteroidUnderFireGame).asteroids[0]? = some a1
        ∧ a1.health
            = (sampleAsteroid ⟨100, 100⟩).health
              - ((asteroidUnderFireGame.playerBullets.countP
                  (fun p => sampleEnv.hit (sampleAsteroid ⟨100, 100⟩).sprite p.sprite) : Nat)
                  : Int)
        ∧ (0 ≤ a1.health
            ↔ ((asteroidUnderFireGame.playerBullets.countP
                  (fun p => sampleEnv.hit (sampleAsteroid ⟨100, 100⟩).sprite p.sprite) : Nat)
                  : Int)
                ≤ (sampleAsteroid ⟨100, 100⟩).health) :=
  ⟨rfl,
    (takeDamage_subtracts (sampleAsteroid ⟨100, 100⟩) (sampleBoss ⟨600, 150⟩) 1).2.2.2.2
      sampleEnv 0 asteroidUnderFireGame rfl⟩

/-- C18: entering OPTIONS or HIGHSCORE from a state `s` in {MENU, GAME_OVER} and then issuing
the back action returns the state machine to `s`, for each of the four round trips. With
OPTIONS chosen in the main menu (and neither START nor HIGH SCORE), `update()` moves from MENU
to OPTIONS; with HIGH SCORE chosen (and not START) it moves from MENU to HIGHSCORE; with
OPTIONS chosen in the game-over menu (and not RETRY) it moves from GAME_OVER to OPTIONS; with
HIGH SCORE chosen there (and neither RETRY nor OPTIONS) it moves from GAME_OVER to HIGHSCORE.
From OPTIONS, every later frame whose events leave the back flag of the options menu set ends
in `s`, and a frame with the Escape key does so when no image is shown. From HIGHSCORE, the
Escape key event sets the state to `s`, and the frame with it ends in `s`. -/
theorem back_returns_to_origin (env : Env) (ui : Ui) (dt dt' : ℚ) (g : Game) :
    (g.currentState = .MENU → g.menu.isStartPressed = false →
      g.menu.isHighScorePressed = false → g.menu.isOptionsPressed = true →
      (Game.update env ui dt g).currentState = .OPTIONS
      ∧ (∀ events : List Event,
          (Game.processEvents ui events (Game.update env ui dt g)).optionsMenu.isBackPressed
            = true →
          (Game.frame env ui events dt' (Game.update env ui dt g)).currentState = .MENU)
      ∧ (g.optionsMenu.showingImage = false →
          (Game.frame env ui [.KeyPressed .Escape] dt' (Game.update env ui dt g)).currentState
            = .MENU))
    ∧ (g.currentState = .MENU → g.menu.isStartPressed = false →
      g.menu.isHighScorePressed = true →
      (Game.update env ui dt g).currentState = .HIGHSCORE
      ∧ (Game.handleEvent ui (Game.update env ui dt g) (.KeyPressed .Escape)).currentState
          = .MENU
      ∧ (Game.frame env ui [.KeyPressed .Escape] dt' (Game.update env ui dt g)).currentState
          = .MENU)
    ∧ (g.currentState = .GAME_OVER → g.gameOverScreen.isRetryPressed = false →
      g.gameOverScreen.isOptionsPressed = true →
      (Game.update env ui dt g).currentState = .OPTIONS
      ∧ (∀ events : List Event,
          (Game.processEvents ui events (Game.update env ui dt g)).optionsMenu.isBackPressed
            = true →
          (Game.frame env ui events dt' (Game.update env ui dt g)).currentState = .GAME_OVER)
      ∧ (g.optionsMenu.showingImage = false →
          (Game.frame env ui [.KeyPressed .Escape] dt' (Game.update env ui dt g)).currentState
            = .GAME_OVER))
    ∧ (g.currentState = .GAME_OVER → g.gameOverScreen.isRetryPressed = false →
      g.gameOverScreen.isOptionsPressed = false →
      g.gameOverScreen.isHighScorePressed = true →
      (Game.update env ui dt g).currentState = .HIGHSCORE
      ∧ (Game.handleEvent ui (Game.update env ui dt g) (.KeyPressed .Escape)).currentState
          = .GAME_OVER
      ∧ (Game.frame env ui [.KeyPressed .Escape] dt' (Game.update env ui dt g)).currentState
          = .GAME_OVER) := by
  refine ⟨?_, ?_, ?_, ?_⟩
  · intro hg h1 h2 h3
    obtain ⟨hc, hp, ho⟩ := update_menu_options env ui dt g hg h1 h2 h3
    have hb := (back_after_entering env ui dt' _ .MENU (Or.inl rfl) hp).1 hc
    exact ⟨hc, hb.1, fun himg => hb.2 (by rw [ho]; exact himg)⟩
  · intro hg h1 h2
    obtain ⟨hc, hp⟩ := update_menu_highscore env ui dt g hg h1 h2
    have hb := (back_after_entering env ui dt' _ .MENU (Or.inl rfl) hp).2 hc
    exact ⟨hc, hb.1, hb.2⟩
  · intro hg h1 h2
    obtain ⟨hc, hp, ho⟩ := update_gameOver_options env ui dt g hg h1 h2
    have hb := (back_after_entering env ui dt' _ .GAME_OVER (Or.inr rfl) hp).1 hc
    exact ⟨hc, hb.1, fun himg => hb.2 (by rw [ho]; exact himg)⟩
  · intro hg h1 h2 h3
    obtain ⟨hc, hp⟩ := update_gameOver_highscore env ui dt g hg h1 h2 h3
    have hb := (back_after_entering env ui dt' _ .GAME_OVER (Or.inr rfl) hp).2 hc
    exact ⟨hc, hb.1, hb.2⟩

/-- Witness for C18, one state for each round trip: the main menu of a new game after the keys
Down, Enter (OPTIONS chosen) and after Down, Down, Enter (HIGH SCORE chosen), and the game-over
menu with OPTIONS and with HIGH SCORE pressed. In each, `update()` enters the chosen state and
the frame with the Escape key returns to where it came from. -/
theorem back_returns_to_origin_witness :
    (menuOptionsGame.currentState = .MENU ∧ menuOptionsGame.menu.isOptionsPressed = true
      ∧ (Game.update sampleEnv sampleUi (1 / 100) menuOptionsGame).currentState = .OPTIONS
      ∧ (Game.frame sampleEnv sampleUi [.KeyPressed .Escape] (1 / 100)
          (Game.update sampleEnv sampleUi (1 / 100) menuOptionsGame)).currentState = .MENU)
    ∧ (menuHighScoreGame.currentState = .MENU
      ∧ menuHighScoreGame.menu.isHighScorePressed = true
      ∧ (Game.update sampleEnv sampleUi (1 / 100) menuHighScoreGame).currentState = .HIGHSCORE
      ∧ (Game.frame sampleEnv sampleUi [.KeyPressed .Escape] (1 / 100)
          (Game.update sampleEnv sampleUi (1 / 100) menuHighScoreGame)).currentState = .MENU)
    ∧ (gameOverOptionsGame.currentState = .GAME_OVER
      ∧ gameOverOptionsGame.gameOverScreen.isOptionsPressed = true
      ∧ (Game.update sampleEnv sampleUi (1 / 100) gameOverOptionsGame).currentState = .OPTIONS
      ∧ (Game.frame sampleEnv sampleUi [.KeyPressed .Escape] (1 / 100)
          (Game.update sampleEnv sampleUi (1 / 100) gameOverOptionsGame)).currentState
          = .GAME_OVER)
    ∧ (gameOverHighScoreGame.currentState = .GAME_OVER
      ∧ gameOverHighScoreGame.gameOverScreen.isHighScorePressed = true
      ∧ (Game.update sampleEnv sampleUi (1 / 100) gameOverHighScoreGame).currentState
          = .HIGHSCORE
      ∧ (Game.frame sampleEnv sampleUi [.KeyPressed .Escape] (1 / 100)
          (Game.update sampleEnv sampleUi (1 / 100) gameOverHighScoreGame)).currentState
          = .GAME_OVER) :=
  have w1 := (back_returns_to_origin sampleEnv sampleUi (1 / 100) (1 / 100)
    menuOptionsGame).1 rfl rfl rfl rfl
  have w2 := (back_returns_to_origin sampleEnv sampleUi (1 / 100) (1 / 100)
    menuHighScoreGame).2.1 rfl rfl rfl
  have w3 := (back_returns_to_origin sampleEnv sampleUi (1 / 100) (1 / 100)
    gameOverOptionsGame).2.2.1 rfl rfl rfl
  have w4 := (back_returns_to_origin sampleEnv sampleUi (1 / 100) (1 / 100)
    gameOverHighScoreGame).2.2.2 rfl rfl rfl rfl
  ⟨⟨rfl, rfl, w1.1, w1.2.2 rfl⟩, ⟨rfl, rfl, w2.1, w2.2.2⟩, ⟨rfl, rfl, w3.1, w3.2.2 rfl⟩,
    ⟨rfl, rfl, w4.1, w4.2.2⟩⟩

/-- C12: starting from `PLAYING` with 10 hearts and score 0 and applying one enemy-bullet hit
on the player per tick: after `n ≤ 9` hits the state is still `PLAYING` with `10 - n` hearts,
after the 10th hit the state is `GAME_OVER` with 0 hearts, and every later `update()` in
`GAME_OVER` leaves hearts, score and entity collections unchanged. The first part is the
general step (one enemy bullet that hits costs one heart, is removed, and ends the game
exactly when it takes the last heart), the second the run of `update()` on the sample state,
the third the general fact for `update()` in `GAME_OVER` without a retry, the last its
instance on the run: the bullets placed after the 10th hit stay unprocessed. -/
theorem ten_hits_end_the_game :
    (∀ (env : Env) (dt : ℚ) (g : Game) (b : Bullet), g.enemyBullets = [b] →
      env.hit (b.update dt).sprite g.player.sprite = true → 0 < g.hud.currentHearts →
      (Game.enemyBulletsVsPlayer env dt g).enemyBullets = []
      ∧ (Game.enemyBulletsVsPlayer env dt g).hud.currentHearts = g.hud.currentHearts - 1
      ∧ (Game.enemyBulletsVsPlayer env dt g).hud.score = g.hud.score
      ∧ (Game.enemyBulletsVsPlayer env dt g).currentState
          = if g.hud.currentHearts = 1 then .GAME_OVER else g.currentState)
    ∧ (freshGame.currentState = .PLAYING ∧ freshGame.hud.currentHearts = 10
      ∧ freshGame.hud.score = 0)
    ∧ (∀ n : Nat, n ≤ 9 →
      (tenHitsRun n).currentState = .PLAYING
      ∧ (tenHitsRun n).hud.currentHearts = 10 - (n : Int)
      ∧ (tenHitsRun n).hud.score = 0)
    ∧ ((tenHitsRun 10).currentState = .GAME_OVER ∧ (tenHitsRun 10).hud.currentHearts = 0
      ∧ (tenHitsRun 10).hud.score = 0)
    ∧ (∀ (env : Env) (ui : Ui) (dt : ℚ) (g : Game), g.currentState = .GAME_OVER →
      g.gameOverScreen.isRetryPressed = false →
      (Game.update env ui dt g).hud = g.hud
      ∧ (Game.update env ui dt g).enemies = g.enemies
      ∧ (Game.update env ui dt g).enemyBullets = g.enemyBullets
      ∧ (Game.update env ui dt g).playerBullets = g.playerBullets
      ∧ (Game.update env ui dt g).explosions = g.explosions
      ∧ (Game.update env ui dt g).asteroids = g.asteroids
      ∧ (Game.update env ui dt g).powerups = g.powerups
      ∧ (Game.update env ui dt g).activeBoss = g.activeBoss)
    ∧ (∀ m : Nat,
      (tenHitsRun (10 + m)).currentState = .GAME_OVER
      ∧ (tenHitsRun (10 + m)).gameOverScreen.isRetryPressed = false
      ∧ (tenHitsRun (10 + m)).hud = (tenHitsRun 10).hud
      ∧ (tenHitsRun (10 + m)).enemies = (tenHitsRun 10).enemies
      ∧ (tenHitsRun (10 + m)).playerBullets = (tenHitsRun 10).playerBullets
      ∧ (tenHitsRun (10 + m)).explosions = (tenHitsRun 10).explosions
      ∧ (tenHitsRun (10 + m)).asteroids = (tenHitsRun 10).asteroids
      ∧ (tenHitsRun (10 + m)).powerups = (tenHitsRun 10).powerups
      ∧ (tenHitsRun (10 + m)).activeBoss = (tenHitsRun 10).activeBoss
      ∧ (tenHitsRun (10 + m)).enemyBullets.length = m) := by
  refine ⟨enemyBulletsVsPlayer_single_hit, ?_, ?_, ?_, update_game_over_frame, ?_⟩
  · with_unfolding_all decide
  · intro n hn
    interval_cases n <;> with_unfolding_all decide
  · with_unfolding_all decide
  · intro m
    obtain ⟨h1, h2, h3⟩ := tenHitsRun_after_game_over m
    refine ⟨h1, ?_, h3⟩
    unfold GameOver.isRetryPressed
    rw [h2]
    rfl

/-- Witness for C12: the first hit of the run as an instance of the general step, the state
after nine hits, and the state two updates after the end of the game. -/
theorem ten_hits_end_the_game_witness :
    freshGame.placeEnemyBullet.enemyBullets
        = [{ sprite := { texture := .bulletTex, position := ⟨600, 750⟩ }, direction := ⟨0, 1⟩ }]
    ∧ (Game.enemyBulletsVsPlayer sampleEnv (1 / 100) freshGame.placeEnemyBullet).hud.currentHearts
        = freshGame.placeEnemyBullet.hud.currentHearts - 1
    ∧ (tenHitsRun 9).currentState = .PLAYING
    ∧ (tenHitsRun 9).hud.currentHearts = 10 - ((9 : Nat) : Int)
    ∧ (tenHitsRun (10 + 2)).hud = (tenHitsRun 10).hud :=
  have h9 := ten_hits_end_the_game.2.2.1 9 (by decide)
  ⟨rfl,
    (ten_hits_end_the_game.1 sampleEnv (1 / 100) freshGame.placeEnemyBullet _ rfl
      (by with_unfolding_all decide) (by decide)).2.1,
    h9.1, h9.2.1, (ten_hits_end_the_game.2.2.2.2.2 2).2.2.1⟩

/-- C11: `saveHighScore` is only ever called with a value strictly greater than the previously
known high score, and only when the player's hearts are 0; consequently `currentHighScore`
never decreases across a tick. For every tick of `updatePlaying`: the values saved in the
tick, preceded by the high score known before the tick, are strictly increasing, and the high
score known after the tick is the largest of them, so it has not decreased; a tick that saves
ends in `GAME_OVER`; and from a state with the hearts in `[0, maxHearts]` every call of the
tick is made with 0 hearts. -/
theorem high_score_saved_on_death_only (env : Env) (dt : ℚ) (g : Game) :
    (∃ new : List Int,
      (Game.updatePlaying env dt g).saveCalls = g.saveCalls ++ new
      ∧ (g.currentHighScore :: new).Pairwise (fun a b => a < b)
      ∧ (∀ x ∈ g.currentHighScore :: new, x ≤ (Game.updatePlaying env dt g).currentHighScore)
      ∧ (Game.updatePlaying env dt g).currentHighScore ∈ g.currentHighScore :: new)
    ∧ g.currentHighScore ≤ (Game.updatePlaying env dt g).currentHighScore
    ∧ ((Game.updatePlaying env dt g).saveCalls ≠ g.saveCalls →
        (Game.updatePlaying env dt g).currentState = .GAME_OVER)
    ∧ (g.hud.heartsInRange →
        (Game.updatePlaying env dt g).saveHearts
          = g.saveHearts
            ++ List.replicate
                ((Game.updatePlaying env dt g).saveCalls.length - g.saveCalls.length) 0) := by
  have ht := tickSteps_updatePlaying env dt g
  obtain ⟨hp1, hp2, hp3⟩ := books_pauseActions g
  obtain ⟨new, h1, h2, h3, h4⟩ := tickSteps_saves ht
  rw [hp1] at h2 h3 h4
  rw [hp2] at h1
  refine ⟨⟨new, h1, h2, h3, h4⟩, h3 _ (List.mem_cons_self _ _), ?_, ?_⟩
  · intro hne
    have hg := tickSteps_game_over ht
    rw [hp2] at hg
    apply hg.2
    right
    rw [h1, List.length_append]
    have hnew : new ≠ [] := by
      intro hn
      rw [hn, List.append_nil] at h1
      exact hne h1
    have := List.length_pos.2 hnew
    omega
  · intro hr
    have hr1 : g.pauseActions.hud.heartsInRange := by
      rcases pauseActions_hud g with hh | hh
      · rw [hh]
        exact hr
      · rw [hh]
        exact heartsInRange_reset _ hr
    have hs := (tickSteps_saveHearts ht hr1).2.2
    rw [hp2, hp3] at hs
    exact hs

/-- Witness for C11: a tick in which an enemy takes the last five hearts with the score 120
above the stored high score 100: 120 is saved, with 0 hearts. -/
theorem high_score_saved_on_death_only_witness :
    enemyCrashGame.hud.heartsInRange
    ∧ (Game.updatePlaying sampleEnv (1 / 100) enemyCrashGame).saveCalls = [120]
    ∧ (Game.updatePlaying sampleEnv (1 / 100) enemyCrashGame).saveHearts
        = enemyCrashGame.saveHearts
          ++ List.replicate
              ((Game.updatePlaying sampleEnv (1 / 100) enemyCrashGame).saveCalls.length
                - enemyCrashGame.saveCalls.length) 0 :=
  have hr : enemyCrashGame.hud.heartsInRange :=
    ⟨show (0 : Int) ≤ 5 by decide, show (5 : Int) ≤ 10 by decide⟩
  ⟨hr, by with_unfolding_all decide,
    (high_score_saved_on_death_only sampleEnv (1 / 100) enemyCrashGame).2.2.2 hr⟩

/-- C21: when a powerup overlaps the player it is removed and exactly its type's effect is
applied: SCORE_BONUS adds 50 to the score and leaves the hearts and the player unchanged;
HEAL sets the hearts to `min (hearts + 3) maxHearts` and leaves the score and the player
unchanged; TRIPLE_SHOT sets `tripleShotTimer` of the player to 10 and leaves score and hearts
unchanged. Stated for the iteration of the powerup loop that meets the overlap (the loop goes
on at the same index from the state `g1`) and for the whole pass when the powerup is the only
one. -/
theorem powerup_pickup_effect (env : Env) (dt : ℚ) (g : Game) :
    (∀ (fuel i : Nat) (hi : i < g.powerups.length),
      env.hit ((g.powerups[i]).update dt).sprite g.player.sprite = true →
      ∃ g1 : Game,
        Game.updatePowerupsLoop env dt (fuel + 1) i g
          = Game.updatePowerupsLoop env dt fuel i g1
        ∧ g1.powerups = g.powerups.eraseIdx i
        ∧ ((g.powerups[i]).getType = .SCORE_BONUS →
            g1.hud.score = g.hud.score + 50 ∧ g1.hud.currentHearts = g.hud.currentHearts
            ∧ g1.player = g.player)
        ∧ ((g.powerups[i]).getType = .HEAL →
            g1.hud.currentHearts = min (g.hud.currentHearts + 3) g.hud.maxHearts
            ∧ g1.hud.score = g.hud.score ∧ g1.player = g.player)
        ∧ ((g.powerups[i]).getType = .TRIPLE_SHOT →
            g1.player = { g.player with tripleShotTimer := 10 }
            ∧ g1.hud.score = g.hud.score ∧ g1.hud.currentHearts = g.hud.currentHearts))
    ∧ (∀ p : Powerup, g.powerups = [p] →
      env.hit (p.update dt).sprite g.player.sprite = true →
      (Game.updatePowerups env dt g).powerups = []
      ∧ (p.getType = .SCORE_BONUS →
          (Game.updatePowerups env dt g).hud.score = g.hud.score + 50
          ∧ (Game.updatePowerups env dt g).hud.currentHearts = g.hud.currentHearts
          ∧ (Game.updatePowerups env dt g).player = g.player)
      ∧ (p.getType = .HEAL →
          (Game.updatePowerups env dt g).hud.currentHearts
            = min (g.hud.currentHearts + 3) g.hud.maxHearts
          ∧ (Game.updatePowerups env dt g).hud.score = g.hud.score
          ∧ (Game.updatePowerups env dt g).player = g.player)
      ∧ (p.getType = .TRIPLE_SHOT →
          (Game.updatePowerups env dt g).player = { g.player with tripleShotTimer := 10 }
          ∧ (Game.updatePowerups env dt g).hud.score = g.hud.score
          ∧ (Game.updatePowerups env dt g).hud.currentHearts = g.hud.currentHearts)) := by
  have effect : ∀ t : PowerupType,
      (t = .SCORE_BONUS →
        (Game.applyPowerup t g).hud.score = g.hud.score + 50
        ∧ (Game.applyPowerup t g).hud.currentHearts = g.hud.currentHearts
        ∧ (Game.applyPowerup t g).player = g.player)
      ∧ (t = .HEAL →
        (Game.applyPowerup t g).hud.currentHearts
          = min (g.hud.currentHearts + 3) g.hud.maxHearts
        ∧ (Game.applyPowerup t g).hud.score = g.hud.score
        ∧ (Game.applyPowerup t g).player = g.player)
      ∧ (t = .TRIPLE_SHOT →
        (Game.applyPowerup t g).player = { g.player with tripleShotTimer := 10 }
        ∧ (Game.applyPowerup t g).hud.score = g.hud.score
        ∧ (Game.applyPowerup t g).hud.currentHearts = g.hud.currentHearts) := by
    intro t
    refine ⟨?_, ?_, ?_⟩ <;> intro ht <;> subst ht <;> exact ⟨rfl, rfl, rfl⟩
  constructor
  · intro fuel i hi hhit
    exact ⟨_, updatePowerupsLoop_pickup env dt fuel i g hi hhit, rfl,
      effect (g.powerups[i]).getType⟩
  · intro p hp hhit
    have hi : 0 < g.powerups.length := by simp [hp]
    have hget : g.powerups[0] = p := by simp [hp]
    have hrun : Game.updatePowerups env dt g
        = { Game.applyPowerup p.getType g with powerups := g.powerups.eraseIdx 0 } := by
      unfold Game.updatePowerups
      rw [hp, List.length_singleton, ← hp,
        updatePowerupsLoop_pickup env dt 0 0 g hi (by rw [hget]; exact hhit), hget]
      rfl
    rw [hrun]
    refine ⟨?_, effect p.getType⟩
    show g.powerups.eraseIdx 0 = []
    rw [hp]
    rfl

/-- Witness for C21: the pass over a single HEAL powerup that overlaps the player, at 4
hearts. -/
theorem powerup_pickup_effect_witness :
    (powerupGame .HEAL).powerups = [samplePowerup .HEAL ⟨600, 748⟩]
    ∧ (Game.updatePowerups sampleEnv (1 / 100) (powerupGame .HEAL)).powerups = []
    ∧ (Game.updatePowerups sampleEnv (1 / 100) (powerupGame .HEAL)).hud.currentHearts
        = min ((powerupGame .HEAL).hud.currentHearts + 3) (powerupGame .HEAL).hud.maxHearts :=
  have h := (powerup_pickup_effect sampleEnv (1 / 100) (powerupGame .HEAL)).2
    (samplePowerup .HEAL ⟨600, 748⟩) rfl (by with_unfolding_all decide)
  ⟨rfl, h.1, (h.2.2.1 rfl).1⟩

/-- C30: `ScreenShake::getOffset` never divides by zero. In every state reachable from the
default state through `shake(amount, duration)` and `update(dt)` with `dt ≥ 0`, whenever
`shakeTimer < shakeDuration` (the division is reached) `maxShakeDuration` is strictly positive
and the intensity `(shakeDuration - shakeTimer) / maxShakeDuration` lies in `(0, 1]`; so
`getOffset` always has a value. -/
theorem getOffset_never_divides_by_zero (env : Env) (s : ScreenShake) (h : ShakeReachable s) :
    (s.shakeTimer < s.shakeDuration →
      0 < s.maxShakeDuration
      ∧ 0 < (s.shakeDuration - s.shakeTimer) / s.maxShakeDuration
      ∧ (s.shakeDuration - s.shakeTimer) / s.maxShakeDuration ≤ 1)
    ∧ (s.getOffset env).isSome = true := by
  obtain ⟨h1, h2⟩ := shakeReachable_inv h
  have key : s.shakeTimer < s.shakeDuration → 0 < s.maxShakeDuration := by
    intro hlt
    rw [h1]
    exact lt_of_le_of_lt h2 hlt
  constructor
  · intro hlt
    have hpos := key hlt
    refine ⟨hpos, div_pos (by linarith) hpos, ?_⟩
    rw [div_le_one hpos, h1]
    linarith
  · unfold ScreenShake.getOffset
    by_cases hge : s.shakeTimer ≥ s.shakeDuration
    · rw [if_pos hge]
      rfl
    · have hpos := key (not_le.1 hge)
      rw [if_neg hge, if_neg (ne_of_gt hpos)]
      rfl

/-- Witness for C30: the shake started by an enemy collision, 100 ms later. -/
theorem getOffset_never_divides_by_zero_witness :
    ShakeReachable ((({} : ScreenShake).shake 4 (3 / 10)).update (1 / 10))
    ∧ (((({} : ScreenShake).shake 4 (3 / 10)).update (1 / 10)).getOffset sampleEnv).isSome
        = true :=
  have hr : ShakeReachable ((({} : ScreenShake).shake 4 (3 / 10)).update (1 / 10)) :=
    ShakeReachable.update _ _ (ShakeReachable.shake _ _ _ ShakeReachable.default) (by norm_num)
  ⟨hr, (getOffset_never_divides_by_zero sampleEnv _ hr).2⟩

/-- C26: `nextBossScore = 500 + 600 * bossCount` holds in every reachable state: it holds in
the state the constructor leaves, it holds after `resetGame()` whatever the state before, it
is preserved by every tick of `updatePlaying`, and so it holds in every state reachable through
`processEvents()` and `update()`. -/
theorem nextBossScore_tracks_bossCount (env : Env) (dt : ℚ) (highScore : Int) (g : Game) :
    (Game.new env highScore).nextBossScore = 500 + 600 * (Game.new env highScore).bossCount
    ∧ g.resetGame.nextBossScore = 500 + 600 * g.resetGame.bossCount
    ∧ (g.nextBossScore = 500 + 600 * g.bossCount →
        (Game.updatePlaying env dt g).nextBossScore
          = 500 + 600 * (Game.updatePlaying env dt g).bossCount)
    ∧ (Reachable g → g.nextBossScore = 500 + 600 * g.bossCount) :=
  ⟨rfl, rfl, (updatePlaying_frame env dt g).2, fun h => (reachable_inv h).2⟩

/-- Witness for C26: the tick in which the last hit defeats the first boss takes
`bossCount`, `nextBossScore` from 0, 500 to 1, 1100. -/
theorem nextBossScore_tracks_bossCount_witness :
    sampleLastHitGame.nextBossScore = 500 + 600 * sampleLastHitGame.bossCount
    ∧ (Game.updatePlaying sampleEnv (1 / 100) sampleLastHitGame).bossCount = 1
    ∧ (Game.updatePlaying sampleEnv (1 / 100) sampleLastHitGame).nextBossScore
        = 500 + 600 * (Game.updatePlaying sampleEnv (1 / 100) sampleLastHitGame).bossCount :=
  ⟨rfl, by with_unfolding_all decide,
    (nextBossScore_tracks_bossCount sampleEnv (1 / 100) 0 sampleLastHitGame).2.2.1 rfl⟩

/-- C29: `previousState` is always `MENU` or `GAME_OVER`: in every state reachable through
`update()` and `processEvents()` it is one of these two values, so the back action from
`OPTIONS` (`update()` with back pressed) and from `HIGHSCORE` (the Escape key event) moves the
machine to `MENU` or `GAME_OVER`, never to `PLAYING`, `LOADING`, `OPTIONS` or `HIGHSCORE`. -/
theorem previousState_menu_or_game_over (g : Game) (h : Reachable g) :
    (g.previousState = .MENU ∨ g.previousState = .GAME_OVER)
    ∧ (∀ (env : Env) (ui : Ui) (dt : ℚ), g.currentState = .OPTIONS →
        g.optionsMenu.isBackPressed = true →
        (Game.update env ui dt g).currentState = .MENU
        ∨ (Game.update env ui dt g).currentState = .GAME_OVER)
    ∧ (∀ ui : Ui, g.currentState = .HIGHSCORE →
        (Game.handleEvent ui g (.KeyPressed .Escape)).currentState = .MENU
        ∨ (Game.handleEvent ui g (.KeyPressed .Escape)).currentState = .GAME_OVER) := by
  have hp : g.previousState = .MENU ∨ g.previousState = .GAME_OVER := (reachable_inv h).1
  refine ⟨hp, ?_, ?_⟩
  · intro env ui dt hs hb
    rw [update_options_back env ui dt g hs hb]
    exact hp
  · intro ui hs
    have he : (Game.handleEvent ui g (.KeyPressed .Escape)).currentState = g.previousState := by
      unfold Game.handleEvent
      rcases hp with hp | hp <;> simp [hs, hp]
    rw [he]
    exact hp

/-- Witness for C29: the high-score screen entered from the main menu in the first frames of a
run; Escape returns to `MENU`. -/
theorem previousState_menu_or_game_over_witness :
    Reachable highScoreScreenGame
    ∧ highScoreScreenGame.currentState = .HIGHSCORE
    ∧ ((Game.handleEvent sampleUi highScoreScreenGame (.KeyPressed .Escape)).currentState
          = .MENU
        ∨ (Game.handleEvent sampleUi highScoreScreenGame (.KeyPressed .Escape)).currentState
          = .GAME_OVER) :=
  have hr : Reachable highScoreScreenGame :=
    Reachable.update _ _ _ _ (Reachable.events _ _ _ (Reachable.init sampleEnv 0))
  have hs : highScoreScreenGame.currentState = .HIGHSCORE := by with_unfolding_all decide
  ⟨hr, hs, (previousState_menu_or_game_over highScoreScreenGame hr).2.2 sampleUi hs⟩

set_option maxRecDepth 4000 in
/-- C27, the code on the failing input: the enemy takes the last five hearts, the death check
saves the score 120 and sets `GAME_OVER`, and the powerup pass of the same tick then adds 50:
the tick ends with score 170 while the value saved, and `currentHighScore`, is 120; the
`update()` calls that follow in `GAME_OVER` save nothing. -/
theorem save_misses_later_score :
    crashAndBonusGame.currentState = .PLAYING
    ∧ crashAndBonusGame.pauseMenu.isPaused = false
    ∧ crashAndBonusGame.saveCalls = []
    ∧ (Game.updatePlaying sampleEnv (1 / 100) crashAndBonusGame).currentState = .GAME_OVER
    ∧ (Game.updatePlaying sampleEnv (1 / 100) crashAndBonusGame).saveCalls = [120]
    ∧ (Game.updatePlaying sampleEnv (1 / 100) crashAndBonusGame).currentHighScore = 120
    ∧ (Game.updatePlaying sampleEnv (1 / 100) crashAndBonusGame).hud.getScore = 170
    ∧ (Game.update sampleEnv sampleUi (1 / 100)
        (Game.updatePlaying sampleEnv (1 / 100) crashAndBonusGame)).saveCalls = [120] := by
  have hsave : (Game.updatePlaying sampleEnv (1 / 100) crashAndBonusGame).saveCalls = [120] := by
    with_unfolding_all decide
  have hhigh : (Game.updatePlaying sampleEnv (1 / 100) crashAndBonusGame).currentHighScore
      = 120 := by
    with_unfolding_all decide
  have hscore : (Game.updatePlaying sampleEnv (1 / 100) crashAndBonusGame).hud.getScore
      = 170 := by
    with_unfolding_all decide
  have hstate : (Game.updatePlaying sampleEnv (1 / 100) crashAndBonusGame).currentState
      = .GAME_OVER := by
    refine (tickSteps_game_over
      (tickSteps_updatePlaying sampleEnv (1 / 100) crashAndBonusGame)).2 (Or.inr ?_)
    rw [hsave]
    exact Nat.zero_lt_one
  have hmenu : (Game.updatePlaying sampleEnv (1 / 100) crashAndBonusGame).gameOverScreen.menu
      = {} := by
    with_unfolding_all decide
  refine ⟨rfl, rfl, rfl, hstate, hsave, hhigh, hscore, ?_⟩
  rw [update_game_over_idle sampleEnv sampleUi (1 / 100) _ hstate hmenu]
  exact hsave

/-- C23, counterexample: an asteroid with 15 health points that lies below the bottom edge,
does not overlap the player and is overlapped by no player bullet is removed by the asteroid
pass, and the score does not change: it is removed although `n = 0 < 15 = h`, and its removal
adds no score. -/
theorem sunk_asteroid_removed_unhit :
    sunkAsteroidGame.asteroids.map (fun a => (a.isAlive, a.health)) = [(true, 15)]
    ∧ sunkAsteroidGame.asteroids.map
        (fun a => sampleEnv.hit sunkAsteroidGame.player.sprite (a.update (1 / 100)).sprite)
        = [false]
    ∧ sunkAsteroidGame.playerBullets.countP
        (fun b => sampleEnv.hit ((sampleAsteroid ⟨100, 950⟩).update (1 / 100)).sprite b.sprite)
        = 0
    ∧ (Game.updateAsteroids sampleEnv (1 / 100) sunkAsteroidGame).asteroids = []
    ∧ (Game.updateAsteroids sampleEnv (1 / 100) sunkAsteroidGame).hud.score
        = sunkAsteroidGame.hud.score
    ∧ ¬ ((Game.updateAsteroids sampleEnv (1 / 100) sunkAsteroidGame).asteroids = []
          ↔ (15 : Int) ≤ ((sunkAsteroidGame.playerBullets.countP
              (fun b => sampleEnv.hit ((sampleAsteroid ⟨100, 950⟩).update (1 / 100)).sprite
                b.sprite) : Nat) : Int))
    ∧ (Game.updateAsteroids sampleEnv (1 / 100) sunkAsteroidGame).hud.score
        ≠ sunkAsteroidGame.hud.score + 30 := by
  have h4 : (Game.updateAsteroids sampleEnv (1 / 100) sunkAsteroidGame).asteroids = [] := by
    with_unfolding_all decide
  have h5 : (Game.updateAsteroids sampleEnv (1 / 100) sunkAsteroidGame).hud.score = 520 := by
    with_unfolding_all decide
  refine ⟨by with_unfolding_all decide, by with_unfolding_all decide, rfl, h4, h5, ?_, ?_⟩
  · intro h
    exact absurd (h.1 h4) (by decide)
  · rw [h5]
    decide

/-- C23, amended: one iteration of the asteroid loop for a live asteroid (`isAlive` set,
health `h > 0`) that after its update neither overlaps the player nor lies below the bottom
edge, with `n` player bullets overlapping it. Exactly the `n` overlapping bullets are erased
and each takes 1 health point. If `n ≥ h` the asteroid is erased and the score grows by
exactly 30; if `n < h` the asteroid stays, with health `h - n`, and the score is unchanged.
A new asteroid is live and has health 15, so it is destroyed by 15 hits and not before. -/
theorem asteroid_under_fire (env : Env) (dt : ℚ) (fuel ai : Nat) (g : Game)
    (hi : ai < g.asteroids.length)
    (halive : (g.asteroids[ai]).isAlive = true) (hh : 0 < (g.asteroids[ai]).health)
    (hplayer : env.hit g.player.sprite ((g.asteroids[ai]).update dt).sprite = false)
    (hedge : ((g.asteroids[ai]).update dt).sprite.position.y ≤ (windowHeight : ℚ)) :
    (∃ g1 : Game,
      g1.playerBullets
        = g.playerBullets.filter
            (fun b => !env.hit ((g.asteroids[ai]).update dt).sprite b.sprite)
      ∧ ((g.asteroids[ai]).health
            ≤ ((g.playerBullets.countP
                (fun b => env.hit ((g.asteroids[ai]).update dt).sprite b.sprite) : Nat) : Int) →
          Game.updateAsteroidsLoop env dt (fuel + 1) ai g
            = Game.updateAsteroidsLoop env dt fuel ai g1
          ∧ g1.asteroids = g.asteroids.eraseIdx ai
          ∧ g1.hud.score = g.hud.score + 30)
      ∧ (((g.playerBullets.countP
              (fun b => env.hit ((g.asteroids[ai]).update dt).sprite b.sprite) : Nat) : Int)
            < (g.asteroids[ai]).health →
          Game.updateAsteroidsLoop env dt (fuel + 1) ai g
            = Game.updateAsteroidsLoop env dt fuel (ai + 1) g1
          ∧ g1.asteroids = g.asteroids.set ai
              { (g.asteroids[ai]).update dt with
                health := (g.asteroids[ai]).health
                  - ((g.playerBullets.countP
                      (fun b => env.hit ((g.asteroids[ai]).update dt).sprite b.sprite) : Nat)
                      : Int) }
          ∧ g1.hud.score = g.hud.score))
    ∧ ∀ (texture : Texture) (x y : ℚ),
        (Asteroid.new env texture x y).isAlive = true
        ∧ (Asteroid.new env texture x y).health = 15 := by
  refine ⟨?_, fun _ _ _ => ⟨rfl, rfl⟩⟩
  have hwf : ((g.asteroids[ai]).update dt).isAlive
      = decide (0 < ((g.asteroids[ai]).update dt).health) := by
    rw [isAlive_update, health_update, halive]
    simp [hh]
  have hg1 : ({ g with asteroids := g.asteroids.set ai ((g.asteroids[ai]).update dt) }
      : Game).asteroids[ai]? = some ((g.asteroids[ai]).update dt) := by
    simp [hi]
  have hlist := asteroidVsBulletsLoop_asteroids env ai g.playerBullets.length 0
    { g with asteroids := g.asteroids.set ai ((g.asteroids[ai]).update dt) } _ hg1 hwf
    (by simp)
  obtain ⟨a1, _, _, _, hbul⟩ := asteroidVsBulletsLoop_outcome env ai g.playerBullets.length 0
    { g with asteroids := g.asteroids.set ai ((g.asteroids[ai]).update dt) } _ hg1 (by simp)
  have hhud := hud_asteroidVsBulletsLoop env ai g.playerBullets.length 0
    { g with asteroids := g.asteroids.set ai ((g.asteroids[ai]).update dt) }
  simp only [List.drop_zero, List.take_zero, List.nil_append, List.set_set, health_update]
    at hlist hbul hhud
  have hget : (Game.asteroidVsBulletsLoop env ai g.playerBullets.length 0
      { g with asteroids := g.asteroids.set ai ((g.asteroids[ai]).update dt) }).asteroids[ai]?
      = some { (g.asteroids[ai]).update dt with
          health := (g.asteroids[ai]).health
            - ((g.playerBullets.countP
                (fun b => env.hit ((g.asteroids[ai]).update dt).sprite b.sprite) : Nat) : Int),
          isAlive := decide (0 < (g.asteroids[ai]).health
            - ((g.playerBullets.countP
                (fun b => env.hit ((g.asteroids[ai]).update dt).sprite b.sprite) : Nat)
                : Int)) } := by
    rw [hlist]
    simp [hi]
  rw [Game.updateAsteroidsLoop]
  simp only [dif_pos hi]
  rw [if_neg (by rw [hplayer]; simp)]
  unfold Game.asteroidVsBullets
  simp only [hget]
  by_cases hn : (g.asteroids[ai]).health
      ≤ ((g.playerBullets.countP
          (fun b => env.hit ((g.asteroids[ai]).update dt).sprite b.sprite) : Nat) : Int)
  · have hdec : decide (0 < (g.asteroids[ai]).health
        - ((g.playerBullets.countP
            (fun b => env.hit ((g.asteroids[ai]).update dt).sprite b.sprite) : Nat) : Int))
        = false := by
      simp only [decide_eq_false_iff_not]
      omega
    simp only [hdec, Game.removeAsteroidIfGone, Bool.not_false, if_true]
    refine ⟨_, ?_, fun _ => ⟨rfl, ?_, ?_⟩, fun h => absurd hn (not_le.2 h)⟩
    · simp only [Game.addExplosion]
      exact hbul
    · simp only [Game.addExplosion, hlist, eraseIdx_set_self]
    · simp only [Game.addExplosion, HUD.addScore, hhud]
  · have hdec : decide (0 < (g.asteroids[ai]).health
        - ((g.playerBullets.countP
            (fun b => env.hit ((g.asteroids[ai]).update dt).sprite b.sprite) : Nat) : Int))
        = true := by
      simp only [decide_eq_true_eq]
      omega
    have hy : ¬ ((g.asteroids[ai]).update dt).sprite.position.y > (windowHeight : ℚ) :=
      not_lt.2 hedge
    simp only [hdec, Game.removeAsteroidIfGone, Bool.not_true, if_neg hy]
    refine ⟨_, hbul, fun h => absurd h hn, fun _ => ⟨rfl, ?_, congrArg HUD.score hhud⟩⟩
    rw [hlist, hdec]
    rw [← isAlive_update _ dt] at halive
    exact congrArg _ (with_isAlive_true _ _ halive)

/-- Witness for C23 (amended): an asteroid with 15 health points overlapped by two of three
player bullets stays, with health 13, and the bullet that does not overlap it is left. -/
theorem asteroid_under_fire_witness :
    asteroidUnderFireGame.asteroids.map (fun a => (a.isAlive, a.health)) = [(true, 15)]
    ∧ (Game.updateAsteroids sampleEnv (1 / 100) asteroidUnderFireGame).asteroids.map
        (fun a => a.health) = [13]
    ∧ (Game.updateAsteroids sampleEnv (1 / 100) asteroidUnderFireGame).playerBullets.map
        (fun b => b.sprite.position) = [⟨300, 300⟩]
    ∧ (Game.updateAsteroids sampleEnv (1 / 100) asteroidUnderFireGame).hud.score
        = asteroidUnderFireGame.hud.score := by
  obtain ⟨g1, hb, _, hlt⟩ :=
    (asteroid_under_fire sampleEnv (1 / 100) 0 0 asteroidUnderFireGame (by decide) rfl
      (by decide) (by with_unfolding_all decide) (by with_unfolding_all decide)).1
  obtain ⟨h1, h2, h3⟩ := hlt (by with_unfolding_all decide)
  have hrun : Game.updateAsteroids sampleEnv (1 / 100) asteroidUnderFireGame = g1 := h1
  rw [hrun, h2, hb, h3]
  exact ⟨rfl, by with_unfolding_all decide, by with_unfolding_all decide, rfl⟩

/-- C22: the boss-vs-player-bullet pass for a boss with hp `h > 0` and `n` overlapping player
bullets. Exactly `min n (ceil(h / 10))` bullets are removed. If `n < ceil(h / 10)` the boss
stays with hp `h - 10 n` (and needs `ceil(h / 10) - n` more hits), exactly the overlapping
bullets are removed and nothing is booked. Otherwise the pass stops at the lethal bullet,
the `ceil(h / 10)`-th overlapping one: the overlapping bullets up to it are removed, the
bullets after it are left as they are, the boss is gone, and the defeat is booked once
(score + 100, one more defeated enemy, `bossCount + 1`, `nextBossScore + 600`). A boss spawned
at `bossCount = k` has hp `250 + 100 k` and so needs exactly `25 + 10 k` hits. -/
theorem boss_under_fire (env : Env) (g : Game) (boss : Boss)
    (hb : g.activeBoss = some boss) (hhp : 0 < boss.hp) :
    (Game.bossVsBullets env g).playerBullets.length
        + min (g.playerBullets.countP (fun b => env.hit boss.sprite b.sprite))
            (hitsToKill boss.hp)
      = g.playerBullets.length
    ∧ (g.playerBullets.countP (fun b => env.hit boss.sprite b.sprite) < hitsToKill boss.hp →
        (Game.bossVsBullets env g).activeBoss
          = some { boss with hp := boss.hp
              - 10 * ((g.playerBullets.countP (fun b => env.hit boss.sprite b.sprite) : Nat)
                  : Int) }
        ∧ hitsToKill (boss.hp
              - 10 * ((g.playerBullets.countP (fun b => env.hit boss.sprite b.sprite) : Nat)
                  : Int))
            = hitsToKill boss.hp
              - g.playerBullets.countP (fun b => env.hit boss.sprite b.sprite)
        ∧ (Game.bossVsBullets env g).playerBullets
            = g.playerBullets.filter (fun b => !env.hit boss.sprite b.sprite)
        ∧ (Game.bossVsBullets env g).hud = g.hud
        ∧ (Game.bossVsBullets env g).bossCount = g.bossCount
        ∧ (Game.bossVsBullets env g).nextBossScore = g.nextBossScore)
    ∧ (hitsToKill boss.hp ≤ g.playerBullets.countP (fun b => env.hit boss.sprite b.sprite) →
        ∃ (pre : List Bullet) (b : Bullet) (post : List Bullet),
          g.playerBullets = pre ++ b :: post
          ∧ env.hit boss.sprite b.sprite = true
          ∧ pre.countP (fun b => env.hit boss.sprite b.sprite) + 1 = hitsToKill boss.hp
          ∧ (Game.bossVsBullets env g).activeBoss = none
          ∧ (Game.bossVsBullets env g).playerBullets
              = pre.filter (fun b => !env.hit boss.sprite b.sprite) ++ post
          ∧ (Game.bossVsBullets env g).hud = (g.hud.addScore 100).addEnemyDefeated
          ∧ (Game.bossVsBullets env g).bossCount = g.bossCount + 1
          ∧ (Game.bossVsBullets env g).nextBossScore = g.nextBossScore + 600)
    ∧ (∀ (g0 : Game) (b : Boss), 0 ≤ g0.bossCount →
        (Game.bossSpawning env g0).activeBoss = some b → g0.activeBoss = none →
        b.hp = 250 + 100 * g0.bossCount ∧ hitsToKill b.hp = 25 + 10 * g0.bossCount.toNat) := by
  have hk : ∀ (h : Int) (c : Nat), 0 < h → 10 * (c : Int) < h → c < hitsToKill h := by
    intro h c _ hc
    unfold hitsToKill
    omega
  have hk2 : ∀ (h : Int) (c : Nat), 10 * (c : Int) < h → h ≤ 10 * ((c : Int) + 1) →
      c + 1 = hitsToKill h := by
    intro h c h1 h2
    unfold hitsToKill
    omega
  have hk3 : ∀ (h : Int) (c : Nat), 10 * (c : Int) < h →
      hitsToKill (h - 10 * (c : Int)) = hitsToKill h - c := by
    intro h c h1
    unfold hitsToKill
    omega
  have hspawn : ∀ (g0 : Game) (b : Boss), 0 ≤ g0.bossCount →
      (Game.bossSpawning env g0).activeBoss = some b → g0.activeBoss = none →
      b.hp = 250 + 100 * g0.bossCount ∧ hitsToKill b.hp = 25 + 10 * g0.bossCount.toNat := by
    intro g0 b h0 hs hnone
    unfold Game.bossSpawning at hs
    split_ifs at hs with hc
    · have hb0 : b.hp = 250 + g0.bossCount * 100 := by
        simp only [Boss.new, Option.some.injEq] at hs
        rw [← hs]
      refine ⟨by rw [hb0]; ring, ?_⟩
      rw [hb0]
      unfold hitsToKill
      omega
    · rw [hnone] at hs
      exact absurd hs (by simp)
  have hloop := bossVsBulletsLoop_bullets env g.playerBullets.length 0 g boss hb hhp (by omega)
  simp only [List.drop_zero, List.take_zero, List.nil_append] at hloop
  unfold Game.bossVsBullets
  rcases hloop with ⟨h2, h3, h4, h5, h6, h7⟩ | ⟨pre, b, post, h2, h3, h4, h5, h6, h7, h8, h9, h10⟩
  · have hlt := hk _ _ hhp h2
    refine ⟨?_, fun _ => ⟨h3, hk3 _ _ h2, h4, h5, h6, h7⟩, fun hle => absurd hlt (not_lt.2 hle),
      hspawn⟩
    rw [h4, min_eq_left (le_of_lt hlt)]
    exact length_filter_not_add_countP _ _
  · have heq := hk2 _ _ h4 h5
    have hn : g.playerBullets.countP (fun b => env.hit boss.sprite b.sprite)
        = pre.countP (fun b => env.hit boss.sprite b.sprite) + 1
          + post.countP (fun b => env.hit boss.sprite b.sprite) := by
      have hcp : (b :: post).countP (fun b => env.hit boss.sprite b.sprite)
          = post.countP (fun b => env.hit boss.sprite b.sprite) + 1 :=
        List.countP_cons_of_pos _ _ h3
      rw [h2, List.countP_append, hcp]
      omega
    refine ⟨?_, fun hlt => ?_, fun _ => ⟨pre, b, post, h2, h3, heq, h6, h7, h8, h9, h10⟩,
      hspawn⟩
    · rw [h7, min_eq_right (by omega), ← heq]
      have hl := length_filter_not_add_countP (fun b => env.hit boss.sprite b.sprite) pre
      rw [h2]
      simp only [List.length_append, List.length_cons]
      omega
    · omega

/-- Witness for C22: a boss with 20 hp and four player bullets, of which the first, third and
fourth overlap it; the pass removes the first and the third and leaves the other two. -/
theorem boss_under_fire_witness :
    bossBarrageGame.activeBoss = some { sampleBoss ⟨600, 150⟩ with hp := 20 }
    ∧ (0 : Int) < 20
    ∧ (Game.bossVsBullets sampleEnv bossBarrageGame).playerBullets.length
        + min (bossBarrageGame.playerBullets.countP
            (fun b => sampleEnv.hit (sampleBoss ⟨600, 150⟩).sprite b.sprite))
          (hitsToKill 20)
        = bossBarrageGame.playerBullets.length
    ∧ (Game.bossVsBullets sampleEnv bossBarrageGame).playerBullets.map
        (fun b => b.sprite.position) = [⟨300, 300⟩, ⟨600, 153⟩] :=
  ⟨rfl, by decide,
    (boss_under_fire sampleEnv bossBarrageGame { sampleBoss ⟨600, 150⟩ with hp := 20 } rfl
      (by decide)).1,
    by with_unfolding_all rfl⟩

/-- C25: the erase-while-iterating enemy pass neither skips nor double-visits an enemy. For
every game the enemy list after the pass is the list of the enemies at its start, each updated
once by `Enemy::update`, filtered in one go: those that after their update neither overlap
the player nor lie below the bottom edge stay, in their original order. -/
theorem enemy_pass_is_a_filter (env : Env) (dt : ℚ) (g : Game) :
    (Game.updateEnemies env dt g).enemies = Game.updateEnemiesByFilter env dt g := by
  have h := updateEnemiesLoop_enemies env dt g.enemies.length 0 g (by omega)
  rw [List.drop_zero, List.take_zero, List.nil_append] at h
  exact h

end SpaceShooter
